import Mathlib

set_option autoImplicit false

/-!
Deferred renderer: render pass, frame uniform buffer, binding model, command recording.

A shallow embedding of `deferred/source/deferred_renderer.cpp` (class
`vks::DeferredRenderer`).  Vulkan objects are handles, the device is an explicit
state that records which objects are live, and the command buffers are lists of
recorded commands.  Sizes the source computes in `uint32_t` are natural numbers
reduced modulo `2^32`.
-/

namespace vks

/-! ## Vulkan enumerations and constants used by the renderer -/

/-- Image layouts named in `SetupRenderPass`. -/
inductive VkImageLayout
  | VK_IMAGE_LAYOUT_UNDEFINED
  | VK_IMAGE_LAYOUT_COLOR_ATTACHMENT_OPTIMAL
  | VK_IMAGE_LAYOUT_DEPTH_STENCIL_ATTACHMENT_OPTIMAL
  | VK_IMAGE_LAYOUT_SHADER_READ_ONLY_OPTIMAL
  | VK_IMAGE_LAYOUT_PRESENT_SRC_KHR
  deriving DecidableEq, Repr

/-- Attachment load operations. -/
inductive VkAttachmentLoadOp
  | VK_ATTACHMENT_LOAD_OP_LOAD
  | VK_ATTACHMENT_LOAD_OP_CLEAR
  | VK_ATTACHMENT_LOAD_OP_DONT_CARE
  deriving DecidableEq, Repr

/-- Attachment store operations. -/
inductive VkAttachmentStoreOp
  | VK_ATTACHMENT_STORE_OP_STORE
  | VK_ATTACHMENT_STORE_OP_DONT_CARE
  deriving DecidableEq, Repr

/-- Pipeline stages named in the subpass dependencies. -/
inductive VkPipelineStageFlagBits
  | VK_PIPELINE_STAGE_FRAGMENT_SHADER_BIT
  | VK_PIPELINE_STAGE_COLOR_ATTACHMENT_OUTPUT_BIT
  | VK_PIPELINE_STAGE_BOTTOM_OF_PIPE_BIT
  deriving DecidableEq, Repr

/-- Access masks named in the subpass dependencies. -/
inductive VkAccessFlagBits
  | VK_ACCESS_SHADER_READ_BIT
  | VK_ACCESS_COLOR_ATTACHMENT_WRITE_BIT
  | VK_ACCESS_MEMORY_READ_BIT
  deriving DecidableEq, Repr

/-- Dependency flags: the value `0` (none) or `VK_DEPENDENCY_BY_REGION_BIT`. -/
inductive VkDependencyFlagBits
  | NONE
  | VK_DEPENDENCY_BY_REGION_BIT
  deriving DecidableEq, Repr

/-- Pipeline bind points. -/
inductive VkPipelineBindPoint
  | VK_PIPELINE_BIND_POINT_GRAPHICS
  | VK_PIPELINE_BIND_POINT_COMPUTE
  deriving DecidableEq, Repr

/-- A `VkFormat` is its numeric enumerator. -/
abbrev VkFormat := Nat

def VK_FORMAT_R8G8B8A8_UNORM : VkFormat := 37
def VK_FORMAT_B8G8R8A8_SRGB : VkFormat := 50
def VK_FORMAT_R16G16B16A16_SFLOAT : VkFormat := 97

def kColourBufferFormat : VkFormat := VK_FORMAT_B8G8R8A8_SRGB
def kDiffuseAlbedoFormat : VkFormat := VK_FORMAT_R8G8B8A8_UNORM
def kSpecularAlbedoFormat : VkFormat := VK_FORMAT_R8G8B8A8_UNORM
def kNormalFormat : VkFormat := VK_FORMAT_R16G16B16A16_SFLOAT
def kPositionFormat : VkFormat := VK_FORMAT_R16G16B16A16_SFLOAT
def kAccumulationFormat : VkFormat := VK_FORMAT_R16G16B16A16_SFLOAT

/-- The sample count `VK_SAMPLE_COUNT_1_BIT`. -/
def VK_SAMPLE_COUNT_1_BIT : Nat := 1

/-- The sentinel `VK_SUBPASS_EXTERNAL`, which is `~0U`. -/
def VK_SUBPASS_EXTERNAL : Nat := 4294967295

/-! ## The render-pass builder (`renderpass.h`) -/

/-- One attachment description, the nine arguments of `AddAttachment`. -/
structure Attachment where
  flags : Nat
  format : VkFormat
  samples : Nat
  load_op : VkAttachmentLoadOp
  store_op : VkAttachmentStoreOp
  stencil_load_op : VkAttachmentLoadOp
  stencil_store_op : VkAttachmentStoreOp
  initial_layout : VkImageLayout
  final_layout : VkImageLayout
  deriving DecidableEq, Repr

/-- An attachment reference of a subpass: attachment id and layout at use. -/
structure AttachmentRef where
  attachment : Nat
  layout : VkImageLayout
  deriving DecidableEq, Repr

/-- One subpass: its name, bind point, colour references and depth reference. -/
structure Subpass where
  name : String
  bind_point : VkPipelineBindPoint
  colour_refs : List AttachmentRef
  depth_ref : Option AttachmentRef
  deriving DecidableEq, Repr

/-- One subpass dependency, the seven arguments of `AddSubpassDependency`. -/
structure SubpassDependency where
  src_subpass : Nat
  dst_subpass : Nat
  src_stage : VkPipelineStageFlagBits
  dst_stage : VkPipelineStageFlagBits
  src_access : VkAccessFlagBits
  dst_access : VkAccessFlagBits
  dependency_flags : VkDependencyFlagBits
  deriving DecidableEq, Repr

/-- The calls made on a render-pass builder, in the order they were made; an
`AddAttachment` or `AddSubpass` entry carries the id the call returned. -/
inductive RenderpassCall
  | AddAttachment (returned_id : Nat)
  | AddSubpass (returned_id : Nat)
  | AddSubpassColourAttachmentRef (subpass_id attachment_id : Nat)
  | AddSubpassDepthAttachmentRef (subpass_id attachment_id : Nat)
  | AddSubpassDependency (src_subpass dst_subpass : Nat)
  deriving DecidableEq, Repr

/-- Modelled from the spec: the class `Renderpass` (`renderpass.h`) is not among
the sources.  Section 4.1 gives its contract: attachments and subpasses are
declared in order and identified by the index assigned at declaration time;
references and dependencies are recorded against those ids.  The field `calls`
keeps the order in which the builder was called. -/
structure Renderpass where
  name : String
  attachments : List Attachment
  subpasses : List Subpass
  dependencies : List SubpassDependency
  calls : List RenderpassCall
  deriving DecidableEq, Repr

namespace Renderpass

/-- Modelled from the spec: the constructor `Renderpass(name)`, an empty builder. -/
def create (name : String) : Renderpass :=
  { name := name, attachments := [], subpasses := [], dependencies := [], calls := [] }

/-- Modelled from the spec: `AddAttachment(...) -> attachmentId`, the id being the
index assigned at declaration time. -/
def AddAttachment (rp : Renderpass) (a : Attachment) : Nat × Renderpass :=
  (rp.attachments.length,
   { rp with
     attachments := rp.attachments ++ [a]
     calls := rp.calls ++ [RenderpassCall.AddAttachment rp.attachments.length] })

/-- Modelled from the spec: `AddSubpass(name, bindPoint) -> subpassId`. -/
def AddSubpass (rp : Renderpass) (name : String) (bind_point : VkPipelineBindPoint) :
    Nat × Renderpass :=
  (rp.subpasses.length,
   { rp with
     subpasses := rp.subpasses ++
       [{ name := name, bind_point := bind_point, colour_refs := [], depth_ref := none }]
     calls := rp.calls ++ [RenderpassCall.AddSubpass rp.subpasses.length] })

/-- Modelled from the spec: `AddSubpassColorRef(subpassId, attachmentId, layout)`
appends a colour reference to the subpass with that id. -/
def AddSubpassColourAttachmentRef (rp : Renderpass) (subpass_id attachment_id : Nat)
    (layout : VkImageLayout) : Renderpass :=
  { rp with
    subpasses := rp.subpasses.modify
      (fun s => { s with colour_refs := s.colour_refs ++ [⟨attachment_id, layout⟩] })
      subpass_id
    calls := rp.calls ++
      [RenderpassCall.AddSubpassColourAttachmentRef subpass_id attachment_id] }

/-- Modelled from the spec: `AddSubpassDepthRef(subpassId, attachmentId, layout)`
sets the depth reference of the subpass with that id. -/
def AddSubpassDepthAttachmentRef (rp : Renderpass) (subpass_id attachment_id : Nat)
    (layout : VkImageLayout) : Renderpass :=
  { rp with
    subpasses := rp.subpasses.modify
      (fun s => { s with depth_ref := some ⟨attachment_id, layout⟩ })
      subpass_id
    calls := rp.calls ++
      [RenderpassCall.AddSubpassDepthAttachmentRef subpass_id attachment_id] }

/-- Modelled from the spec: `AddSubpassDependency(src, dst, srcStage, dstStage,
srcAccess, dstAccess, flags)` appends one dependency. -/
def AddSubpassDependency (rp : Renderpass) (d : SubpassDependency) : Renderpass :=
  { rp with
    dependencies := rp.dependencies ++ [d]
    calls := rp.calls ++ [RenderpassCall.AddSubpassDependency d.src_subpass d.dst_subpass] }

end Renderpass

open VkImageLayout VkAttachmentLoadOp VkAttachmentStoreOp VkPipelineStageFlagBits
open VkAccessFlagBits VkDependencyFlagBits VkPipelineBindPoint

/-- The builder calls of `DeferredRenderer::SetupRenderPass`, in source order.  The
two arguments are `vulkan()->swapchain().GetSurfaceFormat()` and
`device.depth_format()`. -/
def SetupRenderPass (surface_format depth_format : VkFormat) : Renderpass :=
  let rp := Renderpass.create "deferred_full_pass"
  -- Colour buffer target
  let (col_buf_id, rp) := rp.AddAttachment
    { flags := 0, format := surface_format, samples := VK_SAMPLE_COUNT_1_BIT,
      load_op := VK_ATTACHMENT_LOAD_OP_CLEAR, store_op := VK_ATTACHMENT_STORE_OP_STORE,
      stencil_load_op := VK_ATTACHMENT_LOAD_OP_DONT_CARE,
      stencil_store_op := VK_ATTACHMENT_STORE_OP_DONT_CARE,
      initial_layout := VK_IMAGE_LAYOUT_UNDEFINED,
      final_layout := VK_IMAGE_LAYOUT_PRESENT_SRC_KHR }
  -- Depth buffer target
  let (depth_buf_id, rp) := rp.AddAttachment
    { flags := 0, format := depth_format, samples := VK_SAMPLE_COUNT_1_BIT,
      load_op := VK_ATTACHMENT_LOAD_OP_CLEAR, store_op := VK_ATTACHMENT_STORE_OP_STORE,
      stencil_load_op := VK_ATTACHMENT_LOAD_OP_DONT_CARE,
      stencil_store_op := VK_ATTACHMENT_STORE_OP_DONT_CARE,
      initial_layout := VK_IMAGE_LAYOUT_UNDEFINED,
      final_layout := VK_IMAGE_LAYOUT_DEPTH_STENCIL_ATTACHMENT_OPTIMAL }
  -- Maps
  let (diff_albedo_id, rp) := rp.AddAttachment
    { flags := 0, format := kDiffuseAlbedoFormat, samples := VK_SAMPLE_COUNT_1_BIT,
      load_op := VK_ATTACHMENT_LOAD_OP_CLEAR, store_op := VK_ATTACHMENT_STORE_OP_STORE,
      stencil_load_op := VK_ATTACHMENT_LOAD_OP_DONT_CARE,
      stencil_store_op := VK_ATTACHMENT_STORE_OP_DONT_CARE,
      initial_layout := VK_IMAGE_LAYOUT_UNDEFINED,
      final_layout := VK_IMAGE_LAYOUT_SHADER_READ_ONLY_OPTIMAL }
  let (spec_albedo_id, rp) := rp.AddAttachment
    { flags := 0, format := kSpecularAlbedoFormat, samples := VK_SAMPLE_COUNT_1_BIT,
      load_op := VK_ATTACHMENT_LOAD_OP_CLEAR, store_op := VK_ATTACHMENT_STORE_OP_STORE,
      stencil_load_op := VK_ATTACHMENT_LOAD_OP_DONT_CARE,
      stencil_store_op := VK_ATTACHMENT_STORE_OP_DONT_CARE,
      initial_layout := VK_IMAGE_LAYOUT_UNDEFINED,
      final_layout := VK_IMAGE_LAYOUT_SHADER_READ_ONLY_OPTIMAL }
  let (norm_id, rp) := rp.AddAttachment
    { flags := 0, format := kNormalFormat, samples := VK_SAMPLE_COUNT_1_BIT,
      load_op := VK_ATTACHMENT_LOAD_OP_CLEAR, store_op := VK_ATTACHMENT_STORE_OP_STORE,
      stencil_load_op := VK_ATTACHMENT_LOAD_OP_DONT_CARE,
      stencil_store_op := VK_ATTACHMENT_STORE_OP_DONT_CARE,
      initial_layout := VK_IMAGE_LAYOUT_UNDEFINED,
      final_layout := VK_IMAGE_LAYOUT_SHADER_READ_ONLY_OPTIMAL }
  -- Accumulation buffer
  let (accum_id, rp) := rp.AddAttachment
    { flags := 0, format := kAccumulationFormat, samples := VK_SAMPLE_COUNT_1_BIT,
      load_op := VK_ATTACHMENT_LOAD_OP_CLEAR, store_op := VK_ATTACHMENT_STORE_OP_STORE,
      stencil_load_op := VK_ATTACHMENT_LOAD_OP_DONT_CARE,
      stencil_store_op := VK_ATTACHMENT_STORE_OP_DONT_CARE,
      initial_layout := VK_IMAGE_LAYOUT_UNDEFINED,
      final_layout := VK_IMAGE_LAYOUT_SHADER_READ_ONLY_OPTIMAL }
  -- Setup first subpass
  let (first_sub_id, rp) := rp.AddSubpass "g_store" VK_PIPELINE_BIND_POINT_GRAPHICS
  -- G buffers
  let rp := rp.AddSubpassColourAttachmentRef first_sub_id diff_albedo_id
    VK_IMAGE_LAYOUT_COLOR_ATTACHMENT_OPTIMAL
  let rp := rp.AddSubpassColourAttachmentRef first_sub_id spec_albedo_id
    VK_IMAGE_LAYOUT_COLOR_ATTACHMENT_OPTIMAL
  let rp := rp.AddSubpassColourAttachmentRef first_sub_id norm_id
    VK_IMAGE_LAYOUT_COLOR_ATTACHMENT_OPTIMAL
  -- Depth
  let rp := rp.AddSubpassDepthAttachmentRef first_sub_id depth_buf_id
    VK_IMAGE_LAYOUT_DEPTH_STENCIL_ATTACHMENT_OPTIMAL
  -- Setup second subpass
  let (second_sub_id, rp) := rp.AddSubpass "lighting" VK_PIPELINE_BIND_POINT_GRAPHICS
  let rp := rp.AddSubpassColourAttachmentRef second_sub_id accum_id
    VK_IMAGE_LAYOUT_COLOR_ATTACHMENT_OPTIMAL
  -- Setup third subpass
  let (third_sub_id, rp) := rp.AddSubpass "tonemapping" VK_PIPELINE_BIND_POINT_GRAPHICS
  let rp := rp.AddSubpassColourAttachmentRef third_sub_id col_buf_id
    VK_IMAGE_LAYOUT_COLOR_ATTACHMENT_OPTIMAL
  -- Dependencies
  -- Present to colour buffer, which is the last subpass
  let rp := rp.AddSubpassDependency
    { src_subpass := VK_SUBPASS_EXTERNAL, dst_subpass := third_sub_id,
      src_stage := VK_PIPELINE_STAGE_BOTTOM_OF_PIPE_BIT,
      dst_stage := VK_PIPELINE_STAGE_COLOR_ATTACHMENT_OUTPUT_BIT,
      src_access := VK_ACCESS_MEMORY_READ_BIT,
      dst_access := VK_ACCESS_COLOR_ATTACHMENT_WRITE_BIT,
      dependency_flags := VK_DEPENDENCY_BY_REGION_BIT }
  -- First subpass to second
  let rp := rp.AddSubpassDependency
    { src_subpass := first_sub_id, dst_subpass := second_sub_id,
      src_stage := VK_PIPELINE_STAGE_COLOR_ATTACHMENT_OUTPUT_BIT,
      dst_stage := VK_PIPELINE_STAGE_FRAGMENT_SHADER_BIT,
      src_access := VK_ACCESS_COLOR_ATTACHMENT_WRITE_BIT,
      dst_access := VK_ACCESS_SHADER_READ_BIT,
      dependency_flags := VK_DEPENDENCY_BY_REGION_BIT }
  -- Second subpass to final subpass
  let rp := rp.AddSubpassDependency
    { src_subpass := second_sub_id, dst_subpass := third_sub_id,
      src_stage := VK_PIPELINE_STAGE_COLOR_ATTACHMENT_OUTPUT_BIT,
      dst_stage := VK_PIPELINE_STAGE_FRAGMENT_SHADER_BIT,
      src_access := VK_ACCESS_COLOR_ATTACHMENT_WRITE_BIT,
      dst_access := VK_ACCESS_SHADER_READ_BIT,
      dependency_flags := VK_DEPENDENCY_BY_REGION_BIT }
  -- Final subpass to present
  let rp := rp.AddSubpassDependency
    { src_subpass := third_sub_id, dst_subpass := VK_SUBPASS_EXTERNAL,
      src_stage := VK_PIPELINE_STAGE_COLOR_ATTACHMENT_OUTPUT_BIT,
      dst_stage := VK_PIPELINE_STAGE_BOTTOM_OF_PIPE_BIT,
      src_access := VK_ACCESS_COLOR_ATTACHMENT_WRITE_BIT,
      dst_access := VK_ACCESS_MEMORY_READ_BIT,
      dependency_flags := VK_DEPENDENCY_BY_REGION_BIT }
  rp

/-- The `(src, dst, flags)` triple of each dependency, in declaration order. -/
def Renderpass.dependencyEdges (rp : Renderpass) : List (Nat × Nat × VkDependencyFlagBits) :=
  rp.dependencies.map (fun d => (d.src_subpass, d.dst_subpass, d.dependency_flags))

/-- The id `AddSubpass` returned for the subpass of the given name, if declared. -/
def Renderpass.subpassId (rp : Renderpass) (name : String) : Option Nat :=
  let i := rp.subpasses.findIdx (fun s => s.name == name)
  if i < rp.subpasses.length then some i else none


/-! ### The dependency graph of a render pass -/

/-- The depth format used where a concrete one is needed, `VK_FORMAT_D32_SFLOAT`. -/
def VK_FORMAT_D32_SFLOAT : VkFormat := 126

/-- A node of the dependency graph.  `VK_SUBPASS_EXTERNAL` as a source stands for
the commands before the render pass and as a destination for the commands after
it, so the sentinel gives two nodes. -/
inductive DepNode
  | before_pass
  | subpass (id : Nat)
  | after_pass
  deriving DecidableEq, Repr

/-- The node a dependency starts from. -/
def SubpassDependency.srcNode (d : SubpassDependency) : DepNode :=
  if d.src_subpass = VK_SUBPASS_EXTERNAL then DepNode.before_pass
  else DepNode.subpass d.src_subpass

/-- The node a dependency ends in. -/
def SubpassDependency.dstNode (d : SubpassDependency) : DepNode :=
  if d.dst_subpass = VK_SUBPASS_EXTERNAL then DepNode.after_pass
  else DepNode.subpass d.dst_subpass

/-- The edge relation of the dependency graph. -/
def Renderpass.DepEdge (rp : Renderpass) (a b : DepNode) : Prop :=
  ∃ d ∈ rp.dependencies, d.srcNode = a ∧ d.dstNode = b

/-- No node reaches itself along one or more dependencies. -/
def Renderpass.Acyclic (rp : Renderpass) : Prop :=
  ∀ a : DepNode, ¬ Relation.TransGen rp.DepEdge a a

/-- A position in execution order: before the pass, the subpasses by id, after. -/
def DepNode.rank : DepNode → Nat
  | DepNode.before_pass => 0
  | DepNode.subpass id => id + 1
  | DepNode.after_pass => VK_SUBPASS_EXTERNAL + 1

/-- The ids an attachment reference uses were returned by calls made earlier. -/
def RenderpassCall.DeclaredBefore (earlier : List RenderpassCall) : RenderpassCall → Prop
  | RenderpassCall.AddSubpassColourAttachmentRef s a =>
      RenderpassCall.AddAttachment a ∈ earlier ∧ RenderpassCall.AddSubpass s ∈ earlier
  | RenderpassCall.AddSubpassDepthAttachmentRef s a =>
      RenderpassCall.AddAttachment a ∈ earlier ∧ RenderpassCall.AddSubpass s ∈ earlier
  | _ => True

/-- Every attachment id a subpass refers to, colour references then depth. -/
def Subpass.referencedAttachments (s : Subpass) : List Nat :=
  s.colour_refs.map (fun r => r.attachment) ++ (s.depth_ref.map (fun r => r.attachment)).toList

/-! ## Bytes, faults and 32-bit sizes -/

/-- One byte of memory. -/
abbrev Byte := Fin 256

/-- The object representation of a value of a C++ type of `size` bytes. -/
def Obj (size : Nat) : Type := { bytes : List Byte // bytes.length = size }

instance (size : Nat) : DecidableEq (Obj size) :=
  inferInstanceAs (DecidableEq { bytes : List Byte // bytes.length = size })

/-- The object of `size` bytes all equal to `b`. -/
def Obj.fill (size : Nat) (b : Byte) : Obj size := ⟨List.replicate size b, by simp⟩

/-- The contiguous storage of a vector, `v.data()`: its elements one after another. -/
def data {size : Nat} : List (Obj size) → List Byte
  | [] => []
  | o :: os => o.val ++ data os

/-- What ends an operation before it returns: in C++ where the source has no check,
a null or uninitialised object is used, or memory is accessed outside an array or
buffer; or a Vulkan call wrapped in `VK_CHECK_RESULT` does not succeed. -/
inductive Fault
  | null_dereference
  | out_of_bounds
  | check_result_failed
  deriving DecidableEq, Repr

/-- Modelled from the spec: the macro `VK_CHECK_RESULT` (`vulkan_tools.h`) is not
among the sources.  A native call that does not succeed is fatal: the operation
stops at the macro. -/
def VK_CHECK_RESULT (success : Bool) : Except Fault Unit :=
  if success then Except.ok () else Except.error Fault.check_result_failed

/-- The number of `uint32_t` values, `2^32`. -/
def UINT32_RANGE : Nat := 4294967296

/-- The cast `SCAST_U32(x)`, `static_cast<uint32_t>(x)`. -/
def SCAST_U32 (x : Nat) : Nat := x % UINT32_RANGE

/-- Multiplication of two `uint32_t` values. -/
def u32_mul (a b : Nat) : Nat := (a * b) % UINT32_RANGE

/-- Addition of two `uint32_t` values. -/
def u32_add (a b : Nat) : Nat := (a + b) % UINT32_RANGE

/-- The size `sizeof(glm::mat4)`: sixteen 4-byte floats. -/
def sizeof_mat4 : Nat := 64

/-- The size `sizeof(uint32_t)`. -/
def sizeof_uint32_t : Nat := 4

/-- The library call `memcpy(dst + offset, src, count)` on a destination of known
extent; reading past the source or writing past the destination is a fault. -/
def memcpy (dst : List Byte) (offset : Nat) (src : List Byte) (count : Nat) :
    Except Fault (List Byte) :=
  if count ≤ src.length ∧ offset + count ≤ dst.length then
    Except.ok (dst.take offset ++ src.take count ++ dst.drop (offset + count))
  else
    Except.error Fault.out_of_bounds

/-- The bytes of `memory` in the range `[offset, offset + count)`. -/
def readBack (memory : List Byte) (offset count : Nat) : List Byte :=
  (memory.drop offset).take count

/-- Constants, enumerator counts and type sizes that the renderer takes from headers
which are not among the sources (`light.h`, `material_constants.h`,
`material_texture_type.h`, `vertex_setup.h`, and the `extern` binding positions of
the heap set). -/
structure Headers where
  sizeof_Light : Nat
  sizeof_MaterialConstants : Nat
  MatTextureType_size : Nat
  VertexElementType_num_items : Nat
  kVertexBuffersBaseBindPos : Nat
  kIndirectDrawCmdsBindingPos : Nat
  kIdxBufferBindPos : Nat
  kModelMatxsBufferBindPos : Nat
  kMaterialIDsBufferBindPos : Nat
  VertexElementType_POSITION : Nat
  deriving DecidableEq, Repr

/-- Modelled from the spec: the class `VulkanBuffer` (`vulkan_buffer.h`) is not among
the sources.  A buffer has the size it was created with and host-visible memory of
that size; `copies` lists the `memcpy` calls of the last map/unmap section as
(destination offset, byte count). -/
structure VulkanBuffer where
  size : Nat
  memory : List Byte
  copies : List (Nat × Nat)
  deriving DecidableEq, Repr

/-- Modelled from the spec: `VulkanBuffer::Init(device, info)` creates a buffer of
`info.size` bytes. -/
def VulkanBuffer.Init (size : Nat) : VulkanBuffer :=
  { size := size, memory := List.replicate size 0, copies := [] }

/-! ## Handles and device-side objects -/

/-- A Vulkan object handle; `VK_NULL_HANDLE` is `0`. -/
abbrev Handle := Nat

def VK_NULL_HANDLE : Handle := 0

/-- Descriptor types used by the renderer. -/
inductive VkDescriptorType
  | VK_DESCRIPTOR_TYPE_COMBINED_IMAGE_SAMPLER
  | VK_DESCRIPTOR_TYPE_UNIFORM_BUFFER
  | VK_DESCRIPTOR_TYPE_STORAGE_BUFFER
  deriving DecidableEq, Repr

/-- Shader stage masks used by the renderer. -/
inductive VkShaderStageFlags
  | VK_SHADER_STAGE_VERTEX_BIT
  | VK_SHADER_STAGE_FRAGMENT_BIT
  | VK_SHADER_STAGE_VERTEX_BIT_or_FRAGMENT_BIT
  deriving DecidableEq, Repr

/-- One `VkDescriptorSetLayoutBinding`. -/
structure VkDescriptorSetLayoutBinding where
  binding : Nat
  descriptorType : VkDescriptorType
  descriptorCount : Nat
  stageFlags : VkShaderStageFlags
  deriving DecidableEq, Repr

/-- A live `VkDescriptorSetLayout`: its handle and the bindings it was created with. -/
structure DescriptorSetLayoutObject where
  handle : Handle
  bindings : List VkDescriptorSetLayoutBinding
  deriving DecidableEq, Repr

/-- One `VkPushConstantRange`. -/
structure VkPushConstantRange where
  stageFlags : VkShaderStageFlags
  offset : Nat
  size : Nat
  deriving DecidableEq, Repr

/-- A live `VkPipelineLayout`: its handle, set layouts and push-constant ranges. -/
structure PipelineLayoutObject where
  handle : Handle
  setLayouts : List Handle
  pushConstantRanges : List VkPushConstantRange
  deriving DecidableEq, Repr

/-- A live `VkDescriptorPool`: the limits it was created with and the descriptor sets
requested from it that have not been freed, each with the layout it was requested
for. -/
structure DescriptorPoolObject where
  handle : Handle
  maxSets : Nat
  poolSizes : List (VkDescriptorType × Nat)
  allocatedSets : List (Handle × Handle)
  deriving DecidableEq, Repr

/-- One entry of `vkUpdateDescriptorSets`: destination set, binding, descriptor count
and type, and for a buffer descriptor its `(offset, range)`. -/
structure VkWriteDescriptorSet where
  dstSet : Handle
  dstBinding : Nat
  dstArrayElement : Nat
  descriptorCount : Nat
  descriptorType : VkDescriptorType
  bufferInfo : Option (Nat × Nat)
  deriving DecidableEq, Repr

/-- A texture created through the texture manager. -/
structure VulkanTexture where
  name : String
  format : VkFormat
  sampled : Bool
  colour_attachment : Bool
  depth_stencil_attachment : Bool
  deriving DecidableEq, Repr

/-- An image given to a framebuffer: image `i` of the swapchain or a texture. -/
inductive FramebufferImage
  | swapchain_image (i : Nat)
  | texture (t : VulkanTexture)
  deriving DecidableEq, Repr

/-- A framebuffer: the arguments of its constructor and the attachments added.  The
name is the format string of `sprintf` with its `%d` argument beside it. -/
structure Framebuffer where
  name : String
  name_index : Nat
  width : Nat
  height : Nat
  layers : Nat
  renderpass : Renderpass
  attachments : List FramebufferImage
  deriving DecidableEq, Repr

/-- A model as the renderer sees it: a named object with vertices and indices. -/
structure Model where
  name : String
  vertex_count : Nat
  indices : List Nat
  deriving DecidableEq, Repr

/-- One `VertexElement`: element type, size in bytes and format. -/
structure VertexElement where
  type : Nat
  size : Nat
  format : VkFormat
  deriving DecidableEq, Repr

/-- A `VertexSetup`: the vertex layout it was constructed from. -/
abbrev VertexSetup := List VertexElement

def VK_FORMAT_R32G32B32_SFLOAT : VkFormat := 106

/-- The size `sizeof(glm::vec3)`: three 4-byte floats. -/
def sizeof_vec3 : Nat := 12

/-- Front-face orientations. -/
inductive VkFrontFace
  | VK_FRONT_FACE_COUNTER_CLOCKWISE
  | VK_FRONT_FACE_CLOCKWISE
  deriving DecidableEq, Repr

/-- A shader of a material: its file, stage and specialisation entries
`(constant id, value)`. -/
structure MaterialShader where
  file : String
  fragment : Bool
  specialisation : List (Nat × Nat)
  deriving DecidableEq, Repr

/-- A material as created from a `MaterialBuilder`: the builder arguments the
renderer passes. -/
structure Material where
  name : String
  vertex_setup : VertexSetup
  pipe_layout : Handle
  front_face : VkFrontFace
  subpass : Nat
  colour_blend_attachments : Nat
  shaders : List MaterialShader
  depth_test_enable : Bool
  depth_write_enable : Bool
  deriving DecidableEq, Repr

/-- A `VkClearValue`: the member last written, colour or depth/stencil.  The float
literals of the source are `0.f` and `1.f`, kept as integers. -/
inductive VkClearValue
  | color (r g b a : Int)
  | depthStencil (depth : Int) (stencil : Nat)
  deriving DecidableEq, Repr

/-- A command recorded into a command buffer. -/
inductive Cmd
  | BeginCommandBuffer
  | BeginRenderpass (framebuffer : Nat) (width height : Nat) (clear_values : List VkClearValue)
  | BindPipeline (material : Material)
  | BindDescriptorSets (pipe_layout : Handle) (first_set : Nat) (sets : List Handle)
  | BindVertexBuffer (model : Model)
  | BindIndexBuffer (model : Model)
  | RenderMeshesByMaterial (model : Model) (pipe_layout : Handle) (heap_set_index : Nat)
  | NextSubpass
  | DrawIndexed (index_count instance_count first_index vertex_offset first_instance : Nat)
  | EndRenderpass
  | EndCommandBuffer
  deriving DecidableEq, Repr

/-- Result codes of the swapchain calls. -/
inductive VkResult
  | VK_SUCCESS
  | VK_SUBOPTIMAL_KHR
  | VK_ERROR_OUT_OF_DATE_KHR
  | VK_ERROR_DEVICE_LOST
  deriving DecidableEq, Repr

/-- Effects on the device other than object creation, in the order they happen. -/
inductive DeviceEvent
  | DeviceWaitIdle
  | ReleaseRenderpass
  | ClearFramebuffers
  | ResetDescriptorPool (pool : Handle)
  | DestroyDescriptorPool (pool : Handle)
  | DestroySampler (sampler : Handle)
  | DestroyPipelineLayout (layout : Handle)
  | DestroyDescriptorSetLayout (layout : Handle)
  | ShutdownBuffer
  | QueueSubmit (cmd_buffer : Nat)
  | Present
  deriving DecidableEq, Repr

/-- The state of the global `vulkan()` object as far as the renderer touches it:
the live objects it created on the device, the descriptor writes it issued, and the
graphics-queue command buffers.  Vulkan calls are taken to return `VK_SUCCESS`, with
one exception: a descriptor-set request that exceeds what its pool was created for.
Vulkan lets a driver grant or refuse such a request; `enforces_pool_limits` says
which this driver does.  `pool_descriptors` lists, for every descriptor set
requested and not freed, its pool and the bindings of its layout. -/
structure VulkanState where
  next_handle : Handle
  samplers : List Handle
  desc_pools : List DescriptorPoolObject
  desc_set_layouts : List DescriptorSetLayoutObject
  pipe_layouts : List PipelineLayoutObject
  descriptor_writes : List VkWriteDescriptorSet
  graphics_queue_cmd_buffers : List (List Cmd)
  events : List DeviceEvent
  enforces_pool_limits : Bool
  pool_descriptors : List (Handle × List VkDescriptorSetLayoutBinding)
  deriving DecidableEq, Repr

/-- The enumerators of `SetTypes`. -/
def SetTypes.GPASS_GENERIC : Nat := 0
def SetTypes.num_items : Nat := 1

/-- The enumerators of `DescSetLayoutTypes`. -/
def DescSetLayoutTypes.GPASS_GENERIC : Nat := 0
def DescSetLayoutTypes.HEAP : Nat := 1
def DescSetLayoutTypes.num_items : Nat := 2

/-- The enumerators of `PipeLayoutTypes`. -/
def PipeLayoutTypes.GPASS : Nat := 0
def PipeLayoutTypes.num_items : Nat := 1

/-- The enumerators of `GBtypes`. -/
def GBtypes.DIFFUSE_ALBEDO : Nat := 0
def GBtypes.SPECULAR_ALBEDO : Nat := 1
def GBtypes.NORMAL : Nat := 2
def GBtypes.num_items : Nat := 3

def kMainStaticBuffBindingPos : Nat := 0
def kLightsArrayBindingPos : Nat := 8
def kMatConstsArrayBindingPos : Nat := 9
def kDepthBuffBindingPos : Nat := 1
def kDiffuseTexturesArrayBindingPos : Nat := 2
def kAmbientTexturesArrayBindingPos : Nat := 3
def kSpecularTexturesArrayBindingPos : Nat := 4
def kNormalTexturesArrayBindingPos : Nat := 5
def kRoughnessTexturesArrayBindingPos : Nat := 6
def kAccumulationBufferBindingPos : Nat := 7
def kGBufferBaseBindingPos : Nat := 10
def kMaxNumUniformBuffers : Nat := 5
def kMaxNumSSBOs : Nat := 30
def kMaxNumMatInstances : Nat := 30
def kNumMaterialsSpecConstPos : Nat := 0
def kNumLightsSpecConstPos : Nat := 1

/-! ## The renderer and its collaborators -/

/-- The texture types the renderer asks image infos for. -/
inductive MatTextureType
  | DIFFUSE
  | AMBIENT
  | SPECULAR
  | SPECULAR_HIGHLIGHT
  | NORMAL
  deriving DecidableEq, Repr

/-- What the collaborators answer while one operation of the renderer runs: the
camera (`cam_`), `lights_manager()`, `material_manager()`, `texture_manager()` and
the swapchain and device of `vulkan()`.  They are ambient services: their answers
can differ from one operation to the next.  `glm_inverse` is `glm::inverse`, kept
abstract because it is floating-point arithmetic; `AcquireNextImage` maps the value
of the index argument before the call to the result code and the value after. -/
structure Ambient (H : Headers) where
  projection_mat : Obj sizeof_mat4
  view_mat : Obj sizeof_mat4
  glm_inverse : Obj sizeof_mat4 → Obj sizeof_mat4
  TransformLights : Obj sizeof_mat4 → List (Obj H.sizeof_Light)
  GetNumLights : Nat
  GetMaterialConstants : List (Obj H.sizeof_MaterialConstants)
  GetMaterialInstancesCount : Nat
  GetDescriptorImageInfosByType : MatTextureType → Nat
  GetNumImages : Nat
  GetSurfaceFormat : VkFormat
  depth_format : VkFormat
  viewport_width : Nat
  viewport_height : Nat
  Load2DTexture_dummy : Option VulkanTexture
  AcquireNextImage : Nat → VkResult × Nat

/-- The members of `class DeferredRenderer`, with the state of `vulkan()` beside
them.  A pointer member is `none` when null; `cam_` is `true` once it points at the
camera. -/
structure DeferredRenderer (H : Headers) where
  vulkan : VulkanState
  renderpass_ : Option Renderpass
  framebuffers_ : List Framebuffer
  current_swapchain_img_ : Nat
  g_buffer_ : List (Option VulkanTexture)
  accum_buffer_ : Option VulkanTexture
  depth_buffer_ : Option VulkanTexture
  depth_buffer_depth_view_ : Option Handle
  g_store_material_ : Option Material
  g_shade_material_ : Option Material
  g_tonemap_material_ : Option Material
  dummy_texture_ : Option VulkanTexture
  desc_set_layouts_ : List Handle
  desc_sets_ : List Handle
  desc_pool_ : Handle
  pipe_layouts_ : List Handle
  main_static_buff_ : Option VulkanBuffer
  proj_mat_ : Obj sizeof_mat4
  view_mat_ : Obj sizeof_mat4
  inv_proj_mat_ : Obj sizeof_mat4
  inv_view_mat_ : Obj sizeof_mat4
  cam_ : Bool
  aniso_sampler_ : Handle
  nearest_sampler_ : Handle
  registered_models_ : List Model
  fullscreenquad_ : Option Model
  mat_consts_ : List (Obj H.sizeof_MaterialConstants)

/-- The bytes of `glm::mat4(1.f)`: the identity, sixteen little-endian floats. -/
def mat4_identity : Obj sizeof_mat4 :=
  ⟨[0, 0, 128, 63,  0, 0, 0, 0,  0, 0, 0, 0,  0, 0, 0, 0,
    0, 0, 0, 0,  0, 0, 128, 63,  0, 0, 0, 0,  0, 0, 0, 0,
    0, 0, 0, 0,  0, 0, 0, 0,  0, 0, 128, 63,  0, 0, 0, 0,
    0, 0, 0, 0,  0, 0, 0, 0,  0, 0, 0, 0,  0, 0, 128, 63], rfl⟩

/-- The state of `vulkan()` once the application has created the device and
allocated one graphics-queue command buffer per swapchain image, on a driver that
grants every descriptor-set request from a live pool. -/
def VulkanState.boot (num_images : Nat) : VulkanState :=
  { next_handle := 1, samplers := [], desc_pools := [], desc_set_layouts := [],
    pipe_layouts := [], descriptor_writes := [],
    graphics_queue_cmd_buffers := List.replicate num_images [], events := [],
    enforces_pool_limits := false, pool_descriptors := [] }

/-- The same device state on a driver that enforces the limits of descriptor
pools. -/
def VulkanState.enforcing (v : VulkanState) : VulkanState :=
  { v with enforces_pool_limits := true }

/-- The constructor `DeferredRenderer::DeferredRenderer()`.  The vectors
`desc_set_layouts_` and `pipe_layouts_` are constructed from `VK_NULL_HANDLE`, that
is with zero elements; `desc_sets_` is an array of `SetTypes::num_items` null
handles; `g_tonemap_material_` has no initialiser. -/
def DeferredRenderer.create (H : Headers) (vulkan : VulkanState) : DeferredRenderer H :=
  { vulkan := vulkan
    renderpass_ := none
    framebuffers_ := []
    current_swapchain_img_ := 0
    g_buffer_ := List.replicate GBtypes.num_items none
    accum_buffer_ := none
    depth_buffer_ := none
    depth_buffer_depth_view_ := none
    g_store_material_ := none
    g_shade_material_ := none
    g_tonemap_material_ := none
    dummy_texture_ := none
    desc_set_layouts_ := []
    desc_sets_ := List.replicate SetTypes.num_items VK_NULL_HANDLE
    desc_pool_ := VK_NULL_HANDLE
    pipe_layouts_ := []
    main_static_buff_ := none
    proj_mat_ := mat4_identity
    view_mat_ := mat4_identity
    inv_proj_mat_ := mat4_identity
    inv_view_mat_ := mat4_identity
    cam_ := false
    aniso_sampler_ := VK_NULL_HANDLE
    nearest_sampler_ := VK_NULL_HANDLE
    registered_models_ := []
    fullscreenquad_ := none
    mat_consts_ := [] }

/-! ### Memory-access helpers -/

/-- Dereferencing a pointer: a fault when it is null. -/
def deref {α : Type} (p : Option α) : Except Fault α :=
  match p with
  | some a => Except.ok a
  | none => Except.error Fault.null_dereference

/-- Reading `v[i]`: a fault when `i` is not an index of `v`. -/
def index {α : Type} (v : List α) (i : Nat) : Except Fault α :=
  match v[i]? with
  | some a => Except.ok a
  | none => Except.error Fault.out_of_bounds

/-- Writing `v[i] = a`: a fault when `i` is not an index of `v`. -/
def assign {α : Type} (v : List α) (i : Nat) (a : α) : Except Fault (List α) :=
  if i < v.length then Except.ok (v.set i a) else Except.error Fault.out_of_bounds

/-- A counted loop whose body can fault: the results of `f` on the indices of the
list, in order, or the first fault. -/
def forEach {α : Type} (f : Nat → Except Fault α) : List Nat → Except Fault (List α)
  | [] => Except.ok []
  | i :: rest => do
      let a ← f i
      let as ← forEach f rest
      pure (a :: as)

/-- The call `v.resize(n)` on a vector of handles: new elements are null. -/
def resize (v : List Handle) (n : Nat) : List Handle :=
  v.take n ++ List.replicate (n - v.length) VK_NULL_HANDLE

/-- Using the camera through `cam_`: a fault when `cam_` is null. -/
def useCamera {H : Headers} (r : DeferredRenderer H) : Except Fault Unit :=
  if r.cam_ then Except.ok () else Except.error Fault.null_dereference

/-! ### Vulkan calls -/

/-- A new handle, distinct from every handle given out before and from null. -/
def VulkanState.fresh (v : VulkanState) : Handle × VulkanState :=
  (v.next_handle, { v with next_handle := v.next_handle + 1 })

/-- The call `vkCreateSampler`. -/
def vkCreateSampler (v : VulkanState) : Handle × VulkanState :=
  let (h, v) := v.fresh
  (h, { v with samplers := v.samplers ++ [h] })

/-- The call `vkCreateDescriptorPool`. -/
def vkCreateDescriptorPool (v : VulkanState) (maxSets : Nat)
    (poolSizes : List (VkDescriptorType × Nat)) : Handle × VulkanState :=
  let (h, v) := v.fresh
  (h, { v with desc_pools := v.desc_pools ++
    [{ handle := h, maxSets := maxSets, poolSizes := poolSizes, allocatedSets := [] }] })

/-- The call `vkCreateDescriptorSetLayout`. -/
def vkCreateDescriptorSetLayout (v : VulkanState)
    (bindings : List VkDescriptorSetLayoutBinding) : Handle × VulkanState :=
  let (h, v) := v.fresh
  (h, { v with desc_set_layouts := v.desc_set_layouts ++ [{ handle := h, bindings := bindings }] })

/-- The call `vkCreatePipelineLayout`. -/
def vkCreatePipelineLayout (v : VulkanState) (setLayouts : List Handle)
    (pushConstantRanges : List VkPushConstantRange) : Handle × VulkanState :=
  let (h, v) := v.fresh
  (h, { v with pipe_layouts := v.pipe_layouts ++
    [{ handle := h, setLayouts := setLayouts, pushConstantRanges := pushConstantRanges }] })

/-- The descriptor types a pool is sized for. -/
def descriptorTypes : List VkDescriptorType :=
  [VkDescriptorType.VK_DESCRIPTOR_TYPE_UNIFORM_BUFFER,
   VkDescriptorType.VK_DESCRIPTOR_TYPE_COMBINED_IMAGE_SAMPLER,
   VkDescriptorType.VK_DESCRIPTOR_TYPE_STORAGE_BUFFER]

/-- The number of descriptors of type `t` that one set of a layout with the bindings
`bindings` takes from its pool: the sum of the `descriptorCount` of the bindings of
that type. -/
def descriptorDemand (bindings : List VkDescriptorSetLayoutBinding) (t : VkDescriptorType) :
    Nat :=
  ((bindings.filter (fun b => b.descriptorType == t)).map (fun b => b.descriptorCount)).sum

/-- The number of descriptors of type `t` a pool was created for: the sum of the
`descriptorCount` of its pool sizes of that type. -/
def DescriptorPoolObject.capacity (p : DescriptorPoolObject) (t : VkDescriptorType) : Nat :=
  ((p.poolSizes.filter (fun s => s.1 == t)).map (fun s => s.2)).sum

/-- The number of descriptors of type `t` taken from the pool `pool` by the sets
requested from it and not freed. -/
def VulkanState.descriptorsInUse (v : VulkanState) (pool : Handle) (t : VkDescriptorType) :
    Nat :=
  ((v.pool_descriptors.filter (fun s => s.1 == pool)).map
    (fun s => descriptorDemand s.2 t)).sum

/-- The bindings of the live descriptor-set layout `layout` (of the one created last,
should several carry the handle; none when no live layout does). -/
def VulkanState.layoutBindings (v : VulkanState) (layout : Handle) :
    List VkDescriptorSetLayoutBinding :=
  match v.desc_set_layouts.reverse.find? (fun l => l.handle == layout) with
  | some l => l.bindings
  | none => []

/-- Whether the pool `pool` has room for one more set with the bindings `bindings`:
the number of its sets stays within `maxSets` and, for each descriptor type, the
descriptors in use together with those of the new set stay within the pool size. -/
def VulkanState.poolHasRoom (v : VulkanState) (pool : Handle)
    (bindings : List VkDescriptorSetLayoutBinding) : Bool :=
  v.desc_pools.all (fun p =>
    p.handle != pool ||
      (decide (p.allocatedSets.length + 1 ≤ p.maxSets) &&
        descriptorTypes.all (fun t =>
          decide (v.descriptorsInUse pool t + descriptorDemand bindings t ≤ p.capacity t))))

/-- Whether the driver grants a request for one set with the bindings `bindings` from
the pool `pool`: it refuses only when it enforces pool limits and the pool has no
room. -/
def VulkanState.grants (v : VulkanState) (pool : Handle)
    (bindings : List VkDescriptorSetLayoutBinding) : Bool :=
  !v.enforces_pool_limits || v.poolHasRoom pool bindings

/-- The call `vkAllocateDescriptorSets` for one layout, wrapped in `VK_CHECK_RESULT`:
a new set is requested from the pool `pool`; when the driver grants it, the set is
recorded in the pool together with the descriptors it takes.  A pool handle that
names no live pool is a fault. -/
def vkAllocateDescriptorSet (v : VulkanState) (pool : Handle) (layout : Handle) :
    Except Fault (Handle × VulkanState) :=
  if v.desc_pools.any (fun p => p.handle == pool) then do
    VK_CHECK_RESULT (v.grants pool (v.layoutBindings layout))
    let bindings := v.layoutBindings layout
    let (h, v) := v.fresh
    pure (h, { v with
      desc_pools := v.desc_pools.map (fun p =>
        if p.handle == pool then { p with allocatedSets := p.allocatedSets ++ [(h, layout)] }
        else p)
      pool_descriptors := v.pool_descriptors ++ [(pool, bindings)] })
  else
    Except.error Fault.null_dereference

/-- The call `vkUpdateDescriptorSets`. -/
def vkUpdateDescriptorSets (v : VulkanState) (writes : List VkWriteDescriptorSet) :
    VulkanState :=
  { v with descriptor_writes := v.descriptor_writes ++ writes }

/-! ### Frame uniform buffer -/

/-- Modelled from the spec: `VulkanBuffer::Map` yields the buffer's memory for host
writes; a new map/unmap section starts with no copies made. -/
def VulkanBuffer.Map (b : VulkanBuffer) : VulkanBuffer :=
  { b with copies := [] }

/-- The call `memcpy(mapped + offset, src, count)` into the mapped buffer. -/
def VulkanBuffer.memcpy (b : VulkanBuffer) (offset : Nat) (src : List Byte) (count : Nat) :
    Except Fault VulkanBuffer := do
  let memory ← vks.memcpy b.memory offset src count
  pure { b with memory := memory, copies := b.copies ++ [(offset, count)] }

/-- The function `DeferredRenderer::UpdatePVMatrices`. -/
def UpdatePVMatrices {H : Headers} (A : Ambient H) (r : DeferredRenderer H) :
    Except Fault (DeferredRenderer H) := do
  useCamera r
  let proj_mat_ := A.projection_mat
  let view_mat_ := A.view_mat
  pure { r with
    proj_mat_ := proj_mat_
    view_mat_ := view_mat_
    inv_proj_mat_ := A.glm_inverse proj_mat_
    inv_view_mat_ := A.glm_inverse view_mat_ }

/-- The function `DeferredRenderer::UpdateLights`: the value it leaves in
`transformed_lights`. -/
def UpdateLights {H : Headers} (A : Ambient H) (r : DeferredRenderer H) :
    List (Obj H.sizeof_Light) :=
  A.TransformLights r.view_mat_

/-- The function `DeferredRenderer::SetupUniformBuffers`. -/
def SetupUniformBuffers {H : Headers} (A : Ambient H) (r : DeferredRenderer H) :
    Except Fault (DeferredRenderer H) := do
  -- Materials
  let r := { r with mat_consts_ := A.GetMaterialConstants }
  let num_mat_instances := SCAST_U32 A.GetMaterialInstancesCount
  -- Lights array
  let transformed_lights := UpdateLights A r
  let num_lights := SCAST_U32 transformed_lights.length
  -- Cache some sizes
  let mat4_size := SCAST_U32 sizeof_mat4
  let mat4_group_size := u32_mul mat4_size 4
  let lights_array_size := u32_mul (SCAST_U32 H.sizeof_Light) num_lights
  let mat_consts_array_size := u32_mul (SCAST_U32 H.sizeof_MaterialConstants) num_mat_instances
  -- Main static buffer
  let buff_init_info_size :=
    u32_add (u32_add mat4_group_size lights_array_size) mat_consts_array_size
  let main_static_buff_ := VulkanBuffer.Init buff_init_info_size
  -- Upload data to it
  let matxs_initial_data := [r.proj_mat_, r.view_mat_, r.inv_proj_mat_, r.inv_view_mat_]
  let mapped := main_static_buff_.Map
  let mapped_u8 := 0
  let mapped ← mapped.memcpy 0 (data matxs_initial_data) mat4_group_size
  let mapped_u8 := mapped_u8 + mat4_group_size
  let mapped ← mapped.memcpy mapped_u8 (data transformed_lights) lights_array_size
  let mapped_u8 := mapped_u8 + lights_array_size
  let mapped ← mapped.memcpy mapped_u8 (data r.mat_consts_) mat_consts_array_size
  pure { r with main_static_buff_ := some mapped }

/-- The function `DeferredRenderer::UpdateBuffers`. -/
def UpdateBuffers {H : Headers} (A : Ambient H) (r : DeferredRenderer H) :
    Except Fault (DeferredRenderer H) := do
  let r ← UpdatePVMatrices A r
  let transformed_lights := UpdateLights A r
  -- Cache some sizes
  let num_mat_instances := SCAST_U32 A.GetMaterialInstancesCount
  let num_lights := SCAST_U32 transformed_lights.length
  let mat4_size := SCAST_U32 sizeof_mat4
  let mat4_group_size := u32_mul mat4_size 4
  let lights_array_size := u32_mul (SCAST_U32 H.sizeof_Light) num_lights
  let mat_consts_array_size := u32_mul (SCAST_U32 H.sizeof_MaterialConstants) num_mat_instances
  -- Upload data to the buffers
  let matxs_initial_data := [r.proj_mat_, r.view_mat_, r.inv_proj_mat_, r.inv_view_mat_]
  let main_static_buff_ ← deref r.main_static_buff_
  let mapped := main_static_buff_.Map
  let mapped_u8 := 0
  let mapped ← mapped.memcpy 0 (data matxs_initial_data) mat4_group_size
  let mapped_u8 := mapped_u8 + mat4_group_size
  let mapped ← mapped.memcpy mapped_u8 (data transformed_lights) lights_array_size
  let mapped_u8 := mapped_u8 + lights_array_size
  let mapped ← mapped.memcpy mapped_u8 (data r.mat_consts_) mat_consts_array_size
  pure { r with main_static_buff_ := some mapped }

/-- The function `DeferredRenderer::PreRender`.  The result code of
`AcquireNextImage` is not looked at; the index argument is `current_swapchain_img_`,
passed by reference. -/
def PreRender {H : Headers} (A : Ambient H) (r : DeferredRenderer H) :
    Except Fault (DeferredRenderer H) := do
  let r ← UpdateBuffers A r
  pure { r with current_swapchain_img_ := (A.AcquireNextImage r.current_swapchain_img_).2 }

/-! ### Initialisation -/

/-- The function `DeferredRenderer::SetupSamplers`. -/
def SetupSamplers {H : Headers} (r : DeferredRenderer H) : DeferredRenderer H :=
  -- Create an aniso sampler
  let (aniso_sampler_, vulkan) := vkCreateSampler r.vulkan
  -- Create a nearest neighbour sampler
  let (nearest_sampler_, vulkan) := vkCreateSampler vulkan
  { r with vulkan := vulkan, aniso_sampler_ := aniso_sampler_,
           nearest_sampler_ := nearest_sampler_ }

/-- The function `DeferredRenderer::SetupDescriptorPool`. -/
def SetupDescriptorPool {H : Headers} (r : DeferredRenderer H) : DeferredRenderer H :=
  let pool_sizes :=
    -- Uniforms
    [(VkDescriptorType.VK_DESCRIPTOR_TYPE_UNIFORM_BUFFER, kMaxNumUniformBuffers),
    -- Framebuffers
     (VkDescriptorType.VK_DESCRIPTOR_TYPE_COMBINED_IMAGE_SAMPLER,
        u32_add (u32_mul kMaxNumMatInstances (SCAST_U32 H.MatTextureType_size)) 10),
    -- Storage buffers
     (VkDescriptorType.VK_DESCRIPTOR_TYPE_STORAGE_BUFFER, kMaxNumSSBOs)]
  let (desc_pool_, vulkan) :=
    vkCreateDescriptorPool r.vulkan DescSetLayoutTypes.num_items pool_sizes
  { r with vulkan := vulkan, desc_pool_ := desc_pool_ }

/-- The function `DeferredRenderer::CreateFramebufferAttachment`: the texture it
stores through `attachment`.  Every attachment is created with
`VK_IMAGE_USAGE_SAMPLED_BIT`. -/
def CreateFramebufferAttachment {H : Headers} (r : DeferredRenderer H) (format : VkFormat)
    (colour_attachment depth_stencil_attachment : Bool) (name : String) :
    Except Fault VulkanTexture := do
  useCamera r
  pure { name := name, format := format, sampled := true,
         colour_attachment := colour_attachment,
         depth_stencil_attachment := depth_stencil_attachment }

/-- The body of the loop of `SetupFrameBuffers` for swapchain image `i`. -/
def makeFramebuffer {H : Headers} (A : Ambient H) (r : DeferredRenderer H) (i : Nat) :
    Except Fault Framebuffer := do
  useCamera r
  let renderpass ← deref r.renderpass_
  let attachments := [FramebufferImage.swapchain_image i]
  let depth_buffer_ ← deref r.depth_buffer_
  let attachments := attachments ++ [FramebufferImage.texture depth_buffer_]
  let g_buffers ← forEach (fun g => do
    let t ← index r.g_buffer_ g
    deref t) (List.range GBtypes.num_items)
  let attachments := attachments ++ g_buffers.map FramebufferImage.texture
  let accum_buffer_ ← deref r.accum_buffer_
  let attachments := attachments ++ [FramebufferImage.texture accum_buffer_]
  pure { name := "from_swapchain_%d", name_index := i, width := A.viewport_width,
         height := A.viewport_height, layers := 1, renderpass := renderpass,
         attachments := attachments }

/-- The function `DeferredRenderer::SetupFrameBuffers`. -/
def SetupFrameBuffers {H : Headers} (A : Ambient H) (r : DeferredRenderer H) :
    Except Fault (DeferredRenderer H) := do
  -- G buffers
  let t ← CreateFramebufferAttachment r kDiffuseAlbedoFormat true false "diffuse_albedo"
  let g_buffer_ ← assign r.g_buffer_ GBtypes.DIFFUSE_ALBEDO (some t)
  let t ← CreateFramebufferAttachment r kSpecularAlbedoFormat true false "specular_albedo"
  let g_buffer_ ← assign g_buffer_ GBtypes.SPECULAR_ALBEDO (some t)
  let t ← CreateFramebufferAttachment r kNormalFormat true false "normals"
  let g_buffer_ ← assign g_buffer_ GBtypes.NORMAL (some t)
  let r := { r with g_buffer_ := g_buffer_ }
  -- Accumulation buffer
  let t ← CreateFramebufferAttachment r kAccumulationFormat true false "accumulation"
  let r := { r with accum_buffer_ := some t }
  -- Depth buffer
  let t ← CreateFramebufferAttachment r A.depth_format false true "depth"
  let r := { r with depth_buffer_ := some t }
  let (view, vulkan) := r.vulkan.fresh
  let r := { r with vulkan := vulkan, depth_buffer_depth_view_ := some view }
  let num_swapchain_images := SCAST_U32 A.GetNumImages
  let frmbuffs ← forEach (makeFramebuffer A r) (List.range num_swapchain_images)
  pure { r with framebuffers_ := r.framebuffers_ ++ frmbuffs }

/-- The function `DeferredRenderer::Init`.  `SetupMaterials` only registers three
material names with the material manager and `SetupRenderPass` stores the render
pass it builds in `renderpass_`. -/
def Init {H : Headers} (A : Ambient H) (r : DeferredRenderer H) :
    Except Fault (DeferredRenderer H) := do
  let r := { r with cam_ := true }
  let r := SetupSamplers r
  let r := SetupDescriptorPool r
  let r := { r with dummy_texture_ := A.Load2DTexture_dummy }
  let r ← UpdatePVMatrices A r
  let r := { r with renderpass_ := some (SetupRenderPass A.GetSurfaceFormat A.depth_format) }
  SetupFrameBuffers A r

/-! ### Descriptor-set layouts, pipeline layout and descriptor sets -/

open VkDescriptorType VkShaderStageFlags in
/-- The bindings `SetupDescriptorSetAndPipeLayout` pushes for the frame-generic
layout, in source order, for `num_mat_instances` material instances. -/
def genericBindings (num_mat_instances : Nat) : List VkDescriptorSetLayoutBinding :=
  -- Main static buffer
  [⟨kMainStaticBuffBindingPos, VK_DESCRIPTOR_TYPE_STORAGE_BUFFER, 1,
      VK_SHADER_STAGE_VERTEX_BIT_or_FRAGMENT_BIT⟩,
  -- Lights array
   ⟨kLightsArrayBindingPos, VK_DESCRIPTOR_TYPE_STORAGE_BUFFER, 1,
      VK_SHADER_STAGE_VERTEX_BIT_or_FRAGMENT_BIT⟩,
  -- Material constants array
   ⟨kMatConstsArrayBindingPos, VK_DESCRIPTOR_TYPE_STORAGE_BUFFER, 1,
      VK_SHADER_STAGE_VERTEX_BIT_or_FRAGMENT_BIT⟩,
  -- Depth buffer
   ⟨kDepthBuffBindingPos, VK_DESCRIPTOR_TYPE_COMBINED_IMAGE_SAMPLER, 1,
      VK_SHADER_STAGE_FRAGMENT_BIT⟩,
  -- Diffuse textures as combined image samplers
   ⟨kDiffuseTexturesArrayBindingPos, VK_DESCRIPTOR_TYPE_COMBINED_IMAGE_SAMPLER,
      num_mat_instances, VK_SHADER_STAGE_FRAGMENT_BIT⟩,
  -- Ambient textures as combined image samplers
   ⟨kAmbientTexturesArrayBindingPos, VK_DESCRIPTOR_TYPE_COMBINED_IMAGE_SAMPLER,
      num_mat_instances, VK_SHADER_STAGE_FRAGMENT_BIT⟩,
  -- Specular textures as combined image samplers
   ⟨kSpecularTexturesArrayBindingPos, VK_DESCRIPTOR_TYPE_COMBINED_IMAGE_SAMPLER,
      num_mat_instances, VK_SHADER_STAGE_FRAGMENT_BIT⟩,
  -- Normal textures as combined image samplers
   ⟨kNormalTexturesArrayBindingPos, VK_DESCRIPTOR_TYPE_COMBINED_IMAGE_SAMPLER,
      num_mat_instances, VK_SHADER_STAGE_FRAGMENT_BIT⟩,
  -- Roughness textures as combined image samplers
   ⟨kRoughnessTexturesArrayBindingPos, VK_DESCRIPTOR_TYPE_COMBINED_IMAGE_SAMPLER,
      num_mat_instances, VK_SHADER_STAGE_FRAGMENT_BIT⟩,
  -- Accumulation buffer
   ⟨kAccumulationBufferBindingPos, VK_DESCRIPTOR_TYPE_COMBINED_IMAGE_SAMPLER, 1,
      VK_SHADER_STAGE_FRAGMENT_BIT⟩] ++
  -- G-Buffers
  (List.range GBtypes.num_items).map (fun i =>
    ⟨u32_add kGBufferBaseBindingPos i, VK_DESCRIPTOR_TYPE_COMBINED_IMAGE_SAMPLER, 1,
      VK_SHADER_STAGE_FRAGMENT_BIT⟩)

open VkDescriptorType VkShaderStageFlags in
/-- The bindings `SetupDescriptorSetAndPipeLayout` pushes for the heap layout, in
source order. -/
def heapBindings (H : Headers) : List VkDescriptorSetLayoutBinding :=
  -- Model matrices for all meshes
  [⟨H.kModelMatxsBufferBindPos, VK_DESCRIPTOR_TYPE_STORAGE_BUFFER, 1,
      VK_SHADER_STAGE_VERTEX_BIT_or_FRAGMENT_BIT⟩] ++
  -- Vertex buffer
  (List.range (SCAST_U32 H.VertexElementType_num_items)).map (fun i =>
    ⟨u32_add H.kVertexBuffersBaseBindPos i, VK_DESCRIPTOR_TYPE_STORAGE_BUFFER, 1,
      VK_SHADER_STAGE_FRAGMENT_BIT⟩) ++
  -- Index buffer
  [⟨H.kIdxBufferBindPos, VK_DESCRIPTOR_TYPE_STORAGE_BUFFER, 1, VK_SHADER_STAGE_FRAGMENT_BIT⟩,
  -- Indirect draw buffers
   ⟨H.kIndirectDrawCmdsBindingPos, VK_DESCRIPTOR_TYPE_STORAGE_BUFFER, 1,
      VK_SHADER_STAGE_FRAGMENT_BIT⟩,
  -- Material IDs
   ⟨H.kMaterialIDsBufferBindPos, VK_DESCRIPTOR_TYPE_STORAGE_BUFFER, 1,
      VK_SHADER_STAGE_FRAGMENT_BIT⟩]

/-- The loop of `SetupDescriptorSetAndPipeLayout` over the layout types: for each
`i` a descriptor-set layout is created from `bindings[i]` and its handle stored in
`desc_set_layouts_[i]`, whatever that element held. -/
def createSetLayouts (bindings : List (List VkDescriptorSetLayoutBinding)) :
    List Nat → VulkanState × List Handle → Except Fault (VulkanState × List Handle)
  | [], s => Except.ok s
  | i :: rest, (vulkan, desc_set_layouts_) => do
      let b ← index bindings i
      let (h, vulkan) := vkCreateDescriptorSetLayout vulkan b
      let desc_set_layouts_ ← assign desc_set_layouts_ i h
      createSetLayouts bindings rest (vulkan, desc_set_layouts_)

/-- The function `DeferredRenderer::SetupDescriptorSetAndPipeLayout`. -/
def SetupDescriptorSetAndPipeLayout {H : Headers} (A : Ambient H) (r : DeferredRenderer H) :
    Except Fault (DeferredRenderer H) := do
  let num_mat_instances := SCAST_U32 A.GetMaterialInstancesCount
  -- `bindings[GPASS_GENERIC]` and `bindings[HEAP]`
  let bindings := [genericBindings num_mat_instances, heapBindings H]
  let desc_set_layouts_ := resize r.desc_set_layouts_ DescSetLayoutTypes.num_items
  let (vulkan, desc_set_layouts_) ←
    createSetLayouts bindings (List.range DescSetLayoutTypes.num_items)
      (r.vulkan, desc_set_layouts_)
  -- `local_layouts` holds the one layout `desc_set_layouts_[GPASS_GENERIC]`
  let local_layout ← index desc_set_layouts_ DescSetLayoutTypes.GPASS_GENERIC
  let (set, vulkan) ← vkAllocateDescriptorSet vulkan r.desc_pool_ local_layout
  let desc_sets_ ← assign r.desc_sets_ 0 set
  -- Create pipeline layouts
  let pipe_layouts_ := resize r.pipe_layouts_ PipeLayoutTypes.num_items
  -- Push constant for the meshes ID
  let push_const_range : VkPushConstantRange :=
    ⟨VkShaderStageFlags.VK_SHADER_STAGE_VERTEX_BIT, 0, SCAST_U32 sizeof_uint32_t⟩
  let (layout, vulkan) := vkCreatePipelineLayout vulkan
    (desc_set_layouts_.take DescSetLayoutTypes.num_items) [push_const_range]
  let pipe_layouts_ ← assign pipe_layouts_ PipeLayoutTypes.GPASS layout
  pure { r with vulkan := vulkan, desc_set_layouts_ := desc_set_layouts_,
                desc_sets_ := desc_sets_,
                pipe_layouts_ := pipe_layouts_ }

/-- The function `DeferredRenderer::SetupDescriptorSets`. -/
def SetupDescriptorSets {H : Headers} (A : Ambient H) (r : DeferredRenderer H) :
    Except Fault (DeferredRenderer H) := do
  -- Cache some sizes
  let num_mat_instances := SCAST_U32 A.GetMaterialInstancesCount
  let num_lights := SCAST_U32 A.GetNumLights
  let mat4_size := SCAST_U32 sizeof_mat4
  let mat4_group_size := u32_mul mat4_size 4
  let lights_array_size := u32_mul (SCAST_U32 H.sizeof_Light) num_lights
  let mat_consts_array_size := u32_mul (SCAST_U32 H.sizeof_MaterialConstants) num_mat_instances
  let set ← index r.desc_sets_ SetTypes.GPASS_GENERIC
  let storage := VkDescriptorType.VK_DESCRIPTOR_TYPE_STORAGE_BUFFER
  let sampler := VkDescriptorType.VK_DESCRIPTOR_TYPE_COMBINED_IMAGE_SAMPLER
  -- Main static buffer
  let w : List VkWriteDescriptorSet :=
    [⟨set, kMainStaticBuffBindingPos, 0, 1, storage, some (0, mat4_group_size)⟩]
  -- Lights array
  let w := w ++ [⟨set, kLightsArrayBindingPos, 0, 1, storage,
    some (mat4_group_size, lights_array_size)⟩]
  -- Material constants array
  let w := w ++ [⟨set, kMatConstsArrayBindingPos, 0, 1, storage,
    some (u32_add mat4_group_size lights_array_size, mat_consts_array_size)⟩]
  -- Depth buffer
  let _ ← deref r.depth_buffer_
  let _ ← deref r.depth_buffer_depth_view_
  let w := w ++ [⟨set, kDepthBuffBindingPos, 0, 1, sampler, none⟩]
  -- Diffuse textures as combined image samplers
  let w := w ++ [⟨set, kDiffuseTexturesArrayBindingPos, 0,
    SCAST_U32 (A.GetDescriptorImageInfosByType MatTextureType.DIFFUSE), sampler, none⟩]
  -- Ambient textures as combined image samplers
  let w := w ++ [⟨set, kAmbientTexturesArrayBindingPos, 0,
    SCAST_U32 (A.GetDescriptorImageInfosByType MatTextureType.AMBIENT), sampler, none⟩]
  -- Specular textures as combined image samplers
  let w := w ++ [⟨set, kSpecularTexturesArrayBindingPos, 0,
    SCAST_U32 (A.GetDescriptorImageInfosByType MatTextureType.SPECULAR), sampler, none⟩]
  -- Roughness textures as combined image samplers
  let w := w ++ [⟨set, kRoughnessTexturesArrayBindingPos, 0,
    SCAST_U32 (A.GetDescriptorImageInfosByType MatTextureType.SPECULAR_HIGHLIGHT), sampler,
    none⟩]
  -- Normal textures
  let w := w ++ [⟨set, kNormalTexturesArrayBindingPos, 0,
    SCAST_U32 (A.GetDescriptorImageInfosByType MatTextureType.NORMAL), sampler, none⟩]
  -- Accumulation buffer
  let _ ← deref r.accum_buffer_
  let w := w ++ [⟨set, kAccumulationBufferBindingPos, 0, 1, sampler, none⟩]
  -- G Buffer
  let g ← forEach (fun i => do
    let t ← index r.g_buffer_ i
    let _ ← deref t
    pure (⟨set, u32_add kGBufferBaseBindingPos i, 0, 1, sampler, none⟩ : VkWriteDescriptorSet))
    (List.range GBtypes.num_items)
  let w := w ++ g
  -- Update them
  pure { r with vulkan := vkUpdateDescriptorSets r.vulkan w }

/-! ### Pass pipelines and the fullscreen quad -/

/-- The function `DeferredRenderer::SetupMaterialPipelines`. -/
def SetupMaterialPipelines {H : Headers} (A : Ambient H) (r : DeferredRenderer H)
    (g_store_vertex_setup : VertexSetup) : Except Fault (DeferredRenderer H) := do
  let vertex_setup_quads : VertexSetup :=
    [⟨H.VertexElementType_POSITION, SCAST_U32 sizeof_vec3, VK_FORMAT_R32G32B32_SFLOAT⟩]
  let num_materials := SCAST_U32 A.GetMaterialInstancesCount
  let num_lights := SCAST_U32 A.GetNumLights
  let spec := [(kNumMaterialsSpecConstPos, num_materials), (kNumLightsSpecConstPos, num_lights)]
  let layout ← index r.pipe_layouts_ PipeLayoutTypes.GPASS
  let _ ← deref r.renderpass_
  useCamera r
  -- Setup visibility shade material
  let g_shade_material_ : Material :=
    { name := "g_shade", vertex_setup := vertex_setup_quads, pipe_layout := layout,
      front_face := VkFrontFace.VK_FRONT_FACE_CLOCKWISE, subpass := 1,
      colour_blend_attachments := 1,
      shaders := [⟨"g_shade.vert", false, spec⟩, ⟨"g_shade.frag", true, spec⟩],
      depth_test_enable := false, depth_write_enable := false }
  -- Setup store material
  let g_store_material_ : Material :=
    { name := "g_store", vertex_setup := g_store_vertex_setup, pipe_layout := layout,
      front_face := VkFrontFace.VK_FRONT_FACE_COUNTER_CLOCKWISE, subpass := 0,
      colour_blend_attachments := (List.range GBtypes.num_items).length,
      shaders := [⟨"g_store.vert", false, spec⟩, ⟨"g_store.frag", true, []⟩],
      depth_test_enable := true, depth_write_enable := true }
  -- Setup tonemap material
  let g_tonemap_material_ : Material :=
    { name := "g_tone", vertex_setup := vertex_setup_quads, pipe_layout := layout,
      front_face := VkFrontFace.VK_FRONT_FACE_CLOCKWISE, subpass := 2,
      colour_blend_attachments := 1,
      shaders := [⟨"tonemapping.vert", false, []⟩, ⟨"tonemapping.frag", true, []⟩],
      depth_test_enable := false, depth_write_enable := false }
  pure { r with g_shade_material_ := some g_shade_material_,
                g_store_material_ := some g_store_material_,
                g_tonemap_material_ := some g_tonemap_material_ }

/-- The function `DeferredRenderer::SetupFullscreenQuad`. -/
def SetupFullscreenQuad {H : Headers} (r : DeferredRenderer H) : DeferredRenderer H :=
  let quad : Model :=
    { name := "fullscreenquad", vertex_count := 4, indices := [0, 1, 2, 0, 2, 3] }
  { r with fullscreenquad_ := some quad }

/-! ### Command recording -/

/-- The commands the loop over `registered_models_` records. -/
def recordModels (layout : Handle) : List Model → List Cmd
  | [] => []
  | m :: rest =>
      [Cmd.BindVertexBuffer m, Cmd.BindIndexBuffer m,
       Cmd.RenderMeshesByMaterial m layout DescSetLayoutTypes.HEAP] ++ recordModels layout rest

/-- The body of the loop of `SetupCommandBuffers` for swapchain image `i`: the
commands recorded into `graphics_buffs[i]`. -/
def recordCommandBuffer {H : Headers} (A : Ambient H) (r : DeferredRenderer H) (i : Nat) :
    Except Fault (List Cmd) := do
  let clear_values :=
    [VkClearValue.color 0 0 0 0, VkClearValue.depthStencil 1 0, VkClearValue.color 0 0 0 0,
     VkClearValue.color 0 0 0 0, VkClearValue.color 0 0 0 0, VkClearValue.color 0 0 0 0]
  let _ ← index r.vulkan.graphics_queue_cmd_buffers i
  let cmds := [Cmd.BeginCommandBuffer]
  let _ ← deref r.renderpass_
  let _ ← index r.framebuffers_ i
  useCamera r
  let cmds := cmds ++ [Cmd.BeginRenderpass i A.viewport_width A.viewport_height clear_values]
  let g_store_material_ ← deref r.g_store_material_
  let cmds := cmds ++ [Cmd.BindPipeline g_store_material_]
  let layout ← index r.pipe_layouts_ PipeLayoutTypes.GPASS
  if r.desc_sets_.length < DescSetLayoutTypes.HEAP then throw Fault.out_of_bounds
  let cmds := cmds ++
    [Cmd.BindDescriptorSets layout 0 (r.desc_sets_.take DescSetLayoutTypes.HEAP)]
  let cmds := cmds ++ recordModels layout r.registered_models_
  -- Light shading pass
  let cmds := cmds ++ [Cmd.NextSubpass]
  let g_shade_material_ ← deref r.g_shade_material_
  let cmds := cmds ++ [Cmd.BindPipeline g_shade_material_]
  let fullscreenquad_ ← deref r.fullscreenquad_
  let cmds := cmds ++ [Cmd.BindVertexBuffer fullscreenquad_, Cmd.BindIndexBuffer fullscreenquad_]
  let cmds := cmds ++ [Cmd.DrawIndexed 6 1 0 0 0]
  -- Light shading pass
  let cmds := cmds ++ [Cmd.NextSubpass]
  let g_tonemap_material_ ← deref r.g_tonemap_material_
  let cmds := cmds ++ [Cmd.BindPipeline g_tonemap_material_]
  let cmds := cmds ++ [Cmd.DrawIndexed 6 1 0 0 0]
  let cmds := cmds ++ [Cmd.EndRenderpass]
  pure (cmds ++ [Cmd.EndCommandBuffer])

/-- The function `DeferredRenderer::SetupCommandBuffers`: command buffer `i` of the
graphics queue is recorded anew for every swapchain image `i`. -/
def SetupCommandBuffers {H : Headers} (A : Ambient H) (r : DeferredRenderer H) :
    Except Fault (DeferredRenderer H) := do
  let num_swapchain_images := SCAST_U32 A.GetNumImages
  let recorded ← forEach (recordCommandBuffer A r) (List.range num_swapchain_images)
  pure { r with vulkan := { r.vulkan with
    graphics_queue_cmd_buffers :=
      recorded ++ r.vulkan.graphics_queue_cmd_buffers.drop num_swapchain_images } }

/-! ### Registration, frame and shutdown -/

/-- The function `DeferredRenderer::RegisterModel`.  The call
`model.CreateAndWriteDescriptorSets` belongs to the model; of it only the read of
`desc_set_layouts_[HEAP]` is the renderer's. -/
def RegisterModel {H : Headers} (A : Ambient H) (r : DeferredRenderer H) (model : Model)
    (g_store_vertex_setup : VertexSetup) : Except Fault (DeferredRenderer H) := do
  let r := { r with registered_models_ := r.registered_models_ ++ [model] }
  let r ← SetupDescriptorSetAndPipeLayout A r
  let _ ← index r.desc_set_layouts_ DescSetLayoutTypes.HEAP
  let r ← SetupUniformBuffers A r
  let r ← SetupMaterialPipelines A r g_store_vertex_setup
  let r ← SetupDescriptorSets A r
  let r := SetupFullscreenQuad r
  SetupCommandBuffers A r

/-- The function `DeferredRenderer::ReloadAllShaders`; the reload itself is the
material manager's. -/
def ReloadAllShaders {H : Headers} (A : Ambient H) (r : DeferredRenderer H) :
    Except Fault (DeferredRenderer H) :=
  SetupCommandBuffers A r

/-- The function `DeferredRenderer::Render`. -/
def Render {H : Headers} (r : DeferredRenderer H) : Except Fault (DeferredRenderer H) := do
  let _ ← index r.vulkan.graphics_queue_cmd_buffers r.current_swapchain_img_
  pure { r with vulkan := { r.vulkan with
    events := r.vulkan.events ++ [DeviceEvent.QueueSubmit r.current_swapchain_img_] } }

/-- The function `DeferredRenderer::PostRender`. -/
def PostRender {H : Headers} (r : DeferredRenderer H) : DeferredRenderer H :=
  { r with vulkan := { r.vulkan with events := r.vulkan.events ++ [DeviceEvent.Present] } }

/-- One of the loops of `Shutdown`: `destroy(v[i])` for each `i` of the list. -/
def destroyEach (v : List Handle) (destroy : VulkanState → Handle → VulkanState) :
    List Nat → VulkanState → Except Fault VulkanState
  | [], vulkan => Except.ok vulkan
  | i :: rest, vulkan => do
      let h ← index v i
      destroyEach v destroy rest (destroy vulkan h)

/-- The call `vkDestroyPipelineLayout`. -/
def vkDestroyPipelineLayout (v : VulkanState) (h : Handle) : VulkanState :=
  { v with pipe_layouts := v.pipe_layouts.filter (fun p => p.handle != h)
           events := v.events ++ [DeviceEvent.DestroyPipelineLayout h] }

/-- The call `vkDestroyDescriptorSetLayout`. -/
def vkDestroyDescriptorSetLayout (v : VulkanState) (h : Handle) : VulkanState :=
  { v with desc_set_layouts := v.desc_set_layouts.filter (fun p => p.handle != h)
           events := v.events ++ [DeviceEvent.DestroyDescriptorSetLayout h] }

/-- The call `vkDestroySampler`. -/
def vkDestroySampler (v : VulkanState) (h : Handle) : VulkanState :=
  { v with samplers := v.samplers.filter (fun s => s != h)
           events := v.events ++ [DeviceEvent.DestroySampler h] }

/-- The calls `vkResetDescriptorPool` and `vkDestroyDescriptorPool` on one pool: its
sets are freed with it. -/
def vkResetAndDestroyDescriptorPool (v : VulkanState) (h : Handle) : VulkanState :=
  { v with desc_pools := v.desc_pools.filter (fun p => p.handle != h)
           pool_descriptors := v.pool_descriptors.filter (fun s => s.1 != h)
           events := v.events ++
             [DeviceEvent.ResetDescriptorPool h, DeviceEvent.DestroyDescriptorPool h] }

/-- The function `DeferredRenderer::Shutdown`. -/
def Shutdown {H : Headers} (r : DeferredRenderer H) : Except Fault (DeferredRenderer H) := do
  let vulkan := { r.vulkan with events := r.vulkan.events ++ [DeviceEvent.DeviceWaitIdle] }
  let vulkan := { vulkan with events := vulkan.events ++ [DeviceEvent.ReleaseRenderpass] }
  let r := { r with renderpass_ := none }
  let vulkan := { vulkan with events := vulkan.events ++ [DeviceEvent.ClearFramebuffers] }
  let r := { r with framebuffers_ := [] }
  let (vulkan, r) :=
    if r.desc_pool_ != VK_NULL_HANDLE then
      (vkResetAndDestroyDescriptorPool vulkan r.desc_pool_,
        { r with desc_pool_ := VK_NULL_HANDLE })
    else (vulkan, r)
  let (vulkan, r) :=
    if r.aniso_sampler_ != VK_NULL_HANDLE then
      (vkDestroySampler vulkan r.aniso_sampler_, { r with aniso_sampler_ := VK_NULL_HANDLE })
    else (vulkan, r)
  let (vulkan, r) :=
    if r.nearest_sampler_ != VK_NULL_HANDLE then
      (vkDestroySampler vulkan r.nearest_sampler_, { r with nearest_sampler_ := VK_NULL_HANDLE })
    else (vulkan, r)
  let vulkan ← destroyEach r.pipe_layouts_ vkDestroyPipelineLayout
    (List.range PipeLayoutTypes.num_items) vulkan
  let r := { r with pipe_layouts_ := [] }
  let vulkan ← destroyEach r.desc_set_layouts_ vkDestroyDescriptorSetLayout
    (List.range DescSetLayoutTypes.num_items) vulkan
  let r := { r with desc_set_layouts_ := [] }
  let vulkan := { vulkan with events := vulkan.events ++ [DeviceEvent.ShutdownBuffer] }
  pure { r with vulkan := vulkan, main_static_buff_ := none }

/-! ### Named sizes and regions of the frame uniform buffer -/

/-- The value both packing functions cache in `mat4_group_size`. -/
def mat4GroupSize : Nat := u32_mul (SCAST_U32 sizeof_mat4) 4

/-- The value both packing functions cache in `lights_array_size` when
`transformed_lights` has `n` elements. -/
def lightsArraySize (H : Headers) (n : Nat) : Nat :=
  u32_mul (SCAST_U32 H.sizeof_Light) (SCAST_U32 n)

/-- The value both packing functions cache in `mat_consts_array_size` when the
material manager reports `m` material instances. -/
def matConstsArraySize (H : Headers) (m : Nat) : Nat :=
  u32_mul (SCAST_U32 H.sizeof_MaterialConstants) (SCAST_U32 m)

/-- The four matrices a packing function uploads, in upload order. -/
def DeferredRenderer.matrices {H : Headers} (r : DeferredRenderer H) : List (Obj sizeof_mat4) :=
  [r.proj_mat_, r.view_mat_, r.inv_proj_mat_, r.inv_view_mat_]

/-- The fault an operation ended in, if it did. -/
def faultOf {α : Type} (x : Except Fault α) : Option Fault :=
  match x with
  | Except.ok _ => none
  | Except.error e => some e

/-! ### Worked scenarios

Concrete header values, collaborators and renderer states on which the functions
above are evaluated. -/

/-- Header values of the scenarios: a 32-byte `Light`, a 16-byte
`MaterialConstants`, five texture types, four vertex element types, and heap
binding positions 0 to 7. -/
def scenarioHeaders : Headers :=
  { sizeof_Light := 32, sizeof_MaterialConstants := 16, MatTextureType_size := 5,
    VertexElementType_num_items := 4, kVertexBuffersBaseBindPos := 1,
    kIndirectDrawCmdsBindingPos := 6, kIdxBufferBindPos := 5, kModelMatxsBufferBindPos := 0,
    kMaterialIDsBufferBindPos := 7, VertexElementType_POSITION := 0 }

/-- Collaborators of the scenarios: a two-image swapchain, `lights` identical
lights, the material constants `consts` and a reported instance count `count`. -/
def scenarioAmbient (lights : Nat) (consts : List (Obj scenarioHeaders.sizeof_MaterialConstants))
    (count : Nat) : Ambient scenarioHeaders :=
  { projection_mat := Obj.fill _ 1
    view_mat := Obj.fill _ 2
    glm_inverse := fun m => m
    TransformLights := fun _ => List.replicate lights (Obj.fill _ 9)
    GetNumLights := lights
    GetMaterialConstants := consts
    GetMaterialInstancesCount := count
    GetDescriptorImageInfosByType := fun _ => count
    GetNumImages := 2
    GetSurfaceFormat := kColourBufferFormat
    depth_format := VK_FORMAT_D32_SFLOAT
    viewport_width := 800
    viewport_height := 600
    Load2DTexture_dummy := none
    AcquireNextImage := fun i => (VkResult.VK_SUCCESS, (i + 1) % 2) }

/-- A freshly constructed renderer on a device with two command buffers, whose
driver does not enforce the limits of descriptor pools. -/
def scenarioRenderer : DeferredRenderer scenarioHeaders :=
  DeferredRenderer.create scenarioHeaders (VulkanState.boot 2)

/-- A renderer whose camera is set and whose buffer has `size` bytes. -/
def scenarioRendererWithBuffer (size : Nat) : DeferredRenderer scenarioHeaders :=
  { scenarioRenderer with cam_ := true, main_static_buff_ := some (VulkanBuffer.Init size) }

/-- A registered model of the scenarios. -/
def scenarioModel : Model := { name := "model", vertex_count := 3, indices := [0, 1, 2] }

/-- `Init` followed by one `RegisterModel` of `scenarioModel`, both under `A`. -/
def scenarioRegistered (A : Ambient scenarioHeaders) :
    Except Fault (DeferredRenderer scenarioHeaders) := do
  let r ← Init A scenarioRenderer
  RegisterModel A r scenarioModel []

/-- One material constant of the scenarios. -/
def scenarioConstsA : List (Obj scenarioHeaders.sizeof_MaterialConstants) := [Obj.fill _ 7]

/-- The material constant of `scenarioConstsA` after its value changed. -/
def scenarioConstsB : List (Obj scenarioHeaders.sizeof_MaterialConstants) := [Obj.fill _ 8]

/-- The material constants after a second instance was added. -/
def scenarioConstsC : List (Obj scenarioHeaders.sizeof_MaterialConstants) :=
  [Obj.fill _ 8, Obj.fill _ 9]

/-! ### The command trace as the specification words it -/

/-- The clear values `SetupCommandBuffers` passes to `BeginRenderpass`. -/
def clearValues : List VkClearValue :=
  [VkClearValue.color 0 0 0 0, VkClearValue.depthStencil 1 0, VkClearValue.color 0 0 0 0,
   VkClearValue.color 0 0 0 0, VkClearValue.color 0 0 0 0, VkClearValue.color 0 0 0 0]

/-- The trace of command buffer `i` written from the words of the specification, not
from the source: Begin, BeginRenderPass, bind geometry-store pipeline, bind
descriptor sets, per model BindVertexBuffer, BindIndexBuffer,
RenderMeshesByMaterial, then NextSubpass, bind shade pipeline, draw of 6 indices,
NextSubpass, bind tonemap pipeline, draw of 6 indices, EndRenderPass, End. -/
def specifiedTrace (i width height : Nat) (store shade tone : Material) (layout : Handle)
    (sets : List Handle) (models : List Model) : List Cmd :=
  [Cmd.BeginCommandBuffer, Cmd.BeginRenderpass i width height clearValues,
   Cmd.BindPipeline store, Cmd.BindDescriptorSets layout 0 sets] ++
  (models.map (fun m => [Cmd.BindVertexBuffer m, Cmd.BindIndexBuffer m,
    Cmd.RenderMeshesByMaterial m layout DescSetLayoutTypes.HEAP])).flatten ++
  [Cmd.NextSubpass, Cmd.BindPipeline shade, Cmd.DrawIndexed 6 1 0 0 0,
   Cmd.NextSubpass, Cmd.BindPipeline tone, Cmd.DrawIndexed 6 1 0 0 0,
   Cmd.EndRenderpass, Cmd.EndCommandBuffer]

/-- The specified trace of buffer `i` built from the renderer's own pipelines,
pipeline layout, descriptor sets and registered models. -/
def specifiedTraceOf {H : Headers} (A : Ambient H) (r : DeferredRenderer H) (i : Nat) :
    Option (List Cmd) := do
  let store ← r.g_store_material_
  let shade ← r.g_shade_material_
  let tone ← r.g_tonemap_material_
  let layout ← r.pipe_layouts_[PipeLayoutTypes.GPASS]?
  pure (specifiedTrace i A.viewport_width A.viewport_height store shade tone layout
    (r.desc_sets_.take DescSetLayoutTypes.HEAP) r.registered_models_)

/-- The `(first set, number of sets)` of each descriptor-set bind of a trace. -/
def boundSetCounts (t : List Cmd) : List (Nat × Nat) :=
  t.filterMap (fun c =>
    match c with
    | Cmd.BindDescriptorSets _ first_set sets => some (first_set, sets.length)
    | _ => none)

/-- A renderer state set up by hand for recording: camera, render pass, two
framebuffers, the three pass pipelines, the quad, one pipeline layout and one
descriptor set, with the registered models `models`. -/
def scenarioRecordingRenderer (models : List Model) : DeferredRenderer scenarioHeaders :=
  let m : Material :=
    { name := "m", vertex_setup := [], pipe_layout := 8,
      front_face := VkFrontFace.VK_FRONT_FACE_CLOCKWISE, subpass := 0,
      colour_blend_attachments := 1, shaders := [], depth_test_enable := false,
      depth_write_enable := false }
  let f : Framebuffer :=
    { name := "from_swapchain_%d", name_index := 0, width := 800, height := 600, layers := 1,
      renderpass := Renderpass.create "deferred_full_pass", attachments := [] }
  { scenarioRenderer with
    cam_ := true
    renderpass_ := some (Renderpass.create "deferred_full_pass")
    framebuffers_ := [f, { f with name_index := 1 }]
    g_store_material_ := some { m with name := "g_store" }
    g_shade_material_ := some { m with name := "g_shade", subpass := 1 }
    g_tonemap_material_ := some { m with name := "g_tone", subpass := 2 }
    fullscreenquad_ := some { name := "fullscreenquad", vertex_count := 4,
                              indices := [0, 1, 2, 0, 2, 3] }
    pipe_layouts_ := [8]
    desc_sets_ := [7]
    registered_models_ := models }

/-! ### Closed forms and state predicates used in the statements -/

/-- The thirteen descriptor writes `SetupDescriptorSets` issues for the set `set`,
in source order. -/
def descriptorWrites {H : Headers} (A : Ambient H) (set : Handle) : List VkWriteDescriptorSet :=
  [⟨set, kMainStaticBuffBindingPos, 0, 1, VkDescriptorType.VK_DESCRIPTOR_TYPE_STORAGE_BUFFER,
      some (0, mat4GroupSize)⟩,
   ⟨set, kLightsArrayBindingPos, 0, 1, VkDescriptorType.VK_DESCRIPTOR_TYPE_STORAGE_BUFFER,
      some (mat4GroupSize, lightsArraySize H A.GetNumLights)⟩,
   ⟨set, kMatConstsArrayBindingPos, 0, 1, VkDescriptorType.VK_DESCRIPTOR_TYPE_STORAGE_BUFFER,
      some (u32_add mat4GroupSize (lightsArraySize H A.GetNumLights),
        matConstsArraySize H A.GetMaterialInstancesCount)⟩,
   ⟨set, kDepthBuffBindingPos, 0, 1,
      VkDescriptorType.VK_DESCRIPTOR_TYPE_COMBINED_IMAGE_SAMPLER, none⟩,
   ⟨set, kDiffuseTexturesArrayBindingPos, 0,
      SCAST_U32 (A.GetDescriptorImageInfosByType MatTextureType.DIFFUSE),
      VkDescriptorType.VK_DESCRIPTOR_TYPE_COMBINED_IMAGE_SAMPLER, none⟩,
   ⟨set, kAmbientTexturesArrayBindingPos, 0,
      SCAST_U32 (A.GetDescriptorImageInfosByType MatTextureType.AMBIENT),
      VkDescriptorType.VK_DESCRIPTOR_TYPE_COMBINED_IMAGE_SAMPLER, none⟩,
   ⟨set, kSpecularTexturesArrayBindingPos, 0,
      SCAST_U32 (A.GetDescriptorImageInfosByType MatTextureType.SPECULAR),
      VkDescriptorType.VK_DESCRIPTOR_TYPE_COMBINED_IMAGE_SAMPLER, none⟩,
   ⟨set, kRoughnessTexturesArrayBindingPos, 0,
      SCAST_U32 (A.GetDescriptorImageInfosByType MatTextureType.SPECULAR_HIGHLIGHT),
      VkDescriptorType.VK_DESCRIPTOR_TYPE_COMBINED_IMAGE_SAMPLER, none⟩,
   ⟨set, kNormalTexturesArrayBindingPos, 0,
      SCAST_U32 (A.GetDescriptorImageInfosByType MatTextureType.NORMAL),
      VkDescriptorType.VK_DESCRIPTOR_TYPE_COMBINED_IMAGE_SAMPLER, none⟩,
   ⟨set, kAccumulationBufferBindingPos, 0, 1,
      VkDescriptorType.VK_DESCRIPTOR_TYPE_COMBINED_IMAGE_SAMPLER, none⟩,
   ⟨set, 10, 0, 1, VkDescriptorType.VK_DESCRIPTOR_TYPE_COMBINED_IMAGE_SAMPLER, none⟩,
   ⟨set, 11, 0, 1, VkDescriptorType.VK_DESCRIPTOR_TYPE_COMBINED_IMAGE_SAMPLER, none⟩,
   ⟨set, 12, 0, 1, VkDescriptorType.VK_DESCRIPTOR_TYPE_COMBINED_IMAGE_SAMPLER, none⟩]

/-- What `Init` establishes and every later operation needs: the camera is set, the
render pass, the attachments and the depth view exist, `desc_pool_` names a live
pool, `desc_sets_` is the one-element array, and there is a framebuffer and a
command buffer for every swapchain image. -/
structure Initialised {H : Headers} (A : Ambient H) (r : DeferredRenderer H) : Prop where
  cam : r.cam_ = true
  renderpass : ∃ rp, r.renderpass_ = some rp
  depth : ∃ t, r.depth_buffer_ = some t
  depth_view : ∃ v, r.depth_buffer_depth_view_ = some v
  accum : ∃ t, r.accum_buffer_ = some t
  g_buffer : ∃ a b c, r.g_buffer_ = [some a, some b, some c]
  pool : r.vulkan.desc_pools.any (fun p => p.handle == r.desc_pool_) = true
  desc_sets : r.desc_sets_.length = SetTypes.num_items
  framebuffers : SCAST_U32 A.GetNumImages ≤ r.framebuffers_.length
  cmd_buffers : SCAST_U32 A.GetNumImages ≤ r.vulkan.graphics_queue_cmd_buffers.length

/-- The driver grants the descriptor set `SetupDescriptorSetAndPipeLayout` requests
from `desc_pool_` for the frame-generic layout of the current instance count: it
does not enforce pool limits, or the pool has room for the set. -/
def PoolGrants {H : Headers} (A : Ambient H) (r : DeferredRenderer H) : Prop :=
  r.vulkan.grants r.desc_pool_ (genericBindings (SCAST_U32 A.GetMaterialInstancesCount)) = true

/-- The packed size of the frame uniform buffer is below `2^32`, and the material
manager has at least as many constants as the instance count it reports. -/
def PackFits {H : Headers} (A : Ambient H) (r : DeferredRenderer H) : Prop :=
  mat4GroupSize + lightsArraySize H (A.TransformLights r.view_mat_).length +
      matConstsArraySize H A.GetMaterialInstancesCount < UINT32_RANGE ∧
  matConstsArraySize H A.GetMaterialInstancesCount ≤ (data A.GetMaterialConstants).length

/-- Registering the models of a list one after another, each with the vertex setup
`g_store_vertex_setup`. -/
def RegisterModels {H : Headers} (A : Ambient H) (g_store_vertex_setup : VertexSetup) :
    DeferredRenderer H → List Model → Except Fault (DeferredRenderer H)
  | r, [] => Except.ok r
  | r, m :: rest => do
      let r ← RegisterModel A r m g_store_vertex_setup
      RegisterModels A g_store_vertex_setup r rest

/-- The descriptor sets requested from the pool `desc_pool_` and not freed. -/
def DeferredRenderer.poolSets {H : Headers} (r : DeferredRenderer H) : List (Handle × Handle) :=
  ((r.vulkan.desc_pools.filter (fun p => p.handle == r.desc_pool_)).map
    (fun p => p.allocatedSets)).flatten

/-- The maximum set counts of the pools named by `desc_pool_`. -/
def DeferredRenderer.poolMaxSets {H : Headers} (r : DeferredRenderer H) : List Nat :=
  (r.vulkan.desc_pools.filter (fun p => p.handle == r.desc_pool_)).map (fun p => p.maxSets)

/-- Material constants of the scenarios: `n` identical entries. -/
def scenarioConsts (n : Nat) : List (Obj scenarioHeaders.sizeof_MaterialConstants) :=
  List.replicate n (Obj.fill _ 7)

/-! ### Closed form of one registration -/

/-- The vertex setup `SetupMaterialPipelines` builds for the two fullscreen passes. -/
def vertexSetupQuads (H : Headers) : VertexSetup :=
  [⟨H.VertexElementType_POSITION, SCAST_U32 sizeof_vec3, VK_FORMAT_R32G32B32_SFLOAT⟩]

/-- The specialisation entries `SetupMaterialPipelines` gives to the shaders that
take any: the material count at `kNumMaterialsSpecConstPos` and the light count at
`kNumLightsSpecConstPos`. -/
def specialisationEntries {H : Headers} (A : Ambient H) : List (Nat × Nat) :=
  [(kNumMaterialsSpecConstPos, SCAST_U32 A.GetMaterialInstancesCount),
   (kNumLightsSpecConstPos, SCAST_U32 A.GetNumLights)]

/-- The material `g_shade` as `SetupMaterialPipelines` creates it with the pipeline
layout `layout`. -/
def shadeMaterial {H : Headers} (A : Ambient H) (layout : Handle) : Material :=
  { name := "g_shade", vertex_setup := vertexSetupQuads H, pipe_layout := layout,
    front_face := VkFrontFace.VK_FRONT_FACE_CLOCKWISE, subpass := 1,
    colour_blend_attachments := 1,
    shaders := [⟨"g_shade.vert", false, specialisationEntries A⟩,
                ⟨"g_shade.frag", true, specialisationEntries A⟩],
    depth_test_enable := false, depth_write_enable := false }

/-- The material `g_store` as `SetupMaterialPipelines` creates it. -/
def storeMaterial {H : Headers} (A : Ambient H) (g_store_vertex_setup : VertexSetup)
    (layout : Handle) : Material :=
  { name := "g_store", vertex_setup := g_store_vertex_setup, pipe_layout := layout,
    front_face := VkFrontFace.VK_FRONT_FACE_COUNTER_CLOCKWISE, subpass := 0,
    colour_blend_attachments := 3,
    shaders := [⟨"g_store.vert", false, specialisationEntries A⟩, ⟨"g_store.frag", true, []⟩],
    depth_test_enable := true, depth_write_enable := true }

/-- The material `g_tone` as `SetupMaterialPipelines` creates it. -/
def toneMaterial (H : Headers) (layout : Handle) : Material :=
  { name := "g_tone", vertex_setup := vertexSetupQuads H, pipe_layout := layout,
    front_face := VkFrontFace.VK_FRONT_FACE_CLOCKWISE, subpass := 2,
    colour_blend_attachments := 1,
    shaders := [⟨"tonemapping.vert", false, []⟩, ⟨"tonemapping.frag", true, []⟩],
    depth_test_enable := false, depth_write_enable := false }

/-- The model `SetupFullscreenQuad` creates. -/
def fullscreenQuad : Model :=
  { name := "fullscreenquad", vertex_count := 4, indices := [0, 1, 2, 0, 2, 3] }

/-- The commands of command buffer `i` as `recordCommandBuffer` records them, in
full. -/
def recordedTrace (i width height : Nat) (store shade tone : Material) (quad : Model)
    (layout : Handle) (sets : List Handle) (models : List Model) : List Cmd :=
  [Cmd.BeginCommandBuffer, Cmd.BeginRenderpass i width height clearValues,
   Cmd.BindPipeline store, Cmd.BindDescriptorSets layout 0 sets] ++
  recordModels layout models ++
  [Cmd.NextSubpass, Cmd.BindPipeline shade,
   Cmd.BindVertexBuffer quad, Cmd.BindIndexBuffer quad, Cmd.DrawIndexed 6 1 0 0 0,
   Cmd.NextSubpass, Cmd.BindPipeline tone, Cmd.DrawIndexed 6 1 0 0 0,
   Cmd.EndRenderpass, Cmd.EndCommandBuffer]

/-- The state one `RegisterModel` call leaves when it returns, written out member by
member; `h` is the next free handle before the call. -/
def registeredState {H : Headers} (A : Ambient H) (r : DeferredRenderer H) (model : Model)
    (g_store_vertex_setup : VertexSetup) : DeferredRenderer H :=
  { r with
    vulkan :=
      { r.vulkan with
        next_handle := r.vulkan.next_handle + 4
        desc_set_layouts := r.vulkan.desc_set_layouts ++
          [{ handle := r.vulkan.next_handle,
             bindings := genericBindings (SCAST_U32 A.GetMaterialInstancesCount) },
           { handle := r.vulkan.next_handle + 1, bindings := heapBindings H }]
        desc_pools := r.vulkan.desc_pools.map (fun p =>
          if p.handle == r.desc_pool_ then
            { p with allocatedSets := p.allocatedSets ++
                [(r.vulkan.next_handle + 2, r.vulkan.next_handle)] }
          else p)
        pool_descriptors := r.vulkan.pool_descriptors ++
          [(r.desc_pool_, genericBindings (SCAST_U32 A.GetMaterialInstancesCount))]
        pipe_layouts := r.vulkan.pipe_layouts ++
          [{ handle := r.vulkan.next_handle + 3,
             setLayouts := [r.vulkan.next_handle, r.vulkan.next_handle + 1],
             pushConstantRanges := [⟨VkShaderStageFlags.VK_SHADER_STAGE_VERTEX_BIT, 0, 4⟩] }]
        descriptor_writes := r.vulkan.descriptor_writes ++
          descriptorWrites A (r.vulkan.next_handle + 2)
        graphics_queue_cmd_buffers :=
          (List.range (SCAST_U32 A.GetNumImages)).map (fun i =>
            recordedTrace i A.viewport_width A.viewport_height
              (storeMaterial A g_store_vertex_setup (r.vulkan.next_handle + 3))
              (shadeMaterial A (r.vulkan.next_handle + 3))
              (toneMaterial H (r.vulkan.next_handle + 3)) fullscreenQuad
              (r.vulkan.next_handle + 3) [r.vulkan.next_handle + 2]
              (r.registered_models_ ++ [model])) ++
          r.vulkan.graphics_queue_cmd_buffers.drop (SCAST_U32 A.GetNumImages) }
    g_store_material_ := some (storeMaterial A g_store_vertex_setup (r.vulkan.next_handle + 3))
    g_shade_material_ := some (shadeMaterial A (r.vulkan.next_handle + 3))
    g_tonemap_material_ := some (toneMaterial H (r.vulkan.next_handle + 3))
    desc_set_layouts_ := [r.vulkan.next_handle, r.vulkan.next_handle + 1]
    desc_sets_ := [r.vulkan.next_handle + 2]
    pipe_layouts_ := [r.vulkan.next_handle + 3]
    main_static_buff_ := some
      { size := mat4GroupSize + lightsArraySize H (A.TransformLights r.view_mat_).length +
          matConstsArraySize H A.GetMaterialInstancesCount
        memory := data r.matrices ++
          (data (A.TransformLights r.view_mat_)).take
            (lightsArraySize H (A.TransformLights r.view_mat_).length) ++
          (data A.GetMaterialConstants).take (matConstsArraySize H A.GetMaterialInstancesCount)
        copies := [(0, mat4GroupSize),
          (mat4GroupSize, lightsArraySize H (A.TransformLights r.view_mat_).length),
          (mat4GroupSize + lightsArraySize H (A.TransformLights r.view_mat_).length,
            matConstsArraySize H A.GetMaterialInstancesCount)] }
    registered_models_ := r.registered_models_ ++ [model]
    fullscreenquad_ := some fullscreenQuad
    mat_consts_ := A.GetMaterialConstants }

/-! ### Observations on traces, writes and device objects -/

/-- The models a trace draws through `RenderMeshesByMaterial`, in trace order. -/
def drawnModels (t : List Cmd) : List Model :=
  t.filterMap (fun c =>
    match c with
    | Cmd.RenderMeshesByMaterial m _ _ => some m
    | _ => none)

/-- The clear-value list of each `BeginRenderpass` of a trace. -/
def renderpassClearValues (t : List Cmd) : List (List VkClearValue) :=
  t.filterMap (fun c =>
    match c with
    | Cmd.BeginRenderpass _ _ _ clear_values => some clear_values
    | _ => none)

/-- Whether a clear value has its depth/stencil member set. -/
def VkClearValue.isDepthStencil : VkClearValue → Bool
  | VkClearValue.depthStencil _ _ => true
  | VkClearValue.color _ _ _ _ => false

/-- The `(offset, range)` of each buffer descriptor among descriptor writes, in
write order. -/
def bufferRanges (writes : List VkWriteDescriptorSet) : List (Nat × Nat) :=
  writes.filterMap (fun w => w.bufferInfo)

/-- The byte range `[offset, offset + size)` ends where the next one starts. -/
def Contiguous (a b : Nat × Nat) : Prop := a.1 + a.2 = b.1

/-- Two byte ranges `(offset, size)` share no byte. -/
def Disjoint2 (a b : Nat × Nat) : Prop := a.1 + a.2 ≤ b.1 ∨ b.1 + b.2 ≤ a.1

/-- Every live descriptor-set layout of the device has a handle that was given out
before `next_handle`: new handles name no older layout. -/
def LayoutHandlesGiven (v : VulkanState) : Prop :=
  ∀ l ∈ v.desc_set_layouts, l.handle < v.next_handle

/-- The device events `Shutdown` adds, for the handles the members hold when it is
called: `pipe_layout` is `pipe_layouts_[0]`, `generic` and `heap` are
`desc_set_layouts_[0]` and `desc_set_layouts_[1]`. -/
def shutdownEvents (desc_pool aniso_sampler nearest_sampler pipe_layout generic heap : Handle) :
    List DeviceEvent :=
  [DeviceEvent.DeviceWaitIdle, DeviceEvent.ReleaseRenderpass, DeviceEvent.ClearFramebuffers] ++
  (if desc_pool != VK_NULL_HANDLE then
    [DeviceEvent.ResetDescriptorPool desc_pool, DeviceEvent.DestroyDescriptorPool desc_pool]
   else []) ++
  (if aniso_sampler != VK_NULL_HANDLE then [DeviceEvent.DestroySampler aniso_sampler] else []) ++
  (if nearest_sampler != VK_NULL_HANDLE then [DeviceEvent.DestroySampler nearest_sampler]
   else []) ++
  [DeviceEvent.DestroyPipelineLayout pipe_layout,
   DeviceEvent.DestroyDescriptorSetLayout generic, DeviceEvent.DestroyDescriptorSetLayout heap,
   DeviceEvent.ShutdownBuffer]

/-- The position of the first occurrence of an event in an event log, if any. -/
def eventIndex (e : DeviceEvent) (log : List DeviceEvent) : Option Nat :=
  let i := log.indexOf e
  if i < log.length then some i else none

/-! ### Scenarios for the swapchain result -/

/-- The collaborators of `scenarioAmbient 1 scenarioConstsA 1` with a swapchain whose
`AcquireNextImage` reports `result` and leaves `next i` in the index argument that
held `i`. -/
def scenarioAcquire (result : VkResult) (next : Nat → Nat) : Ambient scenarioHeaders :=
  { scenarioAmbient 1 scenarioConstsA 1 with AcquireNextImage := fun i => (result, next i) }

/-- The collaborators of `A` with a swapchain that reports `result i` where that of
`A` reports its own result, and leaves the same index. -/
def Ambient.withAcquireResult {H : Headers} (A : Ambient H) (result : Nat → VkResult) :
    Ambient H :=
  { A with AcquireNextImage := fun i => (result i, (A.AcquireNextImage i).2) }

/-- Collaborators whose light source reports `reported` lights through `GetNumLights`
while `TransformLights` returns `packed` lights. -/
def scenarioLights (reported packed : Nat) : Ambient scenarioHeaders :=
  { scenarioAmbient packed scenarioConstsA 1 with GetNumLights := reported }

/-! ## Material instances (`material_instance.cpp`) -/

def VK_FORMAT_BC2_UNORM_BLOCK : VkFormat := 135

/-- One `MaterialBuilderTexture`: the file name and the texture type, the latter as
the value `tools::ToUnderlying` gives for it. -/
structure MaterialBuilderTexture where
  name : String
  type : Nat
  deriving DecidableEq, Repr

/-- The members of `MaterialInstanceBuilder` that `MaterialInstance::Init` reads. -/
structure MaterialInstanceBuilder (H : Headers) where
  inst_name : String
  mats_directory : String
  consts : List (Obj H.sizeof_MaterialConstants)
  textures : List MaterialBuilderTexture
  aniso_sampler : Handle

/-- What `texture_manager()` answers during one `MaterialInstance::Init`.  Each load
takes the path, the format and the sampler and stores a texture through its handle
argument, which is null before the call; `none` stands for a handle left null. -/
structure TextureManager where
  Load2DPNGTexture : String → VkFormat → Handle → Option VulkanTexture
  Load2DTexture : String → VkFormat → Handle → Option VulkanTexture

/-- The members of `class MaterialInstance`.  A null texture or material pointer is
`none`. -/
structure MaterialInstance (H : Headers) where
  name_ : String
  consts_ : Obj H.sizeof_MaterialConstants
  textures_ : List (Option VulkanTexture)
  material_ : Option Material
  maps_desc_set_ : Handle

/-- The constructor `MaterialInstance::MaterialInstance()`.  The container
`textures_` is declared in a header that is not among the sources; `textures_size`
is the number of elements it has after `textures_({nullptr})`, all of them null. -/
def MaterialInstance.create (H : Headers) (textures_size : Nat) : MaterialInstance H :=
  { name_ := ""
    consts_ := Obj.fill _ 0
    textures_ := List.replicate textures_size none
    material_ := none
    maps_desc_set_ := VK_NULL_HANDLE }

/-- The body of the first loop of `MaterialInstance::Init` up to the assignment: the
value of `loaded_texture` for the builder texture `t`.  `kBaseAssetsPath` is a
constant of a header that is not among the sources. -/
def loadBuilderTexture {H : Headers} (T : TextureManager) (kBaseAssetsPath : String)
    (builder : MaterialInstanceBuilder H) (t : MaterialBuilderTexture) : Option VulkanTexture :=
  let loaded_texture : Option VulkanTexture := none
  let loaded_texture :=
    if t.name != "" then
      T.Load2DPNGTexture (builder.mats_directory ++ t.name) VK_FORMAT_R8G8B8A8_UNORM
        builder.aniso_sampler
    else loaded_texture
  if loaded_texture.isNone then
    T.Load2DTexture (kBaseAssetsPath ++ "dummy.ktx") VK_FORMAT_BC2_UNORM_BLOCK
      builder.aniso_sampler
  else loaded_texture

/-- The first loop of `MaterialInstance::Init`, over the indices `i` of the builder
textures: `textures_[ToUnderlying(builder.textures()[i].type)] = loaded_texture`. -/
def assignBuilderTextures {H : Headers} (T : TextureManager) (kBaseAssetsPath : String)
    (builder : MaterialInstanceBuilder H) :
    List Nat → List (Option VulkanTexture) → Except Fault (List (Option VulkanTexture))
  | [], textures_ => Except.ok textures_
  | i :: rest, textures_ => do
      let t ← index builder.textures i
      let loaded_texture := loadBuilderTexture T kBaseAssetsPath builder t
      let textures_ ← assign textures_ t.type loaded_texture
      assignBuilderTextures T kBaseAssetsPath builder rest textures_

/-- The second loop of `MaterialInstance::Init`, over the indices `i` of `textures_`:
an element that is null is loaded from `dummy.ktx`. -/
def fillUnassigned {H : Headers} (T : TextureManager) (kBaseAssetsPath : String)
    (builder : MaterialInstanceBuilder H) :
    List Nat → List (Option VulkanTexture) → Except Fault (List (Option VulkanTexture))
  | [], textures_ => Except.ok textures_
  | i :: rest, textures_ => do
      let t ← index textures_ i
      let textures_ ←
        if t.isNone then
          assign textures_ i
            (T.Load2DTexture (kBaseAssetsPath ++ "dummy.ktx") VK_FORMAT_R8G8B8A8_UNORM
              builder.aniso_sampler)
        else pure textures_
      fillUnassigned T kBaseAssetsPath builder rest textures_

/-- The function `MaterialInstance::Init`.  The call `builder.consts().front()` on
an empty vector is a fault. -/
def MaterialInstance.Init {H : Headers} (T : TextureManager) (kBaseAssetsPath : String)
    (m : MaterialInstance H) (builder : MaterialInstanceBuilder H) :
    Except Fault (MaterialInstance H) := do
  let consts_ ← index builder.consts 0
  let builder_textures_count := SCAST_U32 builder.textures.length
  let textures_ ← assignBuilderTextures T kBaseAssetsPath builder
    (List.range builder_textures_count) m.textures_
  -- Check if some of the textures haven't been assigned
  let textures_count := SCAST_U32 textures_.length
  let textures_ ← fillUnassigned T kBaseAssetsPath builder (List.range textures_count) textures_
  pure { m with consts_ := consts_, textures_ := textures_, name_ := builder.inst_name }

/-- The dummy texture as the first loop loads it, for a builder texture. -/
def dummyForBuilderTexture {H : Headers} (T : TextureManager) (kBaseAssetsPath : String)
    (builder : MaterialInstanceBuilder H) : Option VulkanTexture :=
  T.Load2DTexture (kBaseAssetsPath ++ "dummy.ktx") VK_FORMAT_BC2_UNORM_BLOCK
    builder.aniso_sampler

/-- The dummy texture as the second loop loads it, for an element left null. -/
def dummyForUnassigned {H : Headers} (T : TextureManager) (kBaseAssetsPath : String)
    (builder : MaterialInstanceBuilder H) : Option VulkanTexture :=
  T.Load2DTexture (kBaseAssetsPath ++ "dummy.ktx") VK_FORMAT_R8G8B8A8_UNORM
    builder.aniso_sampler

/-- The last texture of type `k` in a list of builder textures, if there is one. -/
def lastOfType (k : Nat) : List MaterialBuilderTexture → Option MaterialBuilderTexture
  | [] => none
  | t :: rest =>
      match lastOfType k rest with
      | some u => some u
      | none => if t.type = k then some t else none

/-- The PNG load of a builder texture left the handle null, or was not made because
the name is empty. -/
def NotLoaded {H : Headers} (T : TextureManager) (builder : MaterialInstanceBuilder H)
    (t : MaterialBuilderTexture) : Prop :=
  t.name = "" ∨
  T.Load2DPNGTexture (builder.mats_directory ++ t.name) VK_FORMAT_R8G8B8A8_UNORM
    builder.aniso_sampler = none

/-- A texture manager that finds `mats/brick.png` and `assets/dummy.ktx` and nothing
else. -/
def scenarioTextureManager : TextureManager :=
  { Load2DPNGTexture := fun path format _ =>
      if path = "mats/brick.png" then
        some { name := path, format := format, sampled := true, colour_attachment := false,
               depth_stencil_attachment := false }
      else none
    Load2DTexture := fun path format _ =>
      if path = "assets/dummy.ktx" then
        some { name := path, format := format, sampled := true, colour_attachment := false,
               depth_stencil_attachment := false }
      else none }

/-- A builder with one constants entry and three textures: one that loads, one with
an empty name and one whose file is missing; types 0, 1 and 2. -/
def scenarioBuilder : MaterialInstanceBuilder scenarioHeaders :=
  { inst_name := "brick_inst"
    mats_directory := "mats/"
    consts := [Obj.fill _ 7]
    textures := [⟨"brick.png", 0⟩, ⟨"", 1⟩, ⟨"missing.png", 2⟩]
    aniso_sampler := 1 }

/-! ### Observations for the consistency statements -/

/-- The pipelines a trace binds, in trace order, each with the number of
`NextSubpass` commands recorded before its bind; `n` is the number recorded before
the trace starts. -/
def pipelineBinds : List Cmd → Nat → List (Material × Nat)
  | [], _ => []
  | Cmd.BindPipeline m :: rest, n => (m, n) :: pipelineBinds rest n
  | Cmd.NextSubpass :: rest, n => pipelineBinds rest (n + 1)
  | _ :: rest, n => pipelineBinds rest n

/-- The `(first set, sets)` of each descriptor-set bind of a trace. -/
def boundSets (t : List Cmd) : List (Nat × List Handle) :=
  t.filterMap (fun c =>
    match c with
    | Cmd.BindDescriptorSets _ first_set sets => some (first_set, sets)
    | _ => none)

/-- The `(pipeline layout, heap set index)` of each `RenderMeshesByMaterial` of a
trace. -/
def heapSetIndices (t : List Cmd) : List (Handle × Nat) :=
  t.filterMap (fun c =>
    match c with
    | Cmd.RenderMeshesByMaterial _ layout heap_set_index => some (layout, heap_set_index)
    | _ => none)

/-- The format of an image given to a framebuffer.  A texture has the format it was
created with.  Image `i` of the swapchain is created by the swapchain, which is
outside the sources; its format is `image_format i`. -/
def FramebufferImage.format (image_format : Nat → VkFormat) : FramebufferImage → VkFormat
  | FramebufferImage.swapchain_image i => image_format i
  | FramebufferImage.texture t => t.format

/-- The name under which an image given to a framebuffer was created; the images of
the swapchain are named `swapchain`. -/
def FramebufferImage.role : FramebufferImage → String
  | FramebufferImage.swapchain_image _ => "swapchain"
  | FramebufferImage.texture t => t.name

/-- The `(binding, descriptor type)` pairs of a list of layout bindings. -/
def declaredBindings (bs : List VkDescriptorSetLayoutBinding) : List (Nat × VkDescriptorType) :=
  bs.map (fun b => (b.binding, b.descriptorType))

/-- The `(binding, descriptor type)` pairs of a list of descriptor writes. -/
def writtenBindings (ws : List VkWriteDescriptorSet) : List (Nat × VkDescriptorType) :=
  ws.map (fun w => (w.dstBinding, w.descriptorType))

/-! ### Scenarios for the descriptor pool limits -/

/-- A freshly constructed renderer on a device with two command buffers whose driver
enforces the limits of descriptor pools. -/
def scenarioRendererEnforcing : DeferredRenderer scenarioHeaders :=
  DeferredRenderer.create scenarioHeaders (VulkanState.boot 2).enforcing

/-- `Init` followed by one `RegisterModel` of `scenarioModel`, both under `A`, on the
driver that enforces pool limits. -/
def scenarioRegisteredEnforcing (A : Ambient scenarioHeaders) :
    Except Fault (DeferredRenderer scenarioHeaders) := do
  let r ← Init A scenarioRendererEnforcing
  RegisterModel A r scenarioModel []

/-- A second model of the scenarios. -/
def scenarioModelB : Model := { name := "modelB", vertex_count := 4, indices := [0, 1, 2, 3] }

/-- A third model of the scenarios. -/
def scenarioModelC : Model := { name := "modelC", vertex_count := 3, indices := [2, 1, 0] }

/-! # Theorems -/

/-! ## Render pass -/

theorem SetupRenderPass_dependencies (sf df : VkFormat) :
    (SetupRenderPass sf df).dependencies =
      [ { src_subpass := VK_SUBPASS_EXTERNAL, dst_subpass := 2,
          src_stage := VK_PIPELINE_STAGE_BOTTOM_OF_PIPE_BIT,
          dst_stage := VK_PIPELINE_STAGE_COLOR_ATTACHMENT_OUTPUT_BIT,
          src_access := VK_ACCESS_MEMORY_READ_BIT,
          dst_access := VK_ACCESS_COLOR_ATTACHMENT_WRITE_BIT,
          dependency_flags := VK_DEPENDENCY_BY_REGION_BIT },
        { src_subpass := 0, dst_subpass := 1,
          src_stage := VK_PIPELINE_STAGE_COLOR_ATTACHMENT_OUTPUT_BIT,
          dst_stage := VK_PIPELINE_STAGE_FRAGMENT_SHADER_BIT,
          src_access := VK_ACCESS_COLOR_ATTACHMENT_WRITE_BIT,
          dst_access := VK_ACCESS_SHADER_READ_BIT,
          dependency_flags := VK_DEPENDENCY_BY_REGION_BIT },
        { src_subpass := 1, dst_subpass := 2,
          src_stage := VK_PIPELINE_STAGE_COLOR_ATTACHMENT_OUTPUT_BIT,
          dst_stage := VK_PIPELINE_STAGE_FRAGMENT_SHADER_BIT,
          src_access := VK_ACCESS_COLOR_ATTACHMENT_WRITE_BIT,
          dst_access := VK_ACCESS_SHADER_READ_BIT,
          dependency_flags := VK_DEPENDENCY_BY_REGION_BIT },
        { src_subpass := 2, dst_subpass := VK_SUBPASS_EXTERNAL,
          src_stage := VK_PIPELINE_STAGE_COLOR_ATTACHMENT_OUTPUT_BIT,
          dst_stage := VK_PIPELINE_STAGE_BOTTOM_OF_PIPE_BIT,
          src_access := VK_ACCESS_COLOR_ATTACHMENT_WRITE_BIT,
          dst_access := VK_ACCESS_MEMORY_READ_BIT,
          dependency_flags := VK_DEPENDENCY_BY_REGION_BIT } ] := by
  rfl

theorem SetupRenderPass_subpasses (sf df : VkFormat) :
    (SetupRenderPass sf df).subpasses =
      [ { name := "g_store", bind_point := VK_PIPELINE_BIND_POINT_GRAPHICS,
          colour_refs := [⟨2, VK_IMAGE_LAYOUT_COLOR_ATTACHMENT_OPTIMAL⟩,
                          ⟨3, VK_IMAGE_LAYOUT_COLOR_ATTACHMENT_OPTIMAL⟩,
                          ⟨4, VK_IMAGE_LAYOUT_COLOR_ATTACHMENT_OPTIMAL⟩],
          depth_ref := some ⟨1, VK_IMAGE_LAYOUT_DEPTH_STENCIL_ATTACHMENT_OPTIMAL⟩ },
        { name := "lighting", bind_point := VK_PIPELINE_BIND_POINT_GRAPHICS,
          colour_refs := [⟨5, VK_IMAGE_LAYOUT_COLOR_ATTACHMENT_OPTIMAL⟩], depth_ref := none },
        { name := "tonemapping", bind_point := VK_PIPELINE_BIND_POINT_GRAPHICS,
          colour_refs := [⟨0, VK_IMAGE_LAYOUT_COLOR_ATTACHMENT_OPTIMAL⟩], depth_ref := none } ] := by
  rfl

open RenderpassCall in
theorem SetupRenderPass_calls (sf df : VkFormat) :
    (SetupRenderPass sf df).calls =
      [AddAttachment 0, AddAttachment 1, AddAttachment 2, AddAttachment 3, AddAttachment 4,
       AddAttachment 5, AddSubpass 0, AddSubpassColourAttachmentRef 0 2,
       AddSubpassColourAttachmentRef 0 3, AddSubpassColourAttachmentRef 0 4,
       AddSubpassDepthAttachmentRef 0 1, AddSubpass 1, AddSubpassColourAttachmentRef 1 5,
       AddSubpass 2, AddSubpassColourAttachmentRef 2 0,
       AddSubpassDependency VK_SUBPASS_EXTERNAL 2, AddSubpassDependency 0 1,
       AddSubpassDependency 1 2, AddSubpassDependency 2 VK_SUBPASS_EXTERNAL] := by
  simp [SetupRenderPass, Renderpass.AddSubpassDependency, Renderpass.AddSubpass,
    Renderpass.AddAttachment, Renderpass.create, Renderpass.AddSubpassColourAttachmentRef,
    Renderpass.AddSubpassDepthAttachmentRef]

theorem SetupRenderPass_subpassIds (sf df : VkFormat) :
    (SetupRenderPass sf df).subpassId "g_store" = some 0 ∧
    (SetupRenderPass sf df).subpassId "lighting" = some 1 ∧
    (SetupRenderPass sf df).subpassId "tonemapping" = some 2 := by
  simp only [Renderpass.subpassId, SetupRenderPass_subpasses]
  decide

/-- C2 (as stated, refuted): the claim lists an external→store dependency.  In the
render pass `SetupRenderPass` declares, the store subpass has id 0, the list of
`(src, dst)` pairs is not the claimed one, and no dependency at all goes from
`VK_SUBPASS_EXTERNAL` to the store subpass. -/
theorem SetupRenderPass_no_external_to_store_dependency :
    (SetupRenderPass kColourBufferFormat VK_FORMAT_D32_SFLOAT).subpassId "g_store" = some 0 ∧
    (SetupRenderPass kColourBufferFormat VK_FORMAT_D32_SFLOAT).dependencyEdges.map
        (fun e => (e.1, e.2.1)) ≠
      [(VK_SUBPASS_EXTERNAL, 0), (0, 1), (1, 2), (2, VK_SUBPASS_EXTERNAL)] ∧
    (VK_SUBPASS_EXTERNAL, 0) ∉
      (SetupRenderPass kColourBufferFormat VK_FORMAT_D32_SFLOAT).dependencyEdges.map
        (fun e => (e.1, e.2.1)) := by
  refine ⟨(SetupRenderPass_subpassIds _ _).1, ?_, ?_⟩ <;>
    simp only [Renderpass.dependencyEdges, SetupRenderPass_dependencies] <;> decide

/-- C2 (amended): the render pass `SetupRenderPass` declares has exactly 6
attachments, in the order present-colour (surface format, final layout
present-src), depth (depth format), diffuse albedo, specular albedo, normal and
accumulation; exactly 3 subpasses, in the order store (`g_store`, id 0), shade
(`lighting`, id 1), tonemap (`tonemapping`, id 2); and exactly 4 dependencies, which
are external→tonemap, store→shade, shade→tonemap and tonemap→external, each
carrying `VK_DEPENDENCY_BY_REGION_BIT`. -/
theorem SetupRenderPass_topology (sf df : VkFormat) :
    (SetupRenderPass sf df).attachments.length = 6 ∧
    (SetupRenderPass sf df).attachments.map (fun a => (a.format, a.final_layout)) =
      [(sf, VK_IMAGE_LAYOUT_PRESENT_SRC_KHR),
       (df, VK_IMAGE_LAYOUT_DEPTH_STENCIL_ATTACHMENT_OPTIMAL),
       (kDiffuseAlbedoFormat, VK_IMAGE_LAYOUT_SHADER_READ_ONLY_OPTIMAL),
       (kSpecularAlbedoFormat, VK_IMAGE_LAYOUT_SHADER_READ_ONLY_OPTIMAL),
       (kNormalFormat, VK_IMAGE_LAYOUT_SHADER_READ_ONLY_OPTIMAL),
       (kAccumulationFormat, VK_IMAGE_LAYOUT_SHADER_READ_ONLY_OPTIMAL)] ∧
    (SetupRenderPass sf df).subpasses.length = 3 ∧
    (SetupRenderPass sf df).subpasses.map (fun s => s.name) =
      ["g_store", "lighting", "tonemapping"] ∧
    (SetupRenderPass sf df).subpassId "g_store" = some 0 ∧
    (SetupRenderPass sf df).subpassId "lighting" = some 1 ∧
    (SetupRenderPass sf df).subpassId "tonemapping" = some 2 ∧
    (SetupRenderPass sf df).dependencies.length = 4 ∧
    (SetupRenderPass sf df).dependencyEdges =
      [(VK_SUBPASS_EXTERNAL, 2, VK_DEPENDENCY_BY_REGION_BIT),
       (0, 1, VK_DEPENDENCY_BY_REGION_BIT),
       (1, 2, VK_DEPENDENCY_BY_REGION_BIT),
       (2, VK_SUBPASS_EXTERNAL, VK_DEPENDENCY_BY_REGION_BIT)] := by
  refine ⟨rfl, rfl, ?_, ?_, (SetupRenderPass_subpassIds sf df).1,
    (SetupRenderPass_subpassIds sf df).2.1, (SetupRenderPass_subpassIds sf df).2.2, ?_, ?_⟩
  · rw [SetupRenderPass_subpasses]; rfl
  · rw [SetupRenderPass_subpasses]; rfl
  · rw [SetupRenderPass_dependencies]; rfl
  · simp only [Renderpass.dependencyEdges, SetupRenderPass_dependencies]; rfl

theorem SetupRenderPass_edge_rank (sf df : VkFormat) (a b : DepNode)
    (h : (SetupRenderPass sf df).DepEdge a b) : a.rank < b.rank := by
  obtain ⟨d, hd, ha, hb⟩ := h
  rw [SetupRenderPass_dependencies] at hd
  simp only [List.mem_cons, List.mem_singleton, List.not_mem_nil, or_false] at hd
  subst ha hb
  rcases hd with rfl | rfl | rfl | rfl <;> decide

theorem SetupRenderPass_path_rank (sf df : VkFormat) (a b : DepNode)
    (h : Relation.TransGen (SetupRenderPass sf df).DepEdge a b) : a.rank < b.rank := by
  induction h with
  | single e => exact SetupRenderPass_edge_rank sf df _ _ e
  | tail _ e ih => exact lt_trans ih (SetupRenderPass_edge_rank sf df _ _ e)

/-- C3: in the render pass `SetupRenderPass` declares, (1) every dependency between
two real subpasses goes from a lower id to a strictly higher one, (2) a dependency
with the external sentinel on one side has a declared subpass on the other, (3) the
dependency graph has no cycle, (4) every colour or depth reference call uses an
attachment id and a subpass id returned by an earlier `AddAttachment` and
`AddSubpass` call, and (5) every attachment id a subpass refers to is below the
attachment count, which is 6. -/
theorem SetupRenderPass_dependencies_acyclic_and_references_declared (sf df : VkFormat) :
    (∀ d ∈ (SetupRenderPass sf df).dependencies,
        d.src_subpass ≠ VK_SUBPASS_EXTERNAL → d.dst_subpass ≠ VK_SUBPASS_EXTERNAL →
        d.src_subpass < d.dst_subpass) ∧
    (∀ d ∈ (SetupRenderPass sf df).dependencies,
        (d.src_subpass = VK_SUBPASS_EXTERNAL →
          d.dst_subpass < (SetupRenderPass sf df).subpasses.length) ∧
        (d.dst_subpass = VK_SUBPASS_EXTERNAL →
          d.src_subpass < (SetupRenderPass sf df).subpasses.length)) ∧
    (SetupRenderPass sf df).Acyclic ∧
    (∀ (i : Nat) (c : RenderpassCall), (SetupRenderPass sf df).calls[i]? = some c →
        c.DeclaredBefore ((SetupRenderPass sf df).calls.take i)) ∧
    (∀ s ∈ (SetupRenderPass sf df).subpasses, ∀ a ∈ s.referencedAttachments,
        a < (SetupRenderPass sf df).attachments.length ∧ a < 6) := by
  refine ⟨?_, ?_, ?_, ?_, ?_⟩
  · rw [SetupRenderPass_dependencies]; decide
  · rw [SetupRenderPass_dependencies, SetupRenderPass_subpasses]; decide
  · intro a h
    exact lt_irrefl _ (SetupRenderPass_path_rank sf df a a h)
  · rw [SetupRenderPass_calls]
    intro i c h
    have hi : i < 19 := by
      by_contra hge
      rw [List.getElem?_eq_none (by simpa using hge)] at h
      exact Option.noConfusion h
    interval_cases i <;> simp at h <;> subst h <;> simp [RenderpassCall.DeclaredBefore]
  · have hlen : (SetupRenderPass sf df).attachments.length = 6 := rfl
    rw [hlen, SetupRenderPass_subpasses]
    decide

/-! ## Frame uniform buffer -/

theorem data_length {size : Nat} (v : List (Obj size)) : (data v).length = v.length * size := by
  induction v with
  | nil => simp [data]
  | cons o os ih => simp [data, ih, o.property]; ring

theorem mat4GroupSize_eq : mat4GroupSize = 4 * sizeof_mat4 := by decide

theorem matrices_length {H : Headers} (r : DeferredRenderer H) :
    (data r.matrices).length = mat4GroupSize := by
  rw [data_length, mat4GroupSize_eq]; rfl

theorem memcpy_at_end (pre rest src : List Byte) (count : Nat)
    (hsrc : count ≤ src.length) (hdst : count ≤ rest.length) :
    memcpy (pre ++ rest) pre.length src count =
      Except.ok (pre ++ src.take count ++ rest.drop count) := by
  unfold memcpy
  rw [if_pos ⟨hsrc, by simp [hdst]⟩]
  simp [List.drop_append]

theorem memcpy_length (dst src out : List Byte) (offset count : Nat)
    (h : memcpy dst offset src count = Except.ok out) :
    out.length = dst.length ∧ count ≤ src.length ∧ offset + count ≤ dst.length := by
  unfold memcpy at h
  split at h
  · rename_i hc
    cases h
    refine ⟨?_, hc.1, hc.2⟩
    simp [List.length_take, List.length_drop]
    omega
  · cases h

theorem memcpy_fault (dst src : List Byte) (offset count : Nat)
    (h : dst.length < offset + count) :
    memcpy dst offset src count = Except.error Fault.out_of_bounds := by
  unfold memcpy
  rw [if_neg]
  rintro ⟨_, h2⟩
  omega

/-- The three copies of a packing function, made one after another into `b`. -/
theorem upload_ok {β : Type} (b : VulkanBuffer) (ms ls cs : List Byte) (g las mcas : Nat)
    (k : VulkanBuffer → Except Fault β)
    (hg : ms.length = g) (hl : las ≤ ls.length) (hc : mcas ≤ cs.length)
    (hfit : g + las + mcas ≤ b.memory.length) :
    (b.Map.memcpy 0 ms g >>= fun m1 =>
      m1.memcpy (0 + g) ls las >>= fun m2 =>
      m2.memcpy (0 + g + las) cs mcas >>= k) =
    k { size := b.size
        memory := ms ++ ls.take las ++ cs.take mcas ++ b.memory.drop (g + las + mcas)
        copies := [(0, g), (g, las), (g + las, mcas)] } := by
  subst hg
  have h1 : memcpy b.memory 0 ms ms.length = Except.ok (ms ++ b.memory.drop ms.length) := by
    have := memcpy_at_end [] b.memory ms ms.length le_rfl (by omega)
    simpa using this
  have h2 : memcpy (ms ++ b.memory.drop ms.length) ms.length ls las =
      Except.ok (ms ++ ls.take las ++ b.memory.drop (ms.length + las)) := by
    have := memcpy_at_end ms (b.memory.drop ms.length) ls las hl
      (by simp [List.length_drop]; omega)
    simpa [List.drop_drop, Nat.add_comm] using this
  have h3 : memcpy (ms ++ ls.take las ++ b.memory.drop (ms.length + las)) (ms.length + las)
      cs mcas =
      Except.ok (ms ++ ls.take las ++ cs.take mcas ++ b.memory.drop (ms.length + las + mcas)) := by
    have := memcpy_at_end (ms ++ ls.take las) (b.memory.drop (ms.length + las)) cs mcas hc
      (by simp [List.length_drop]; omega)
    have hlen : (ms ++ ls.take las).length = ms.length + las := by
      simp [List.length_take, hl]
    rw [hlen] at this
    simpa [List.drop_drop, Nat.add_comm, Nat.add_left_comm] using this
  simp only [VulkanBuffer.memcpy, VulkanBuffer.Map, Nat.zero_add, bind, Except.bind, h1, h2, h3,
    pure, Except.pure, List.nil_append, List.cons_append]

theorem u32_mul_le (a b : Nat) : u32_mul (SCAST_U32 a) (SCAST_U32 b) ≤ b * a := by
  unfold u32_mul SCAST_U32
  calc a % UINT32_RANGE * (b % UINT32_RANGE) % UINT32_RANGE
      ≤ a % UINT32_RANGE * (b % UINT32_RANGE) := Nat.mod_le _ _
    _ ≤ a * b := Nat.mul_le_mul (Nat.mod_le _ _) (Nat.mod_le _ _)
    _ = b * a := Nat.mul_comm _ _

theorem u32_mul_exact (a b : Nat) (h : b * a < UINT32_RANGE) (ha : 0 < a) :
    u32_mul (SCAST_U32 a) (SCAST_U32 b) = b * a := by
  have hb : b < UINT32_RANGE := lt_of_le_of_lt (Nat.le_mul_of_pos_right b ha) h
  unfold u32_mul SCAST_U32
  rcases Nat.eq_zero_or_pos b with hb0 | hb0
  · subst hb0; simp
  · have ha' : a < UINT32_RANGE := lt_of_le_of_lt (Nat.le_mul_of_pos_left a hb0) h
    rw [Nat.mod_eq_of_lt ha', Nat.mod_eq_of_lt hb, Nat.mul_comm, Nat.mod_eq_of_lt h]

theorem lightsArraySize_le {H : Headers} (lights : List (Obj H.sizeof_Light)) :
    lightsArraySize H lights.length ≤ (data lights).length := by
  rw [data_length]; exact u32_mul_le _ _

theorem SetupUniformBuffers_ok {H : Headers} (A : Ambient H) (r : DeferredRenderer H)
    (hsize : mat4GroupSize + lightsArraySize H (A.TransformLights r.view_mat_).length +
      matConstsArraySize H A.GetMaterialInstancesCount < UINT32_RANGE)
    (hsrc : matConstsArraySize H A.GetMaterialInstancesCount ≤
      (data A.GetMaterialConstants).length) :
    SetupUniformBuffers A r = Except.ok
      { r with
        mat_consts_ := A.GetMaterialConstants
        main_static_buff_ := some
          { size := mat4GroupSize + lightsArraySize H (A.TransformLights r.view_mat_).length +
              matConstsArraySize H A.GetMaterialInstancesCount
            memory := data r.matrices ++
              (data (A.TransformLights r.view_mat_)).take
                (lightsArraySize H (A.TransformLights r.view_mat_).length) ++
              (data A.GetMaterialConstants).take
                (matConstsArraySize H A.GetMaterialInstancesCount)
            copies := [(0, mat4GroupSize),
              (mat4GroupSize, lightsArraySize H (A.TransformLights r.view_mat_).length),
              (mat4GroupSize + lightsArraySize H (A.TransformLights r.view_mat_).length,
                matConstsArraySize H A.GetMaterialInstancesCount)] } } := by
  have hadd : u32_add (u32_add mat4GroupSize
      (lightsArraySize H (A.TransformLights r.view_mat_).length))
      (matConstsArraySize H A.GetMaterialInstancesCount) =
      mat4GroupSize + lightsArraySize H (A.TransformLights r.view_mat_).length +
      matConstsArraySize H A.GetMaterialInstancesCount := by
    unfold u32_add
    have h1 : mat4GroupSize + lightsArraySize H (A.TransformLights r.view_mat_).length
        < UINT32_RANGE := by omega
    rw [Nat.mod_eq_of_lt h1, Nat.mod_eq_of_lt hsize]
  have key := upload_ok
    (VulkanBuffer.Init (mat4GroupSize + lightsArraySize H (A.TransformLights r.view_mat_).length +
      matConstsArraySize H A.GetMaterialInstancesCount))
    (data r.matrices) (data (A.TransformLights r.view_mat_)) (data A.GetMaterialConstants)
    mat4GroupSize _ _
    (fun m => pure { r with mat_consts_ := A.GetMaterialConstants, main_static_buff_ := some m })
    (matrices_length r) (lightsArraySize_le _) hsrc (by simp [VulkanBuffer.Init])
  have hdrop : ∀ n : Nat, (List.replicate n (0 : Byte)).drop n = [] := by
    intro n; simp
  simp only [VulkanBuffer.Init, hdrop, List.append_nil] at key
  unfold SetupUniformBuffers
  simp only [UpdateLights]
  change (VulkanBuffer.Init (u32_add (u32_add mat4GroupSize
      (lightsArraySize H (A.TransformLights r.view_mat_).length))
      (matConstsArraySize H A.GetMaterialInstancesCount))).Map.memcpy 0 (data r.matrices)
        mat4GroupSize >>= _ = _
  rw [hadd]
  exact key

theorem UpdatePVMatrices_ok {H : Headers} (A : Ambient H) (r : DeferredRenderer H)
    (hcam : r.cam_ = true) :
    UpdatePVMatrices A r = Except.ok
      { r with
        proj_mat_ := A.projection_mat
        view_mat_ := A.view_mat
        inv_proj_mat_ := A.glm_inverse A.projection_mat
        inv_view_mat_ := A.glm_inverse A.view_mat } := by
  simp [UpdatePVMatrices, useCamera, hcam, bind, Except.bind, pure, Except.pure]

/-- The four matrices `UpdateBuffers` uploads: those of the camera and their
inverses. -/
theorem UpdateBuffers_ok {H : Headers} (A : Ambient H) (r : DeferredRenderer H)
    (b : VulkanBuffer) (hcam : r.cam_ = true) (hbuf : r.main_static_buff_ = some b)
    (hfit : mat4GroupSize + lightsArraySize H (A.TransformLights A.view_mat).length +
      matConstsArraySize H A.GetMaterialInstancesCount ≤ b.memory.length)
    (hsrc : matConstsArraySize H A.GetMaterialInstancesCount ≤ (data r.mat_consts_).length) :
    UpdateBuffers A r = Except.ok
      { r with
        proj_mat_ := A.projection_mat
        view_mat_ := A.view_mat
        inv_proj_mat_ := A.glm_inverse A.projection_mat
        inv_view_mat_ := A.glm_inverse A.view_mat
        main_static_buff_ := some
          { size := b.size
            memory :=
              data [A.projection_mat, A.view_mat, A.glm_inverse A.projection_mat,
                A.glm_inverse A.view_mat] ++
              (data (A.TransformLights A.view_mat)).take
                (lightsArraySize H (A.TransformLights A.view_mat).length) ++
              (data r.mat_consts_).take (matConstsArraySize H A.GetMaterialInstancesCount) ++
              b.memory.drop (mat4GroupSize +
                lightsArraySize H (A.TransformLights A.view_mat).length +
                matConstsArraySize H A.GetMaterialInstancesCount)
            copies := [(0, mat4GroupSize),
              (mat4GroupSize, lightsArraySize H (A.TransformLights A.view_mat).length),
              (mat4GroupSize + lightsArraySize H (A.TransformLights A.view_mat).length,
                matConstsArraySize H A.GetMaterialInstancesCount)] } } := by
  have hm : (data [A.projection_mat, A.view_mat, A.glm_inverse A.projection_mat,
      A.glm_inverse A.view_mat]).length = mat4GroupSize := by
    rw [data_length, mat4GroupSize_eq]; rfl
  have key := upload_ok b
    (data [A.projection_mat, A.view_mat, A.glm_inverse A.projection_mat,
      A.glm_inverse A.view_mat])
    (data (A.TransformLights A.view_mat)) (data r.mat_consts_)
    mat4GroupSize _ _
    (fun m => pure
      { r with
        proj_mat_ := A.projection_mat
        view_mat_ := A.view_mat
        inv_proj_mat_ := A.glm_inverse A.projection_mat
        inv_view_mat_ := A.glm_inverse A.view_mat
        main_static_buff_ := some m })
    hm (lightsArraySize_le _) hsrc hfit
  unfold UpdateBuffers
  rw [UpdatePVMatrices_ok A r hcam]
  simp only [UpdateLights, hbuf, deref, bind, Except.bind]
  exact key

theorem readBack_prefix (a rest : List Byte) : readBack (a ++ rest) 0 a.length = a := by
  simp [readBack]

theorem readBack_middle (pre mid post : List Byte) :
    readBack (pre ++ mid ++ post) pre.length mid.length = mid := by
  simp [readBack]

theorem u32_mul_exact' (a b : Nat) (h : b * a < UINT32_RANGE) :
    u32_mul (SCAST_U32 a) (SCAST_U32 b) = b * a := by
  rcases Nat.eq_zero_or_pos a with ha | ha
  · subst ha; simp [u32_mul, SCAST_U32, UINT32_RANGE]
  · exact u32_mul_exact a b h ha

/-- Whatever the element size of at least 2 bytes, `2^31` elements make the cached
32-bit array size differ from the true one. -/
theorem lightsArraySize_wraps (H : Headers) (h : 2 ≤ H.sizeof_Light) :
    lightsArraySize H 2147483648 ≠ 2147483648 * H.sizeof_Light := by
  intro heq
  have hlt : lightsArraySize H 2147483648 < UINT32_RANGE := Nat.mod_lt _ (by decide)
  have : UINT32_RANGE ≤ 2147483648 * H.sizeof_Light := by
    calc UINT32_RANGE = 2147483648 * 2 := by decide
      _ ≤ 2147483648 * H.sizeof_Light := Nat.mul_le_mul_left _ h
  omega

theorem scenario_big_lights_size :
    lightsArraySize scenarioHeaders 134217728 = 0 := by decide

theorem scenario_big_setup :
    SetupUniformBuffers (scenarioAmbient 134217728 [] 0) scenarioRenderer = Except.ok
      { scenarioRenderer with
        mat_consts_ := []
        main_static_buff_ := some
          { size := 256
            memory := data scenarioRenderer.matrices
            copies := [(0, 256), (256, 0), (256, 0)] } } := by
  have hlen : ((scenarioAmbient 134217728 [] 0).TransformLights
      scenarioRenderer.view_mat_).length = 134217728 :=
    List.length_replicate _ _
  have hm : matConstsArraySize scenarioHeaders
      (scenarioAmbient 134217728 [] 0).GetMaterialInstancesCount = 0 := by decide
  have h := SetupUniformBuffers_ok (scenarioAmbient 134217728 [] 0) scenarioRenderer
    (by rw [hlen, scenario_big_lights_size, hm]; decide) (by rw [hm]; exact Nat.zero_le _)
  rw [h]
  simp only [hlen, scenario_big_lights_size, hm, List.take_zero, List.append_nil]
  rfl

/-- C4 (as stated, refuted): with 32-byte lights and `2^27` of them,
`SetupUniformBuffers` returns, having written the material constants at byte
offset 256, not at `lightsOffset + N * sizeof(Light) = 256 + 2^32`: the 32-bit
product `sizeof(Light) * N` wrapped to 0. -/
theorem SetupUniformBuffers_materials_offset_wraps :
    ∃ r' b, SetupUniformBuffers (scenarioAmbient 134217728 [] 0) scenarioRenderer =
        Except.ok r' ∧
      r'.main_static_buff_ = some b ∧
      b.copies = [(0, 256), (256, 0), (256, 0)] ∧
      (256 : Nat) ≠ 4 * sizeof_mat4 + 134217728 * scenarioHeaders.sizeof_Light :=
  ⟨_, _, scenario_big_setup, rfl, rfl, by decide⟩

/-- C4 (amended): in both `SetupUniformBuffers` and `UpdateBuffers`, whenever the
buffer and the source arrays are large enough for the three copies, the function
returns having written the light array at byte offset `4 * sizeof(mat4)` and the
material-constant array at byte offset `4 * sizeof(mat4) + L`, where
`L = (sizeof(Light) * N) mod 2^32` is the 32-bit size of the light array for `N`
transformed lights; and `L = N * sizeof(Light)` whenever that product is below
`2^32`. -/
theorem packing_offsets {H : Headers} (A : Ambient H) (r : DeferredRenderer H) :
    (mat4GroupSize + lightsArraySize H (A.TransformLights r.view_mat_).length +
        matConstsArraySize H A.GetMaterialInstancesCount < UINT32_RANGE →
      matConstsArraySize H A.GetMaterialInstancesCount ≤ (data A.GetMaterialConstants).length →
      ∃ r' b, SetupUniformBuffers A r = Except.ok r' ∧ r'.main_static_buff_ = some b ∧
        b.copies = [(0, 4 * sizeof_mat4),
          (4 * sizeof_mat4, lightsArraySize H (A.TransformLights r.view_mat_).length),
          (4 * sizeof_mat4 + lightsArraySize H (A.TransformLights r.view_mat_).length,
            matConstsArraySize H A.GetMaterialInstancesCount)]) ∧
    (∀ b0, r.cam_ = true → r.main_static_buff_ = some b0 →
      mat4GroupSize + lightsArraySize H (A.TransformLights A.view_mat).length +
        matConstsArraySize H A.GetMaterialInstancesCount ≤ b0.memory.length →
      matConstsArraySize H A.GetMaterialInstancesCount ≤ (data r.mat_consts_).length →
      ∃ r' b, UpdateBuffers A r = Except.ok r' ∧ r'.main_static_buff_ = some b ∧
        b.copies = [(0, 4 * sizeof_mat4),
          (4 * sizeof_mat4, lightsArraySize H (A.TransformLights A.view_mat).length),
          (4 * sizeof_mat4 + lightsArraySize H (A.TransformLights A.view_mat).length,
            matConstsArraySize H A.GetMaterialInstancesCount)]) ∧
    (∀ N : Nat, lightsArraySize H N = (H.sizeof_Light % 2 ^ 32 * (N % 2 ^ 32)) % 2 ^ 32) ∧
    (∀ N : Nat, N * H.sizeof_Light < 2 ^ 32 → lightsArraySize H N = N * H.sizeof_Light) := by
  refine ⟨?_, ?_, ?_, ?_⟩
  · intro h1 h2
    exact ⟨_, _, SetupUniformBuffers_ok A r h1 h2, rfl, by rw [mat4GroupSize_eq]⟩
  · intro b0 hc hb h1 h2
    exact ⟨_, _, UpdateBuffers_ok A r b0 hc hb h1 h2, rfl, by rw [mat4GroupSize_eq]⟩
  · intro N; rfl
  · intro N h; exact u32_mul_exact' _ _ h

/-- C4 (witness): the hypotheses of `packing_offsets` hold for three lights and two
material constants, for `SetupUniformBuffers` on a fresh renderer and for
`UpdateBuffers` on a renderer with a 384-byte buffer. -/
theorem packing_offsets_witness :
    (∃ r' b, SetupUniformBuffers
        (scenarioAmbient 3 [Obj.fill _ 7, Obj.fill _ 8] 2) (scenarioRendererWithBuffer 384) =
          Except.ok r' ∧ r'.main_static_buff_ = some b ∧
        b.copies = [(0, 4 * sizeof_mat4), (4 * sizeof_mat4, 96), (4 * sizeof_mat4 + 96, 32)]) ∧
    (∃ r' b, UpdateBuffers
        (scenarioAmbient 3 [Obj.fill _ 7, Obj.fill _ 8] 0) (scenarioRendererWithBuffer 384) =
          Except.ok r' ∧ r'.main_static_buff_ = some b ∧
        b.copies = [(0, 4 * sizeof_mat4), (4 * sizeof_mat4, 96), (4 * sizeof_mat4 + 96, 0)]) :=
  ⟨(packing_offsets (scenarioAmbient 3 [Obj.fill _ 7, Obj.fill _ 8] 2)
      (scenarioRendererWithBuffer 384)).1 (by decide) (by decide),
   (packing_offsets (scenarioAmbient 3 [Obj.fill _ 7, Obj.fill _ 8] 0)
      (scenarioRendererWithBuffer 384)).2.1 (VulkanBuffer.Init 384) rfl rfl
      (by rw [show (VulkanBuffer.Init 384).memory.length = 384 from List.length_replicate _ _]
          decide)
      (by decide)⟩

theorem matConstsArraySize_exact (H : Headers) (M : Nat)
    (h : M * H.sizeof_MaterialConstants < UINT32_RANGE) :
    matConstsArraySize H M = M * H.sizeof_MaterialConstants :=
  u32_mul_exact' _ _ h

theorem lightsArraySize_exact (H : Headers) (N : Nat)
    (h : N * H.sizeof_Light < UINT32_RANGE) :
    lightsArraySize H N = N * H.sizeof_Light :=
  u32_mul_exact' _ _ h

/-- Reading back the three regions of a packed memory image. -/
theorem readBack_regions (ms ls cs rest : List Byte) :
    readBack (ms ++ ls ++ cs ++ rest) 0 ms.length = ms ∧
    readBack (ms ++ ls ++ cs ++ rest) ms.length ls.length = ls ∧
    readBack (ms ++ ls ++ cs ++ rest) (ms.length + ls.length) cs.length = cs := by
  refine ⟨?_, ?_, ?_⟩
  · simp [readBack, List.append_assoc]
  · simp [readBack, List.append_assoc]
  · have h : (ms ++ ls).length = ms.length + ls.length := List.length_append _ _
    rw [← h]
    simp only [readBack, List.append_assoc]
    rw [← List.append_assoc ms ls, List.drop_left, List.take_left]

/-- C5 (as stated, refuted): with 32-byte lights and `N = 2^27` of them,
`SetupUniformBuffers` returns with a buffer of 256 bytes into which it copied no
light at all, so the `N * sizeof(Light)` bytes read back at `lightsOffset` are not
the light list. -/
theorem SetupUniformBuffers_round_trip_fails_on_wrap :
    ∃ r' b, SetupUniformBuffers (scenarioAmbient 134217728 [] 0) scenarioRenderer =
        Except.ok r' ∧
      r'.main_static_buff_ = some b ∧
      b.size = 256 ∧
      readBack b.memory (4 * sizeof_mat4) (134217728 * scenarioHeaders.sizeof_Light) ≠
        data ((scenarioAmbient 134217728 [] 0).TransformLights scenarioRenderer.view_mat_) := by
  refine ⟨_, _, scenario_big_setup, rfl, rfl, ?_⟩
  intro h
  have hlen := congrArg List.length h
  rw [data_length, show ((scenarioAmbient 134217728 [] 0).TransformLights
      scenarioRenderer.view_mat_).length = 134217728 from List.length_replicate _ _] at hlen
  have hle : (readBack (data scenarioRenderer.matrices) (4 * sizeof_mat4)
      (134217728 * scenarioHeaders.sizeof_Light)).length ≤ 256 := by
    unfold readBack
    rw [List.length_take, List.length_drop, matrices_length]
    exact le_trans (Nat.min_le_right _ _) (Nat.sub_le _ _)
  have hbig : (256 : Nat) < 134217728 * scenarioHeaders.sizeof_Light := by decide
  have hmem : (⟨256, data scenarioRenderer.matrices, [(0, 256), (256, 0), (256, 0)]⟩ :
      VulkanBuffer).memory = data scenarioRenderer.matrices := rfl
  rw [hmem] at hlen
  omega

/-- C5 (amended): for every light list of `N` entries and material-constant list of
`M` entries for which the packed size `4 * sizeof(mat4) + N * sizeof(Light) +
M * sizeof(MaterialConstants)` is below `2^32`, `SetupUniformBuffers` returns with a
buffer of exactly that size whose first `4 * sizeof(mat4)` bytes are the four
matrices in the order projection, view, inverse-projection, inverse-view, whose
`N * sizeof(Light)` bytes at `lightsOffset` are the light list and whose
`M * sizeof(MaterialConstants)` bytes at `materialsOffset` are the material-constant
list; and `UpdateBuffers` returns with the same three regions, the material
constants being the renderer's stored list `mat_consts_` of `M` entries, when the
camera is set and the existing buffer has at least the packed size. -/
theorem packing_round_trip {H : Headers} (A : Ambient H) (r : DeferredRenderer H) :
    (A.GetMaterialInstancesCount = A.GetMaterialConstants.length →
      4 * sizeof_mat4 + (A.TransformLights r.view_mat_).length * H.sizeof_Light +
        A.GetMaterialConstants.length * H.sizeof_MaterialConstants < 2 ^ 32 →
      ∃ r' b, SetupUniformBuffers A r = Except.ok r' ∧ r'.main_static_buff_ = some b ∧
        b.size = 4 * sizeof_mat4 + (A.TransformLights r.view_mat_).length * H.sizeof_Light +
          A.GetMaterialConstants.length * H.sizeof_MaterialConstants ∧
        readBack b.memory 0 (4 * sizeof_mat4) =
          data [r.proj_mat_, r.view_mat_, r.inv_proj_mat_, r.inv_view_mat_] ∧
        readBack b.memory (4 * sizeof_mat4)
          ((A.TransformLights r.view_mat_).length * H.sizeof_Light) =
          data (A.TransformLights r.view_mat_) ∧
        readBack b.memory
          (4 * sizeof_mat4 + (A.TransformLights r.view_mat_).length * H.sizeof_Light)
          (A.GetMaterialConstants.length * H.sizeof_MaterialConstants) =
          data A.GetMaterialConstants) ∧
    (∀ b0, r.cam_ = true → r.main_static_buff_ = some b0 →
      A.GetMaterialInstancesCount = r.mat_consts_.length →
      4 * sizeof_mat4 + (A.TransformLights A.view_mat).length * H.sizeof_Light +
        r.mat_consts_.length * H.sizeof_MaterialConstants < 2 ^ 32 →
      4 * sizeof_mat4 + (A.TransformLights A.view_mat).length * H.sizeof_Light +
        r.mat_consts_.length * H.sizeof_MaterialConstants ≤ b0.memory.length →
      ∃ r' b, UpdateBuffers A r = Except.ok r' ∧ r'.main_static_buff_ = some b ∧
        b.size = b0.size ∧
        readBack b.memory 0 (4 * sizeof_mat4) =
          data [A.projection_mat, A.view_mat, A.glm_inverse A.projection_mat,
            A.glm_inverse A.view_mat] ∧
        readBack b.memory (4 * sizeof_mat4)
          ((A.TransformLights A.view_mat).length * H.sizeof_Light) =
          data (A.TransformLights A.view_mat) ∧
        readBack b.memory
          (4 * sizeof_mat4 + (A.TransformLights A.view_mat).length * H.sizeof_Light)
          (r.mat_consts_.length * H.sizeof_MaterialConstants) =
          data r.mat_consts_) := by
  have hR : UINT32_RANGE = 2 ^ 32 := by decide
  constructor
  · intro hM hfit
    rw [← hR] at hfit
    have hl := lightsArraySize_exact H (A.TransformLights r.view_mat_).length (by omega)
    have hc := matConstsArraySize_exact H A.GetMaterialConstants.length (by omega)
    have hok := SetupUniformBuffers_ok A r
      (by rw [hM, hl, hc, mat4GroupSize_eq]; exact hfit)
      (by rw [hM, hc, data_length])
    rw [hM, hl, hc, mat4GroupSize_eq] at hok
    refine ⟨_, _, hok, rfl, rfl, ?_⟩
    have ht1 : (data (A.TransformLights r.view_mat_)).take
        ((A.TransformLights r.view_mat_).length * H.sizeof_Light) =
        data (A.TransformLights r.view_mat_) :=
      List.take_of_length_le (by rw [data_length])
    have ht2 : (data A.GetMaterialConstants).take
        (A.GetMaterialConstants.length * H.sizeof_MaterialConstants) =
        data A.GetMaterialConstants :=
      List.take_of_length_le (by rw [data_length])
    simp only [ht1, ht2]
    have key := readBack_regions (data r.matrices) (data (A.TransformLights r.view_mat_))
      (data A.GetMaterialConstants) []
    rw [matrices_length, mat4GroupSize_eq, data_length, data_length, List.append_nil] at key
    exact key
  · intro b0 hcam hbuf hM hfit hsize
    rw [← hR] at hfit
    have hl := lightsArraySize_exact H (A.TransformLights A.view_mat).length (by omega)
    have hc := matConstsArraySize_exact H r.mat_consts_.length (by omega)
    have hok := UpdateBuffers_ok A r b0 hcam hbuf
      (by rw [hM, hl, hc, mat4GroupSize_eq]; exact hsize)
      (by rw [hM, hc, data_length])
    rw [hM, hl, hc, mat4GroupSize_eq] at hok
    refine ⟨_, _, hok, rfl, rfl, ?_⟩
    have ht1 : (data (A.TransformLights A.view_mat)).take
        ((A.TransformLights A.view_mat).length * H.sizeof_Light) =
        data (A.TransformLights A.view_mat) :=
      List.take_of_length_le (by rw [data_length])
    have ht2 : (data r.mat_consts_).take
        (r.mat_consts_.length * H.sizeof_MaterialConstants) = data r.mat_consts_ :=
      List.take_of_length_le (by rw [data_length])
    simp only [ht1, ht2]
    have hm : (data [A.projection_mat, A.view_mat, A.glm_inverse A.projection_mat,
        A.glm_inverse A.view_mat]).length = 4 * sizeof_mat4 := by
      rw [data_length]; rfl
    have key := readBack_regions
      (data [A.projection_mat, A.view_mat, A.glm_inverse A.projection_mat,
        A.glm_inverse A.view_mat])
      (data (A.TransformLights A.view_mat)) (data r.mat_consts_)
      (b0.memory.drop (4 * sizeof_mat4 + (A.TransformLights A.view_mat).length * H.sizeof_Light
        + r.mat_consts_.length * H.sizeof_MaterialConstants))
    rw [hm, data_length, data_length] at key
    exact key

/-- C5 (witness): the hypotheses of `packing_round_trip` hold for 64 lights and 64
material constants in `SetupUniformBuffers`, and for 64 lights in `UpdateBuffers`
on a renderer with a 4096-byte buffer. -/
theorem packing_round_trip_witness :
    (∃ r' b, SetupUniformBuffers
        (scenarioAmbient 64 (List.replicate 64 (Obj.fill _ 7)) 64) scenarioRenderer =
          Except.ok r' ∧ r'.main_static_buff_ = some b ∧ b.size = 256 + 64 * 32 + 64 * 16) ∧
    (∃ r' b, UpdateBuffers (scenarioAmbient 64 [] 0) (scenarioRendererWithBuffer 4096) =
          Except.ok r' ∧ r'.main_static_buff_ = some b ∧ b.size = 4096) :=
  ⟨by
    obtain ⟨r', b, h1, h2, h3, _⟩ :=
      (packing_round_trip (scenarioAmbient 64 (List.replicate 64 (Obj.fill _ 7)) 64)
        scenarioRenderer).1 (by decide) (by decide)
    exact ⟨r', b, h1, h2, h3⟩,
   by
    obtain ⟨r', b, h1, h2, h3, _⟩ :=
      (packing_round_trip (scenarioAmbient 64 [] 0) (scenarioRendererWithBuffer 4096)).2
        (VulkanBuffer.Init 4096) rfl rfl (by decide) (by decide)
        (by rw [show (VulkanBuffer.Init 4096).memory.length = 4096 from
              List.length_replicate _ _]
            decide)
    exact ⟨r', b, h1, h2, h3⟩⟩

theorem memcpy_error (dst src : List Byte) (offset count : Nat) (e : Fault)
    (h : memcpy dst offset src count = Except.error e) : e = Fault.out_of_bounds := by
  unfold memcpy at h
  split at h
  · cases h
  · cases h; rfl

/-- When the mapped memory is shorter than the three regions together, one of the
three copies writes past its end. -/
theorem upload_fault {β : Type} (b : VulkanBuffer) (ms ls cs : List Byte) (g las mcas : Nat)
    (k : VulkanBuffer → Except Fault β) (hsmall : b.memory.length < g + las + mcas) :
    (b.Map.memcpy 0 ms g >>= fun m1 =>
      m1.memcpy (0 + g) ls las >>= fun m2 =>
      m2.memcpy (0 + g + las) cs mcas >>= k) = Except.error Fault.out_of_bounds := by
  simp only [VulkanBuffer.memcpy, VulkanBuffer.Map, bind, Except.bind, pure, Except.pure]
  cases h1 : memcpy b.memory 0 ms g with
  | error e => rw [memcpy_error _ _ _ _ _ h1]
  | ok m1 =>
    have l1 := (memcpy_length _ _ _ _ _ h1).1
    simp only []
    cases h2 : memcpy m1 (0 + g) ls las with
    | error e => rw [memcpy_error _ _ _ _ _ h2]
    | ok m2 =>
      have l2 := (memcpy_length _ _ _ _ _ h2).1
      simp only []
      rw [memcpy_fault m2 cs (0 + g + las) mcas (by omega)]

/-- The buffer `UpdateBuffers` writes is the one it finds: when that buffer is
smaller than the three regions of the current counts, the write runs past it. -/
theorem UpdateBuffers_fault_of_small_buffer {H : Headers} (A : Ambient H)
    (r : DeferredRenderer H) (b : VulkanBuffer) (hcam : r.cam_ = true)
    (hbuf : r.main_static_buff_ = some b)
    (hsmall : b.memory.length < mat4GroupSize +
      lightsArraySize H (A.TransformLights A.view_mat).length +
      matConstsArraySize H A.GetMaterialInstancesCount) :
    UpdateBuffers A r = Except.error Fault.out_of_bounds := by
  unfold UpdateBuffers
  rw [UpdatePVMatrices_ok A r hcam]
  simp only [UpdateLights, hbuf, deref, bind, Except.bind]
  exact upload_fault b _ _ _ mat4GroupSize _ _ _ hsmall

set_option maxRecDepth 100000 in
/-- C6 (the code at the failing input): a model is registered while there are no
lights and no material instances, so `main_static_buff_` is created with 256 bytes;
one light is then added.  The next `PreRender` needs 288 bytes, does not recreate
the buffer, and its copy of the light array runs past the end of the 256 bytes. -/
theorem PreRender_overruns_buffer_after_light_added :
    (scenarioRegistered (scenarioAmbient 0 [] 0)).map
        (fun r => r.main_static_buff_.map (fun b => (b.size, b.memory.length))) =
      Except.ok (some (256, 256)) ∧
    mat4GroupSize + lightsArraySize scenarioHeaders 1 + matConstsArraySize scenarioHeaders 0 =
      288 ∧
    faultOf (scenarioRegistered (scenarioAmbient 0 [] 0) >>=
        PreRender (scenarioAmbient 1 [] 0)) = some Fault.out_of_bounds :=
  ⟨rfl, by decide, rfl⟩

set_option maxRecDepth 100000 in
/-- C7 (the code at the failing input): a model is registered while the material
manager's constants are `scenarioConstsA`; the constants then change to
`scenarioConstsB`, the count staying 1.  After the next `PreRender` the
material-constant region of the buffer still holds `scenarioConstsA`, the copy taken
at registration.  And when a second instance is added (`scenarioConstsC`, count 2),
`UpdateBuffers` reads two entries from the one-entry copy, past its end, even
though the buffer is large enough. -/
theorem PreRender_uploads_material_constants_of_last_registration :
    (scenarioRegistered (scenarioAmbient 0 scenarioConstsA 1) >>=
        PreRender (scenarioAmbient 0 scenarioConstsB 1)).map
        (fun r => r.main_static_buff_.map (fun b => readBack b.memory 256 16)) =
      Except.ok (some (data scenarioConstsA)) ∧
    data scenarioConstsA ≠ data scenarioConstsB ∧
    faultOf (UpdateBuffers (scenarioAmbient 0 scenarioConstsC 2)
        { scenarioRendererWithBuffer 384 with mat_consts_ := scenarioConstsA }) =
      some Fault.out_of_bounds :=
  ⟨rfl, by decide, rfl⟩

/-! ## Command recording -/

theorem recordModels_eq (layout : Handle) (models : List Model) :
    recordModels layout models =
      (models.map (fun m => [Cmd.BindVertexBuffer m, Cmd.BindIndexBuffer m,
        Cmd.RenderMeshesByMaterial m layout DescSetLayoutTypes.HEAP])).flatten := by
  induction models with
  | nil => rfl
  | cons m rest ih => simp [recordModels, ih]

theorem recordModels_count (layout : Handle) (models : List Model) :
    (recordModels layout models).count Cmd.NextSubpass = 0 ∧
    (recordModels layout models).count (Cmd.DrawIndexed 6 1 0 0 0) = 0 := by
  induction models with
  | nil => exact ⟨rfl, rfl⟩
  | cons m rest ih =>
    simp [recordModels, List.count_append, List.count_cons, ih.1, ih.2]

/-- The trace `recordCommandBuffer` produces for image `i`, in full. -/
theorem recordCommandBuffer_ok {H : Headers} (A : Ambient H) (r : DeferredRenderer H) (i : Nat)
    (rp : Renderpass) (store shade tone : Material) (quad : Model) (layout : Handle)
    (hcmd : i < r.vulkan.graphics_queue_cmd_buffers.length)
    (hrp : r.renderpass_ = some rp) (hfb : i < r.framebuffers_.length)
    (hcam : r.cam_ = true)
    (hstore : r.g_store_material_ = some store) (hshade : r.g_shade_material_ = some shade)
    (htone : r.g_tonemap_material_ = some tone) (hquad : r.fullscreenquad_ = some quad)
    (hlayout : r.pipe_layouts_[PipeLayoutTypes.GPASS]? = some layout)
    (hsets : DescSetLayoutTypes.HEAP ≤ r.desc_sets_.length) :
    recordCommandBuffer A r i = Except.ok
      ([Cmd.BeginCommandBuffer,
        Cmd.BeginRenderpass i A.viewport_width A.viewport_height clearValues,
        Cmd.BindPipeline store,
        Cmd.BindDescriptorSets layout 0 (r.desc_sets_.take DescSetLayoutTypes.HEAP)] ++
       recordModels layout r.registered_models_ ++
       [Cmd.NextSubpass, Cmd.BindPipeline shade,
        Cmd.BindVertexBuffer quad, Cmd.BindIndexBuffer quad, Cmd.DrawIndexed 6 1 0 0 0,
        Cmd.NextSubpass, Cmd.BindPipeline tone, Cmd.DrawIndexed 6 1 0 0 0,
        Cmd.EndRenderpass, Cmd.EndCommandBuffer]) := by
  have h1 : r.vulkan.graphics_queue_cmd_buffers[i]? =
      some (r.vulkan.graphics_queue_cmd_buffers[i]) := List.getElem?_eq_getElem hcmd
  have h2 : r.framebuffers_[i]? = some (r.framebuffers_[i]) := List.getElem?_eq_getElem hfb
  have h3 : ¬ r.desc_sets_.length < DescSetLayoutTypes.HEAP := Nat.not_lt.mpr hsets
  simp [recordCommandBuffer, index, deref, useCamera, h1, h2, h3, hrp, hcam, hstore, hshade,
    htone, hquad, hlayout, bind, Except.bind, pure, Except.pure, clearValues]

theorem forEach_ok {α : Type} (f : Nat → Except Fault α) (g : Nat → α) (is : List Nat)
    (h : ∀ i ∈ is, f i = Except.ok (g i)) : forEach f is = Except.ok (is.map g) := by
  induction is with
  | nil => rfl
  | cons i rest ih =>
    have hi := h i (List.mem_cons_self _ _)
    have hrest := ih (fun j hj => h j (List.mem_cons_of_mem _ hj))
    simp [forEach, hi, hrest, bind, Except.bind, pure, Except.pure]

/-- The state `SetupCommandBuffers` leaves when every pointer it dereferences is set
and the vectors it indexes are long enough. -/
theorem SetupCommandBuffers_ok {H : Headers} (A : Ambient H) (r : DeferredRenderer H)
    (rp : Renderpass) (store shade tone : Material) (quad : Model) (layout : Handle)
    (hcmd : SCAST_U32 A.GetNumImages ≤ r.vulkan.graphics_queue_cmd_buffers.length)
    (hrp : r.renderpass_ = some rp)
    (hfb : SCAST_U32 A.GetNumImages ≤ r.framebuffers_.length)
    (hcam : r.cam_ = true)
    (hstore : r.g_store_material_ = some store) (hshade : r.g_shade_material_ = some shade)
    (htone : r.g_tonemap_material_ = some tone) (hquad : r.fullscreenquad_ = some quad)
    (hlayout : r.pipe_layouts_[PipeLayoutTypes.GPASS]? = some layout)
    (hsets : DescSetLayoutTypes.HEAP ≤ r.desc_sets_.length) :
    SetupCommandBuffers A r = Except.ok
      { r with vulkan := { r.vulkan with
          graphics_queue_cmd_buffers :=
            (List.range (SCAST_U32 A.GetNumImages)).map (fun i =>
              [Cmd.BeginCommandBuffer,
               Cmd.BeginRenderpass i A.viewport_width A.viewport_height clearValues,
               Cmd.BindPipeline store,
               Cmd.BindDescriptorSets layout 0 (r.desc_sets_.take DescSetLayoutTypes.HEAP)] ++
              recordModels layout r.registered_models_ ++
              [Cmd.NextSubpass, Cmd.BindPipeline shade,
               Cmd.BindVertexBuffer quad, Cmd.BindIndexBuffer quad, Cmd.DrawIndexed 6 1 0 0 0,
               Cmd.NextSubpass, Cmd.BindPipeline tone, Cmd.DrawIndexed 6 1 0 0 0,
               Cmd.EndRenderpass, Cmd.EndCommandBuffer]) ++
            r.vulkan.graphics_queue_cmd_buffers.drop (SCAST_U32 A.GetNumImages) } } := by
  have h := forEach_ok (recordCommandBuffer A r) _ (List.range (SCAST_U32 A.GetNumImages))
    (fun i hi => recordCommandBuffer_ok A r i rp store shade tone quad layout
      (lt_of_lt_of_le (List.mem_range.mp hi) hcmd) hrp
      (lt_of_lt_of_le (List.mem_range.mp hi) hfb) hcam hstore hshade htone hquad hlayout hsets)
  simp only [SetupCommandBuffers, h, bind, Except.bind, pure, Except.pure]

set_option maxRecDepth 100000 in
/-- C1 (as stated, refuted): after `Init` and one `RegisterModel` with a two-image
swapchain, command buffer 0 holds 17 commands while the trace the claim lists has
15; they differ; the recorded trace binds the fullscreen quad's vertex and index
buffers once each, which the claimed trace does not; and its one descriptor-set
bind starts at set 0 and binds one set, `desc_sets_` holding one set. -/
theorem recorded_trace_differs_from_specified_trace :
    (scenarioRegistered (scenarioAmbient 1 scenarioConstsA 1)).map (fun r =>
      ((r.vulkan.graphics_queue_cmd_buffers[0]?).map List.length,
       (specifiedTraceOf (scenarioAmbient 1 scenarioConstsA 1) r 0).map List.length,
       decide (r.vulkan.graphics_queue_cmd_buffers[0]? =
         specifiedTraceOf (scenarioAmbient 1 scenarioConstsA 1) r 0),
       (r.vulkan.graphics_queue_cmd_buffers[0]?).map (fun t =>
         (t.count (Cmd.BindVertexBuffer
            { name := "fullscreenquad", vertex_count := 4, indices := [0, 1, 2, 0, 2, 3] }),
          t.count (Cmd.BindIndexBuffer
            { name := "fullscreenquad", vertex_count := 4, indices := [0, 1, 2, 0, 2, 3] }))),
       (specifiedTraceOf (scenarioAmbient 1 scenarioConstsA 1) r 0).map (fun t =>
         (t.count (Cmd.BindVertexBuffer
            { name := "fullscreenquad", vertex_count := 4, indices := [0, 1, 2, 0, 2, 3] }),
          t.count (Cmd.BindIndexBuffer
            { name := "fullscreenquad", vertex_count := 4, indices := [0, 1, 2, 0, 2, 3] }))),
       (r.vulkan.graphics_queue_cmd_buffers[0]?).map boundSetCounts,
       r.desc_sets_.length)) =
    Except.ok (some 17, some 15, false, some (1, 1), some (0, 0), some [(0, 1)], 1) := by
  rfl

/-- C1 (amended): for every swapchain image count `N` and every registered-model
list, when the render pass, framebuffers, pass pipelines, quad, pipeline layout and
descriptor set exist, `SetupCommandBuffers` records exactly the first `N` command
buffers and leaves the others as they were, and the trace of buffer `i` is exactly:
Begin, BeginRenderPass (framebuffer `i`, the six clear values), bind geometry-store
pipeline, bind descriptor sets (one call from set 0, binding the first
`DescSetLayoutTypes::HEAP = 1` set of `desc_sets_`), then for each model in
registration order BindVertexBuffer, BindIndexBuffer, RenderMeshesByMaterial, then
NextSubpass, bind shade pipeline, BindVertexBuffer and BindIndexBuffer of the
fullscreen quad, draw of 6 indices, NextSubpass, bind tonemap pipeline, draw of 6
indices, EndRenderPass, End.  Hence every buffer has exactly 2 NextSubpass commands
(3 subpass sections) and exactly 2 draws of 6 indices, and the traces differ only in
`i`. -/
theorem SetupCommandBuffers_trace {H : Headers} (A : Ambient H) (r : DeferredRenderer H)
    (rp : Renderpass) (store shade tone : Material) (quad : Model) (layout : Handle)
    (hcmd : SCAST_U32 A.GetNumImages ≤ r.vulkan.graphics_queue_cmd_buffers.length)
    (hrp : r.renderpass_ = some rp)
    (hfb : SCAST_U32 A.GetNumImages ≤ r.framebuffers_.length)
    (hcam : r.cam_ = true)
    (hstore : r.g_store_material_ = some store) (hshade : r.g_shade_material_ = some shade)
    (htone : r.g_tonemap_material_ = some tone) (hquad : r.fullscreenquad_ = some quad)
    (hlayout : r.pipe_layouts_[PipeLayoutTypes.GPASS]? = some layout)
    (hsets : DescSetLayoutTypes.HEAP ≤ r.desc_sets_.length) :
    ∃ r', SetupCommandBuffers A r = Except.ok r' ∧
      r'.vulkan.graphics_queue_cmd_buffers.length = r.vulkan.graphics_queue_cmd_buffers.length ∧
      r'.vulkan.graphics_queue_cmd_buffers.drop (SCAST_U32 A.GetNumImages) =
        r.vulkan.graphics_queue_cmd_buffers.drop (SCAST_U32 A.GetNumImages) ∧
      ∀ i, i < SCAST_U32 A.GetNumImages →
        ∃ t, r'.vulkan.graphics_queue_cmd_buffers[i]? = some t ∧
          t = [Cmd.BeginCommandBuffer,
               Cmd.BeginRenderpass i A.viewport_width A.viewport_height clearValues,
               Cmd.BindPipeline store,
               Cmd.BindDescriptorSets layout 0 (r.desc_sets_.take DescSetLayoutTypes.HEAP)] ++
              (r.registered_models_.map (fun m =>
                [Cmd.BindVertexBuffer m, Cmd.BindIndexBuffer m,
                 Cmd.RenderMeshesByMaterial m layout DescSetLayoutTypes.HEAP])).flatten ++
              [Cmd.NextSubpass, Cmd.BindPipeline shade,
               Cmd.BindVertexBuffer quad, Cmd.BindIndexBuffer quad, Cmd.DrawIndexed 6 1 0 0 0,
               Cmd.NextSubpass, Cmd.BindPipeline tone, Cmd.DrawIndexed 6 1 0 0 0,
               Cmd.EndRenderpass, Cmd.EndCommandBuffer] ∧
          t.count Cmd.NextSubpass = 2 ∧
          t.count (Cmd.DrawIndexed 6 1 0 0 0) = 2 := by
  have hok := SetupCommandBuffers_ok A r rp store shade tone quad layout hcmd hrp hfb hcam
    hstore hshade htone hquad hlayout hsets
  have hc := recordModels_count layout r.registered_models_
  rw [recordModels_eq] at hok hc
  refine ⟨_, hok, ?_, ?_, ?_⟩
  · simp only [List.length_append, List.length_map, List.length_range, List.length_drop]
    omega
  · rw [List.drop_append_eq_append_drop]
    simp
  · intro i hi
    refine ⟨_, ?_, rfl, ?_, ?_⟩
    · show (List.map _ (List.range (SCAST_U32 A.GetNumImages)) ++ _)[i]? = _
      rw [List.getElem?_append_left (by simpa using hi)]
      rw [List.getElem?_map, List.getElem?_range hi]
      rfl
    · simp only [List.count_append, hc.1]
      simp [List.count_cons]
    · simp only [List.count_append, hc.2]
      simp [List.count_cons]

/-- C1 (witness): the hypotheses of `SetupCommandBuffers_trace` hold in a renderer
state with two swapchain images and one registered model. -/
theorem SetupCommandBuffers_trace_witness :
    ∃ r', SetupCommandBuffers (scenarioAmbient 0 [] 0)
        (scenarioRecordingRenderer [scenarioModel]) = Except.ok r' ∧
      r'.vulkan.graphics_queue_cmd_buffers.length = 2 := by
  obtain ⟨r', h1, h2, _⟩ := SetupCommandBuffers_trace (scenarioAmbient 0 [] 0)
    (scenarioRecordingRenderer [scenarioModel]) _ _ _ _ _ 8
    (by decide) rfl (by decide) rfl rfl rfl rfl rfl rfl (by decide)
  exact ⟨r', h1, h2⟩

/-! ## Registration -/

theorem resize_length (v : List Handle) (n : Nat) : (resize v n).length = n := by
  simp only [resize, List.length_append, List.length_take, List.length_replicate]
  omega

theorem set_pair (l : List Handle) (hl : l.length = 2) (a b : Handle) :
    (l.set 0 a).set 1 b = [a, b] := by
  match l, hl with
  | [_, _], _ => rfl

theorem set_single (l : List Handle) (hl : l.length = 1) (a : Handle) : l.set 0 a = [a] := by
  match l, hl with
  | [_], _ => rfl

/-- The bindings the driver finds for the handle of the first of two layouts created
last with consecutive handles. -/
theorem layoutBindings_of_created (v : VulkanState) (old : List DescriptorSetLayoutObject)
    (h : Handle) (g hp : List VkDescriptorSetLayoutBinding)
    (hv : v.desc_set_layouts = old ++ [{ handle := h, bindings := g },
      { handle := h + 1, bindings := hp }]) :
    v.layoutBindings h = g := by
  have h1 : (h + 1 == h) = false := by simp
  simp [VulkanState.layoutBindings, hv, List.find?_cons, h1]

/-- A granted request: the set gets the next free handle and is recorded in the pool
with the descriptors it takes. -/
theorem vkAllocateDescriptorSet_ok (v : VulkanState) (pool layout : Handle)
    (bindings : List VkDescriptorSetLayoutBinding)
    (hpool : v.desc_pools.any (fun p => p.handle == pool) = true)
    (hb : v.layoutBindings layout = bindings)
    (hg : v.grants pool bindings = true) :
    vkAllocateDescriptorSet v pool layout = Except.ok (v.next_handle,
      { v with
        next_handle := v.next_handle + 1
        desc_pools := v.desc_pools.map (fun p =>
          if p.handle == pool then
            { p with allocatedSets := p.allocatedSets ++ [(v.next_handle, layout)] }
          else p)
        pool_descriptors := v.pool_descriptors ++ [(pool, bindings)] }) := by
  simp only [vkAllocateDescriptorSet, hpool, hb, hg, VK_CHECK_RESULT, VulkanState.fresh, if_true,
    bind, Except.bind, pure, Except.pure]

/-- A refused request stops at `VK_CHECK_RESULT`. -/
theorem vkAllocateDescriptorSet_refused (v : VulkanState) (pool layout : Handle)
    (hpool : v.desc_pools.any (fun p => p.handle == pool) = true)
    (hg : v.grants pool (v.layoutBindings layout) = false) :
    vkAllocateDescriptorSet v pool layout = Except.error Fault.check_result_failed := by
  simp only [vkAllocateDescriptorSet, hpool, hg, VK_CHECK_RESULT, if_true,
    bind, Except.bind]
  rfl

/-- The state `SetupDescriptorSetAndPipeLayout` leaves: four new handles `h .. h+3`
for the two set layouts, the descriptor set and the pipeline layout, stored over
whatever the members held. -/
theorem SetupDescriptorSetAndPipeLayout_ok {H : Headers} (A : Ambient H)
    (r : DeferredRenderer H)
    (hpool : r.vulkan.desc_pools.any (fun p => p.handle == r.desc_pool_) = true)
    (hsets : r.desc_sets_.length = SetTypes.num_items)
    (hG : PoolGrants A r) :
    SetupDescriptorSetAndPipeLayout A r = Except.ok
      { r with
        vulkan :=
          { r.vulkan with
            next_handle := r.vulkan.next_handle + 4
            desc_set_layouts := r.vulkan.desc_set_layouts ++
              [{ handle := r.vulkan.next_handle,
                 bindings := genericBindings (SCAST_U32 A.GetMaterialInstancesCount) },
               { handle := r.vulkan.next_handle + 1, bindings := heapBindings H }]
            desc_pools := r.vulkan.desc_pools.map (fun p =>
              if p.handle == r.desc_pool_ then
                { p with allocatedSets := p.allocatedSets ++
                    [(r.vulkan.next_handle + 2, r.vulkan.next_handle)] }
              else p)
            pool_descriptors := r.vulkan.pool_descriptors ++
              [(r.desc_pool_, genericBindings (SCAST_U32 A.GetMaterialInstancesCount))]
            pipe_layouts := r.vulkan.pipe_layouts ++
              [{ handle := r.vulkan.next_handle + 3,
                 setLayouts := [r.vulkan.next_handle, r.vulkan.next_handle + 1],
                 pushConstantRanges :=
                   [⟨VkShaderStageFlags.VK_SHADER_STAGE_VERTEX_BIT, 0, 4⟩] }] }
        desc_set_layouts_ := [r.vulkan.next_handle, r.vulkan.next_handle + 1]
        desc_sets_ := [r.vulkan.next_handle + 2]
        pipe_layouts_ := [r.vulkan.next_handle + 3] } := by
  have hrange : List.range DescSetLayoutTypes.num_items = [0, 1] := rfl
  have hl2 : (resize r.desc_set_layouts_ DescSetLayoutTypes.num_items).length = 2 :=
    resize_length _ _
  have hl1 : (resize r.pipe_layouts_ PipeLayoutTypes.num_items).length = 1 :=
    resize_length _ _
  have hs1 : r.desc_sets_.length = 1 := hsets
  have hu : SCAST_U32 sizeof_uint32_t = 4 := by decide
  -- the request of the descriptor set, on the state the two new layouts leave
  obtain ⟨v1, hv1⟩ : ∃ v1 : VulkanState, v1 =
      { r.vulkan with
        next_handle := r.vulkan.next_handle + 2
        desc_set_layouts := r.vulkan.desc_set_layouts ++
          [{ handle := r.vulkan.next_handle,
             bindings := genericBindings (SCAST_U32 A.GetMaterialInstancesCount) },
           { handle := r.vulkan.next_handle + 1, bindings := heapBindings H }] } := ⟨_, rfl⟩
  have halloc := vkAllocateDescriptorSet_ok v1 r.desc_pool_ r.vulkan.next_handle
    (genericBindings (SCAST_U32 A.GetMaterialInstancesCount))
    (by rw [hv1]; exact hpool)
    (layoutBindings_of_created v1 r.vulkan.desc_set_layouts _ _ (heapBindings H)
      (by rw [hv1]))
    (by rw [hv1]; exact hG)
  have hcreate : createSetLayouts
      [genericBindings (SCAST_U32 A.GetMaterialInstancesCount), heapBindings H] [0, 1]
      (r.vulkan, resize r.desc_set_layouts_ DescSetLayoutTypes.num_items) =
      Except.ok (v1, [r.vulkan.next_handle, r.vulkan.next_handle + 1]) := by
    simp only [createSetLayouts, index, assign, vkCreateDescriptorSetLayout, VulkanState.fresh,
      bind, Except.bind, pure, Except.pure, hl2, List.getElem?_cons_zero,
      List.getElem?_cons_succ, List.length_set, Nat.lt_add_one, Nat.zero_lt_succ,
      Nat.one_lt_ofNat, if_true, set_pair _ hl2, hv1, List.append_assoc, List.singleton_append,
      Nat.add_assoc, Nat.reduceAdd]
  simp only [SetupDescriptorSetAndPipeLayout, hrange, hcreate, halloc, index, assign,
    vkCreatePipelineLayout,
    VulkanState.fresh, bind, Except.bind, pure, Except.pure, hl1, hs1,
    List.getElem?_cons_zero, List.getElem?_cons_succ, List.length_set,
    DescSetLayoutTypes.GPASS_GENERIC, DescSetLayoutTypes.HEAP, PipeLayoutTypes.GPASS,
    Nat.lt_add_one, Nat.zero_lt_succ, Nat.one_lt_ofNat, if_true, hu,
    set_single _ hl1, set_single _ hs1]
  simp only [hv1, DescSetLayoutTypes.num_items, List.take, List.append_assoc,
    List.singleton_append, Nat.add_assoc, Nat.reduceAdd]

/-- The three pass pipelines `SetupMaterialPipelines` creates. -/
theorem SetupMaterialPipelines_ok {H : Headers} (A : Ambient H) (r : DeferredRenderer H)
    (g_store_vertex_setup : VertexSetup) (rp : Renderpass) (layout : Handle)
    (hlayout : r.pipe_layouts_[PipeLayoutTypes.GPASS]? = some layout)
    (hrp : r.renderpass_ = some rp) (hcam : r.cam_ = true) :
    SetupMaterialPipelines A r g_store_vertex_setup = Except.ok
      { r with
        g_shade_material_ := some
          { name := "g_shade"
            vertex_setup :=
              [⟨H.VertexElementType_POSITION, SCAST_U32 sizeof_vec3, VK_FORMAT_R32G32B32_SFLOAT⟩]
            pipe_layout := layout
            front_face := VkFrontFace.VK_FRONT_FACE_CLOCKWISE
            subpass := 1
            colour_blend_attachments := 1
            shaders :=
              [⟨"g_shade.vert", false,
                 [(kNumMaterialsSpecConstPos, SCAST_U32 A.GetMaterialInstancesCount),
                  (kNumLightsSpecConstPos, SCAST_U32 A.GetNumLights)]⟩,
               ⟨"g_shade.frag", true,
                 [(kNumMaterialsSpecConstPos, SCAST_U32 A.GetMaterialInstancesCount),
                  (kNumLightsSpecConstPos, SCAST_U32 A.GetNumLights)]⟩]
            depth_test_enable := false
            depth_write_enable := false }
        g_store_material_ := some
          { name := "g_store"
            vertex_setup := g_store_vertex_setup
            pipe_layout := layout
            front_face := VkFrontFace.VK_FRONT_FACE_COUNTER_CLOCKWISE
            subpass := 0
            colour_blend_attachments := 3
            shaders :=
              [⟨"g_store.vert", false,
                 [(kNumMaterialsSpecConstPos, SCAST_U32 A.GetMaterialInstancesCount),
                  (kNumLightsSpecConstPos, SCAST_U32 A.GetNumLights)]⟩,
               ⟨"g_store.frag", true, []⟩]
            depth_test_enable := true
            depth_write_enable := true }
        g_tonemap_material_ := some
          { name := "g_tone"
            vertex_setup :=
              [⟨H.VertexElementType_POSITION, SCAST_U32 sizeof_vec3, VK_FORMAT_R32G32B32_SFLOAT⟩]
            pipe_layout := layout
            front_face := VkFrontFace.VK_FRONT_FACE_CLOCKWISE
            subpass := 2
            colour_blend_attachments := 1
            shaders := [⟨"tonemapping.vert", false, []⟩, ⟨"tonemapping.frag", true, []⟩]
            depth_test_enable := false
            depth_write_enable := false } } := by
  simp only [SetupMaterialPipelines, index, deref, useCamera, hlayout, hrp, hcam, bind,
    Except.bind, pure, Except.pure, if_true]
  rfl

theorem SetupDescriptorSets_ok {H : Headers} (A : Ambient H) (r : DeferredRenderer H)
    (set : Handle) (depth accum a b c : VulkanTexture) (view : Handle)
    (hset : r.desc_sets_[SetTypes.GPASS_GENERIC]? = some set)
    (hdepth : r.depth_buffer_ = some depth) (hview : r.depth_buffer_depth_view_ = some view)
    (haccum : r.accum_buffer_ = some accum) (hg : r.g_buffer_ = [some a, some b, some c]) :
    SetupDescriptorSets A r = Except.ok
      { r with vulkan := vkUpdateDescriptorSets r.vulkan (descriptorWrites A set) } := by
  have hrange : List.range GBtypes.num_items = [0, 1, 2] := rfl
  have h10 : u32_add kGBufferBaseBindingPos 0 = 10 := by decide
  have h11 : u32_add kGBufferBaseBindingPos 1 = 11 := by decide
  have h12 : u32_add kGBufferBaseBindingPos 2 = 12 := by decide
  simp only [SetupDescriptorSets, index, deref, hset, hdepth, hview, haccum, hg, hrange, forEach,
    bind, Except.bind, pure, Except.pure, List.getElem?_cons_zero, List.getElem?_cons_succ,
    h10, h11, h12]
  rfl

/-- What one `RegisterModel` does to an initialised renderer: it returns, the model
is appended, and four new handles `h .. h+3` (`h` the next free handle) become the
two descriptor-set layouts, the frame-generic descriptor set and the pipeline
layout, stored over the members' previous contents; nothing is destroyed or
freed. -/
theorem RegisterModel_ok {H : Headers} (A : Ambient H) (r : DeferredRenderer H) (model : Model)
    (g_store_vertex_setup : VertexSetup) (hI : Initialised A r) (hF : PackFits A r)
    (hG : PoolGrants A r) :
    ∃ r', RegisterModel A r model g_store_vertex_setup = Except.ok r' ∧
      Initialised A r' ∧ PackFits A r' ∧
      r'.registered_models_ = r.registered_models_ ++ [model] ∧
      r'.desc_pool_ = r.desc_pool_ ∧
      r'.desc_set_layouts_ = [r.vulkan.next_handle, r.vulkan.next_handle + 1] ∧
      r'.desc_sets_ = [r.vulkan.next_handle + 2] ∧
      r'.pipe_layouts_ = [r.vulkan.next_handle + 3] ∧
      r'.vulkan.next_handle = r.vulkan.next_handle + 4 ∧
      r'.vulkan.desc_set_layouts = r.vulkan.desc_set_layouts ++
        [{ handle := r.vulkan.next_handle,
           bindings := genericBindings (SCAST_U32 A.GetMaterialInstancesCount) },
         { handle := r.vulkan.next_handle + 1, bindings := heapBindings H }] ∧
      r'.vulkan.pipe_layouts = r.vulkan.pipe_layouts ++
        [{ handle := r.vulkan.next_handle + 3,
           setLayouts := [r.vulkan.next_handle, r.vulkan.next_handle + 1],
           pushConstantRanges := [⟨VkShaderStageFlags.VK_SHADER_STAGE_VERTEX_BIT, 0, 4⟩] }] ∧
      r'.vulkan.desc_pools = r.vulkan.desc_pools.map (fun p =>
        if p.handle == r.desc_pool_ then
          { p with allocatedSets := p.allocatedSets ++
              [(r.vulkan.next_handle + 2, r.vulkan.next_handle)] }
        else p) ∧
      r'.vulkan.enforces_pool_limits = r.vulkan.enforces_pool_limits ∧
      r'.vulkan.pool_descriptors = r.vulkan.pool_descriptors ++
        [(r.desc_pool_, genericBindings (SCAST_U32 A.GetMaterialInstancesCount))] := by
  obtain ⟨hcam, ⟨rp, hrp⟩, ⟨depth, hdepth⟩, ⟨view, hview⟩, ⟨accum, haccum⟩, ⟨a, b, c, hg⟩,
    hpool, hsets, hfb, hcmd⟩ := hI
  -- registered_models_.push_back(&model)
  obtain ⟨r1, hr1⟩ : ∃ r1, r1 = { r with registered_models_ := r.registered_models_ ++ [model] } :=
    ⟨_, rfl⟩
  -- SetupDescriptorSetAndPipeLayout
  have e2 := SetupDescriptorSetAndPipeLayout_ok A r1 (by rw [hr1]; exact hpool)
    (by rw [hr1]; exact hsets) (by rw [hr1]; exact hG)
  obtain ⟨r2, hr2, e2⟩ : ∃ r2, r2 = _ ∧ SetupDescriptorSetAndPipeLayout A r1 = Except.ok r2 :=
    ⟨_, rfl, e2⟩
  -- SetupUniformBuffers
  have e3 := SetupUniformBuffers_ok A r2 (by rw [hr2, hr1]; exact hF.1)
    hF.2
  obtain ⟨r3, hr3, e3⟩ : ∃ r3, r3 = _ ∧ SetupUniformBuffers A r2 = Except.ok r3 := ⟨_, rfl, e3⟩
  -- SetupMaterialPipelines
  have e4 := SetupMaterialPipelines_ok A r3 g_store_vertex_setup rp (r.vulkan.next_handle + 3)
    (by rw [hr3, hr2, hr1]; rfl) (by rw [hr3, hr2, hr1]; exact hrp)
    (by rw [hr3, hr2, hr1]; exact hcam)
  obtain ⟨r4, hr4, e4⟩ : ∃ r4, r4 = _ ∧
      SetupMaterialPipelines A r3 g_store_vertex_setup = Except.ok r4 := ⟨_, rfl, e4⟩
  -- SetupDescriptorSets
  have e5 := SetupDescriptorSets_ok A r4 (r.vulkan.next_handle + 2) depth accum a b c view
    (by rw [hr4, hr3, hr2, hr1]; rfl) (by rw [hr4, hr3, hr2, hr1]; exact hdepth)
    (by rw [hr4, hr3, hr2, hr1]; exact hview) (by rw [hr4, hr3, hr2, hr1]; exact haccum)
    (by rw [hr4, hr3, hr2, hr1]; exact hg)
  obtain ⟨r5, hr5, e5⟩ : ∃ r5, r5 = _ ∧ SetupDescriptorSets A r4 = Except.ok r5 := ⟨_, rfl, e5⟩
  -- SetupFullscreenQuad, SetupCommandBuffers
  have e6 := SetupCommandBuffers_ok A (SetupFullscreenQuad r5) rp _ _ _ _
    (r.vulkan.next_handle + 3)
    (by rw [hr5, hr4, hr3, hr2, hr1]; exact hcmd)
    (by rw [hr5, hr4, hr3, hr2, hr1]; exact hrp)
    (by rw [hr5, hr4, hr3, hr2, hr1]; exact hfb)
    (by rw [hr5, hr4, hr3, hr2, hr1]; exact hcam)
    (by rw [hr5, hr4]; rfl) (by rw [hr5, hr4]; rfl) (by rw [hr5, hr4]; rfl) rfl
    (by rw [hr5, hr4, hr3, hr2, hr1]; rfl) (by rw [hr5, hr4, hr3, hr2, hr1]; exact Nat.le_refl 1)
  obtain ⟨r6, hr6, e6⟩ : ∃ r6, r6 = _ ∧
      SetupCommandBuffers A (SetupFullscreenQuad r5) = Except.ok r6 := ⟨_, rfl, e6⟩
  have hi : index r2.desc_set_layouts_ DescSetLayoutTypes.HEAP =
      Except.ok (r.vulkan.next_handle + 1) := by
    rw [hr2, hr1]; rfl
  refine ⟨r6, ?_, ?_, ?_, ?_⟩
  · simp only [RegisterModel, ← hr1, e2, hi, e3, e4, e5, e6, bind, Except.bind]
  · rw [hr6, hr5, hr4, hr3, hr2, hr1]
    exact
      { cam := hcam, renderpass := ⟨rp, hrp⟩, depth := ⟨depth, hdepth⟩,
        depth_view := ⟨view, hview⟩, accum := ⟨accum, haccum⟩, g_buffer := ⟨a, b, c, hg⟩,
        pool := by
          simp only [SetupFullscreenQuad, vkUpdateDescriptorSets, List.any_map]
          refine Eq.trans (congrArg (fun f => List.any r.vulkan.desc_pools f) ?_) hpool
          funext p
          by_cases hp : (p.handle == r.desc_pool_) = true <;> simp [Function.comp, hp]
        desc_sets := rfl
        framebuffers := hfb
        cmd_buffers := by
          simp only [SetupFullscreenQuad, vkUpdateDescriptorSets, List.length_append,
            List.length_map, List.length_range, List.length_drop]
          omega }
  · rw [hr6, hr5, hr4, hr3, hr2, hr1]
    exact hF
  · rw [hr6, hr5, hr4, hr3, hr2, hr1]
    exact ⟨rfl, rfl, rfl, rfl, rfl, rfl, rfl, rfl, rfl, rfl, rfl⟩

theorem makeFramebuffer_ok {H : Headers} (A : Ambient H) (r : DeferredRenderer H) (i : Nat)
    (rp : Renderpass) (depth accum a b c : VulkanTexture)
    (hcam : r.cam_ = true) (hrp : r.renderpass_ = some rp)
    (hdepth : r.depth_buffer_ = some depth) (haccum : r.accum_buffer_ = some accum)
    (hg : r.g_buffer_ = [some a, some b, some c]) :
    makeFramebuffer A r i = Except.ok
      { name := "from_swapchain_%d", name_index := i, width := A.viewport_width,
        height := A.viewport_height, layers := 1, renderpass := rp,
        attachments :=
          [FramebufferImage.swapchain_image i, FramebufferImage.texture depth,
           FramebufferImage.texture a, FramebufferImage.texture b, FramebufferImage.texture c,
           FramebufferImage.texture accum] } := by
  have hrange : List.range GBtypes.num_items = [0, 1, 2] := rfl
  simp only [makeFramebuffer, useCamera, deref, index, hcam, hrp, hdepth, haccum, hg, hrange,
    forEach, bind, Except.bind, pure, Except.pure, if_true, List.getElem?_cons_zero,
    List.getElem?_cons_succ]
  rfl

/-- The state `Init` leaves when run on a freshly constructed renderer whose device
has at least one command buffer per swapchain image, whether or not its driver
enforces pool limits. -/
theorem Init_ok_on {H : Headers} (A : Ambient H) (n : Nat) (b : Bool)
    (hn : SCAST_U32 A.GetNumImages ≤ n) :
    ∃ r, Init A (DeferredRenderer.create H
        { VulkanState.boot n with enforces_pool_limits := b }) = Except.ok r ∧
      Initialised A r ∧
      r.vulkan.enforces_pool_limits = b ∧
      r.vulkan.pool_descriptors = [] ∧
      r.desc_sets_ = [VK_NULL_HANDLE] ∧
      r.view_mat_ = A.view_mat ∧
      r.registered_models_ = [] ∧
      r.desc_set_layouts_ = [] ∧ r.pipe_layouts_ = [] ∧
      r.vulkan.desc_set_layouts = [] ∧ r.vulkan.pipe_layouts = [] ∧
      r.desc_pool_ = 3 ∧
      r.vulkan.desc_pools =
        [{ handle := 3, maxSets := DescSetLayoutTypes.num_items,
           poolSizes :=
             [(VkDescriptorType.VK_DESCRIPTOR_TYPE_UNIFORM_BUFFER, kMaxNumUniformBuffers),
              (VkDescriptorType.VK_DESCRIPTOR_TYPE_COMBINED_IMAGE_SAMPLER,
                u32_add (u32_mul kMaxNumMatInstances (SCAST_U32 H.MatTextureType_size)) 10),
              (VkDescriptorType.VK_DESCRIPTOR_TYPE_STORAGE_BUFFER, kMaxNumSSBOs)],
           allocatedSets := [] }] ∧
      r.framebuffers_.length = SCAST_U32 A.GetNumImages := by
  have hloop : ∀ (S : DeferredRenderer H) (rp : Renderpass) (depth accum a b c : VulkanTexture),
      S.cam_ = true → S.renderpass_ = some rp → S.depth_buffer_ = some depth →
      S.accum_buffer_ = some accum → S.g_buffer_ = [some a, some b, some c] →
      forEach (makeFramebuffer A S) (List.range (SCAST_U32 A.GetNumImages)) = Except.ok
        ((List.range (SCAST_U32 A.GetNumImages)).map (fun i =>
          ({ name := "from_swapchain_%d", name_index := i, width := A.viewport_width,
             height := A.viewport_height, layers := 1, renderpass := rp,
             attachments :=
               [FramebufferImage.swapchain_image i, FramebufferImage.texture depth,
                FramebufferImage.texture a, FramebufferImage.texture b,
                FramebufferImage.texture c, FramebufferImage.texture accum] } :
            Framebuffer))) := by
    intro S rp depth accum a b c h1 h2 h3 h4 h5
    exact forEach_ok _ _ _ (fun i _ => makeFramebuffer_ok A S i rp depth accum a b c h1 h2 h3 h4 h5)
  simp only [Init, UpdatePVMatrices, SetupFrameBuffers, CreateFramebufferAttachment, useCamera,
    SetupSamplers, SetupDescriptorPool, DeferredRenderer.create, vkCreateSampler,
    vkCreateDescriptorPool, VulkanState.fresh, VulkanState.boot, assign, bind, Except.bind, pure,
    Except.pure, if_true, List.length_set, List.length_replicate, GBtypes.num_items,
    GBtypes.DIFFUSE_ALBEDO, GBtypes.SPECULAR_ALBEDO, GBtypes.NORMAL, Nat.zero_lt_succ,
    Nat.lt_add_one, Nat.one_lt_ofNat, Nat.reduceLT, Nat.reduceAdd, List.replicate,
    List.set_cons_zero, List.set_cons_succ, List.length_cons, List.length_nil, zero_add]
  rw [hloop]
  any_goals rfl
  refine ⟨_, rfl, ?_, rfl, rfl, rfl, rfl, rfl, rfl, rfl, rfl, rfl, rfl, rfl, ?_⟩
  · exact
      { cam := rfl, renderpass := ⟨_, rfl⟩, depth := ⟨_, rfl⟩, depth_view := ⟨_, rfl⟩,
        accum := ⟨_, rfl⟩, g_buffer := ⟨_, _, _, rfl⟩, pool := rfl, desc_sets := rfl,
        framebuffers := by simp
        cmd_buffers := by simpa using hn }
  · simp

/-- The state `Init` leaves when run on a freshly constructed renderer whose device
has at least one command buffer per swapchain image. -/
theorem Init_ok {H : Headers} (A : Ambient H) (n : Nat) (hn : SCAST_U32 A.GetNumImages ≤ n) :
    ∃ r, Init A (DeferredRenderer.create H (VulkanState.boot n)) = Except.ok r ∧
      Initialised A r ∧
      r.vulkan.enforces_pool_limits = false ∧
      r.view_mat_ = A.view_mat ∧
      r.registered_models_ = [] ∧
      r.desc_set_layouts_ = [] ∧ r.pipe_layouts_ = [] ∧
      r.vulkan.desc_set_layouts = [] ∧ r.vulkan.pipe_layouts = [] ∧
      r.desc_pool_ = 3 ∧
      r.vulkan.desc_pools =
        [{ handle := 3, maxSets := DescSetLayoutTypes.num_items,
           poolSizes :=
             [(VkDescriptorType.VK_DESCRIPTOR_TYPE_UNIFORM_BUFFER, kMaxNumUniformBuffers),
              (VkDescriptorType.VK_DESCRIPTOR_TYPE_COMBINED_IMAGE_SAMPLER,
                u32_add (u32_mul kMaxNumMatInstances (SCAST_U32 H.MatTextureType_size)) 10),
              (VkDescriptorType.VK_DESCRIPTOR_TYPE_STORAGE_BUFFER, kMaxNumSSBOs)],
           allocatedSets := [] }] ∧
      r.framebuffers_.length = SCAST_U32 A.GetNumImages := by
  obtain ⟨r, hr, hI, hE, _, _, h⟩ := Init_ok_on A n false hn
  exact ⟨r, hr, hI, hE, h⟩

/-- A driver that does not enforce pool limits grants every request from a live
pool. -/
theorem PoolGrants_of_not_enforcing {H : Headers} (A : Ambient H) (r : DeferredRenderer H)
    (h : r.vulkan.enforces_pool_limits = false) : PoolGrants A r := by
  simp [PoolGrants, VulkanState.grants, h]

/-- The descriptors one frame-generic set takes: no uniform buffer, `5 n + 5`
combined image samplers and three storage buffers. -/
theorem descriptorDemand_genericBindings (n : Nat) :
    descriptorDemand (genericBindings n) VkDescriptorType.VK_DESCRIPTOR_TYPE_UNIFORM_BUFFER = 0 ∧
    descriptorDemand (genericBindings n)
      VkDescriptorType.VK_DESCRIPTOR_TYPE_COMBINED_IMAGE_SAMPLER = 5 * n + 5 ∧
    descriptorDemand (genericBindings n) VkDescriptorType.VK_DESCRIPTOR_TYPE_STORAGE_BUFFER = 3 := by
  refine ⟨rfl, ?_, rfl⟩
  show 1 + (n + (n + (n + (n + (n + (1 + (1 + (1 + (1 + 0))))))))) = _
  omega

/-- On the pool `Init` creates, before any set is requested, a driver that enforces
pool limits grants the frame-generic set as soon as its `5 n + 5` sampler descriptors
are within the pool size `kMaxNumMatInstances * MatTextureType::size + 10`. -/
theorem PoolGrants_on_new_pool {H : Headers} (A : Ambient H) (r : DeferredRenderer H)
    (hpool : r.desc_pool_ = 3)
    (hpools : r.vulkan.desc_pools =
      [{ handle := 3, maxSets := DescSetLayoutTypes.num_items,
         poolSizes :=
           [(VkDescriptorType.VK_DESCRIPTOR_TYPE_UNIFORM_BUFFER, kMaxNumUniformBuffers),
            (VkDescriptorType.VK_DESCRIPTOR_TYPE_COMBINED_IMAGE_SAMPLER,
              u32_add (u32_mul kMaxNumMatInstances (SCAST_U32 H.MatTextureType_size)) 10),
            (VkDescriptorType.VK_DESCRIPTOR_TYPE_STORAGE_BUFFER, kMaxNumSSBOs)],
         allocatedSets := [] }])
    (huse : r.vulkan.pool_descriptors = [])
    (hroom : 5 * SCAST_U32 A.GetMaterialInstancesCount + 5 ≤
      u32_add (u32_mul kMaxNumMatInstances (SCAST_U32 H.MatTextureType_size)) 10) :
    PoolGrants A r := by
  obtain ⟨h1, h2, h3⟩ := descriptorDemand_genericBindings (SCAST_U32 A.GetMaterialInstancesCount)
  have hroom' := hroom
  simp only [PoolGrants, VulkanState.grants, VulkanState.poolHasRoom,
    VulkanState.descriptorsInUse, hpool, hpools, huse, descriptorTypes, h1, h2, h3,
    DescriptorPoolObject.capacity, List.all_cons, List.all_nil, List.filter_nil, List.map_nil,
    List.sum_nil, List.length_nil, DescSetLayoutTypes.num_items, kMaxNumUniformBuffers,
    kMaxNumSSBOs]
  simp [hroom']

theorem genericBindings_texture_arrays (n : Nat) :
    (genericBindings n).map (fun b => (b.binding, b.descriptorCount)) =
      [(0, 1), (8, 1), (9, 1), (1, 1), (2, n), (3, n), (4, n), (5, n), (6, n), (7, 1),
       (10, 1), (11, 1), (12, 1)] := by
  rfl

theorem scenario_PackFits (lights n count : Nat) (r : DeferredRenderer scenarioHeaders)
    (hs : 256 + 32 * lights + 16 * count < UINT32_RANGE) (hc : count ≤ n) :
    PackFits (scenarioAmbient lights (scenarioConsts n) count) r := by
  have h1 : ((scenarioAmbient lights (scenarioConsts n) count).TransformLights
      r.view_mat_).length = lights := List.length_replicate _ _
  have h2 : (data (scenarioAmbient lights (scenarioConsts n) count).GetMaterialConstants).length
      = n * 16 := by
    rw [data_length]
    show (List.replicate n _).length * 16 = _
    rw [List.length_replicate]
  have h3 : lightsArraySize scenarioHeaders lights = lights * 32 :=
    lightsArraySize_exact _ _ (by show lights * 32 < _; omega)
  have h4 : matConstsArraySize scenarioHeaders count = count * 16 :=
    matConstsArraySize_exact _ _ (by show count * 16 < _; omega)
  refine ⟨?_, ?_⟩
  · rw [h1, h3]
    show mat4GroupSize + lights * 32 + matConstsArraySize scenarioHeaders count < _
    rw [h4, mat4GroupSize_eq]
    show 256 + lights * 32 + count * 16 < _
    omega
  · show matConstsArraySize scenarioHeaders count ≤ _
    rw [h2, h4]
    omega

set_option maxRecDepth 100000 in
/-- C8 (as stated, refuted): with 31 material instances, one more than
`kMaxNumMatInstances = 30`, `RegisterModel` on an initialised renderer ends in no
fault or error, also on a driver that enforces the limits of the descriptor pool,
and `desc_set_layouts_`, `pipe_layouts_` and `desc_sets_`, which were empty, empty
and one null handle before the call, hold new handles after it. -/
theorem RegisterModel_with_31_instances_succeeds :
    kMaxNumMatInstances = 30 ∧
    (Init (scenarioAmbient 0 (scenarioConsts 31) 31) scenarioRendererEnforcing).map
        (fun r => (r.desc_set_layouts_, r.pipe_layouts_, r.desc_sets_,
          r.vulkan.enforces_pool_limits)) =
      Except.ok ([], [], [VK_NULL_HANDLE], true) ∧
    faultOf (scenarioRegisteredEnforcing (scenarioAmbient 0 (scenarioConsts 31) 31)) = none ∧
    (scenarioRegisteredEnforcing (scenarioAmbient 0 (scenarioConsts 31) 31)).map
        (fun r => (r.desc_set_layouts_, r.pipe_layouts_, r.desc_sets_)) =
      Except.ok ([5, 6], [8], [7]) :=
  ⟨rfl, rfl, rfl, rfl⟩

set_option maxRecDepth 100000 in
/-- Where the capacity boundary of the code lies: the frame-generic set of 32
material instances needs `5 * 32 + 5 = 165` sampler descriptors, more than the
`30 * 5 + 10 = 160` of the pool.  A driver that enforces the pool limits refuses
it and the registration stops at `VK_CHECK_RESULT`, after the two descriptor-set
layouts of the call (handles 5 and 6) were created and stored in
`desc_set_layouts_`; a driver that does not enforce them grants it. -/
theorem RegisterModel_with_32_instances_depends_on_the_driver :
    descriptorDemand (genericBindings 32)
      VkDescriptorType.VK_DESCRIPTOR_TYPE_COMBINED_IMAGE_SAMPLER = 165 ∧
    (Init (scenarioAmbient 0 (scenarioConsts 32) 32) scenarioRendererEnforcing).map
        (fun r => r.vulkan.desc_pools.map (fun p =>
          p.capacity VkDescriptorType.VK_DESCRIPTOR_TYPE_COMBINED_IMAGE_SAMPLER)) =
      Except.ok [160] ∧
    faultOf (scenarioRegisteredEnforcing (scenarioAmbient 0 (scenarioConsts 32) 32)) =
      some Fault.check_result_failed ∧
    (Init (scenarioAmbient 0 (scenarioConsts 32) 32) scenarioRendererEnforcing >>= fun r =>
      (createSetLayouts [genericBindings 32, heapBindings scenarioHeaders]
        (List.range DescSetLayoutTypes.num_items)
        (r.vulkan, resize r.desc_set_layouts_ DescSetLayoutTypes.num_items)).map (fun s =>
          (s.1.desc_set_layouts.map (fun l => l.handle), s.2,
            faultOf (vkAllocateDescriptorSet s.1 r.desc_pool_ 5)))) =
      Except.ok ([5, 6], [5, 6], some Fault.check_result_failed) ∧
    faultOf (scenarioRegistered (scenarioAmbient 0 (scenarioConsts 32) 32)) = none :=
  ⟨rfl, rfl, rfl, rfl, rfl⟩

/-- C8 (amended): `RegisterModel` makes no check against `kMaxNumMatInstances`; the
constant only sizes the descriptor pool.  The first `RegisterModel` after `Init`
returns, also on a driver that enforces the pool limits, for every
material-instance count whose `5 * count + 5` sampler descriptors are within the
`kMaxNumMatInstances * MatTextureType::size + 10` of the pool (with five texture
types: every count up to 31, so 30 and 31 alike) and whose packed buffer size fits
32 bits.  The members `desc_set_layouts_` and `pipe_layouts_`, empty before the
call, and `desc_sets_`, one null handle before it, hold new handles afterwards; the
device has two more descriptor-set layouts, one more pipeline layout and one more
descriptor set taken from the pool, and in the new frame-generic layout the five
texture-array bindings 2 to 6 have exactly `count` descriptors. -/
theorem first_RegisterModel_succeeds_within_the_pool_size {H : Headers} (A : Ambient H)
    (n : Nat) (model : Model) (g_store_vertex_setup : VertexSetup)
    (hn : SCAST_U32 A.GetNumImages ≤ n)
    (hroom : 5 * SCAST_U32 A.GetMaterialInstancesCount + 5 ≤
      u32_add (u32_mul kMaxNumMatInstances (SCAST_U32 H.MatTextureType_size)) 10)
    (hsize : mat4GroupSize + lightsArraySize H (A.TransformLights A.view_mat).length +
      matConstsArraySize H A.GetMaterialInstancesCount < UINT32_RANGE)
    (hconsts : matConstsArraySize H A.GetMaterialInstancesCount ≤
      (data A.GetMaterialConstants).length) :
    ∃ r r', Init A (DeferredRenderer.create H (VulkanState.boot n).enforcing) = Except.ok r ∧
      r.vulkan.enforces_pool_limits = true ∧
      r.desc_set_layouts_ = [] ∧ r.pipe_layouts_ = [] ∧ r.desc_sets_ = [VK_NULL_HANDLE] ∧
      r.poolSets = [] ∧
      RegisterModel A r model g_store_vertex_setup = Except.ok r' ∧
      r'.desc_set_layouts_ = [r.vulkan.next_handle, r.vulkan.next_handle + 1] ∧
      r'.desc_sets_ = [r.vulkan.next_handle + 2] ∧
      r'.pipe_layouts_ = [r.vulkan.next_handle + 3] ∧
      r'.vulkan.desc_set_layouts = r.vulkan.desc_set_layouts ++
        [{ handle := r.vulkan.next_handle,
           bindings := genericBindings (SCAST_U32 A.GetMaterialInstancesCount) },
         { handle := r.vulkan.next_handle + 1, bindings := heapBindings H }] ∧
      r'.vulkan.pipe_layouts.length = r.vulkan.pipe_layouts.length + 1 ∧
      r'.poolSets = [(r.vulkan.next_handle + 2, r.vulkan.next_handle)] ∧
      (genericBindings (SCAST_U32 A.GetMaterialInstancesCount)).map
          (fun b => (b.binding, b.descriptorCount)) =
        [(0, 1), (8, 1), (9, 1), (1, 1),
         (2, SCAST_U32 A.GetMaterialInstancesCount), (3, SCAST_U32 A.GetMaterialInstancesCount),
         (4, SCAST_U32 A.GetMaterialInstancesCount), (5, SCAST_U32 A.GetMaterialInstancesCount),
         (6, SCAST_U32 A.GetMaterialInstancesCount), (7, 1), (10, 1), (11, 1), (12, 1)] := by
  obtain ⟨r, hr, hI, hE, huse, hs, hview, _, hdl, hpl, _, _, hpool, hpools, _⟩ :=
    Init_ok_on A n true hn
  have hF : PackFits A r := by
    unfold PackFits
    rw [hview]
    exact ⟨hsize, hconsts⟩
  have hG : PoolGrants A r := PoolGrants_on_new_pool A r hpool hpools huse hroom
  obtain ⟨r', h, _, _, _, hp', h1, h2, h3, _, h4, h5, h6, _⟩ :=
    RegisterModel_ok A r model g_store_vertex_setup hI hF hG
  refine ⟨r, r', hr, hE, hdl, hpl, hs, ?_, h, h1, h2, h3, h4, by rw [h5]; simp, ?_,
    genericBindings_texture_arrays _⟩
  · simp [DeferredRenderer.poolSets, hpools, hpool]
  · simp [DeferredRenderer.poolSets, h6, hp', hpools, hpool]

/-- C8 (witness): the hypotheses of
`first_RegisterModel_succeeds_within_the_pool_size` hold with 30 material instances
and with 31, on the two-image swapchain of the scenarios. -/
theorem first_RegisterModel_succeeds_within_the_pool_size_witness :
    (∃ r r', Init (scenarioAmbient 0 (scenarioConsts 30) 30) scenarioRendererEnforcing =
        Except.ok r ∧
      RegisterModel (scenarioAmbient 0 (scenarioConsts 30) 30) r scenarioModel [] =
        Except.ok r') ∧
    (∃ r r', Init (scenarioAmbient 0 (scenarioConsts 31) 31) scenarioRendererEnforcing =
        Except.ok r ∧
      RegisterModel (scenarioAmbient 0 (scenarioConsts 31) 31) r scenarioModel [] =
        Except.ok r') := by
  constructor
  · obtain ⟨r, r', hr, _, _, _, _, _, h, _⟩ :=
      first_RegisterModel_succeeds_within_the_pool_size
        (scenarioAmbient 0 (scenarioConsts 30) 30) 2 scenarioModel [] (by decide) (by decide)
        (scenario_PackFits 0 30 30 { scenarioRenderer with view_mat_ := Obj.fill _ 2 }
          (by decide) (by decide)).1
        (scenario_PackFits 0 30 30 scenarioRenderer (by decide) (by decide)).2
    exact ⟨r, r', hr, h⟩
  · obtain ⟨r, r', hr, _, _, _, _, _, h, _⟩ :=
      first_RegisterModel_succeeds_within_the_pool_size
        (scenarioAmbient 0 (scenarioConsts 31) 31) 2 scenarioModel [] (by decide) (by decide)
        (scenario_PackFits 0 31 31 { scenarioRenderer with view_mat_ := Obj.fill _ 2 }
          (by decide) (by decide)).1
        (scenario_PackFits 0 31 31 scenarioRenderer (by decide) (by decide)).2
    exact ⟨r, r', hr, h⟩

theorem poolSets_after_request (pools : List DescriptorPoolObject) (pool : Handle)
    (s : Handle × Handle) :
    (((pools.map (fun p =>
        if p.handle == pool then { p with allocatedSets := p.allocatedSets ++ [s] } else p)).filter
        (fun p => p.handle == pool)).map (fun p => p.allocatedSets)).flatten.length =
    (((pools.filter (fun p => p.handle == pool)).map (fun p => p.allocatedSets)).flatten).length +
      (pools.filter (fun p => p.handle == pool)).length := by
  induction pools with
  | nil => rfl
  | cons p rest ih =>
    by_cases hp : (p.handle == pool) = true
    · simp only [List.map_cons, hp, if_true, List.filter_cons_of_pos, List.flatten_cons,
        List.length_append, List.length_cons, List.length_nil, ih]
      omega
    · have hp' : (p.handle == pool) = false := by simpa using hp
      simp only [List.map_cons, hp', Bool.false_eq_true, if_false, List.filter_cons, ih]

theorem poolMaxSets_after_request (pools : List DescriptorPoolObject) (pool : Handle)
    (s : Handle × Handle) :
    ((pools.map (fun p =>
        if p.handle == pool then { p with allocatedSets := p.allocatedSets ++ [s] } else p)).filter
        (fun p => p.handle == pool)).map (fun p => p.maxSets) =
    (pools.filter (fun p => p.handle == pool)).map (fun p => p.maxSets) := by
  induction pools with
  | nil => rfl
  | cons p rest ih =>
    by_cases hp : (p.handle == pool) = true
    · simp only [List.map_cons, hp, if_true, List.filter_cons_of_pos, ih]
    · have hp' : (p.handle == pool) = false := by simpa using hp
      simp only [List.map_cons, hp', Bool.false_eq_true, if_false, List.filter_cons, ih]

/-- Growth under repeated registration on a driver that does not enforce pool
limits: after the models of a list are registered on an initialised renderer whose
`desc_pool_` names one pool, the number of sets requested from the pool has grown by
the number of models, the device has two more descriptor-set layouts and one more
pipeline layout per model, and nothing was destroyed; the pool's maximum set count
is unchanged. -/
theorem RegisterModels_growth {H : Headers} (A : Ambient H) (vs : VertexSetup)
    (models : List Model) :
    ∀ r : DeferredRenderer H, Initialised A r → PackFits A r → r.poolMaxSets.length = 1 →
    r.vulkan.enforces_pool_limits = false →
    ∃ r', RegisterModels A vs r models = Except.ok r' ∧
      Initialised A r' ∧
      r'.registered_models_ = r.registered_models_ ++ models ∧
      r'.poolSets.length = r.poolSets.length + models.length ∧
      r'.poolMaxSets = r.poolMaxSets ∧
      r'.vulkan.desc_set_layouts.length = r.vulkan.desc_set_layouts.length + 2 * models.length ∧
      r'.vulkan.pipe_layouts.length = r.vulkan.pipe_layouts.length + models.length ∧
      r'.desc_set_layouts_.length ≤ max r.desc_set_layouts_.length 2 ∧
      r'.pipe_layouts_.length ≤ max r.pipe_layouts_.length 1 := by
  induction models with
  | nil =>
    intro r hI _ _ _
    exact ⟨r, rfl, hI, by simp, by simp, rfl, by simp, by simp, le_max_left _ _, le_max_left _ _⟩
  | cons m rest ih =>
    intro r hI hF hP hE
    obtain ⟨r1, h1, hI1, hF1, hm1, hp1, hl1, _, hpl1, _, hv1, hvp1, hpools1, hE1, _⟩ :=
      RegisterModel_ok A r m vs hI hF (PoolGrants_of_not_enforcing A r hE)
    have hmax1 : r1.poolMaxSets = r.poolMaxSets := by
      unfold DeferredRenderer.poolMaxSets
      rw [hpools1, hp1]
      exact poolMaxSets_after_request _ _ _
    have hsets1 : r1.poolSets.length = r.poolSets.length + 1 := by
      unfold DeferredRenderer.poolSets
      rw [hpools1, hp1, poolSets_after_request]
      have : (r.vulkan.desc_pools.filter (fun p => p.handle == r.desc_pool_)).length = 1 := by
        have := hP
        unfold DeferredRenderer.poolMaxSets at this
        simpa using this
      rw [this]
    obtain ⟨r', h', hI', hm', hs', hmax', hd', hp', hdl', hpl'⟩ :=
      ih r1 hI1 hF1 (by rw [hmax1]; exact hP) (by rw [hE1]; exact hE)
    refine ⟨r', ?_, hI', ?_, ?_, ?_, ?_, ?_, ?_, ?_⟩
    · simp only [RegisterModels, h1, bind, Except.bind]
      exact h'
    · rw [hm', hm1]; simp
    · rw [hs', hsets1, List.length_cons]; omega
    · rw [hmax', hmax1]
    · rw [hd', hv1]; simp only [List.length_append, List.length_cons, List.length_nil]; omega
    · rw [hp', hvp1]; simp only [List.length_append, List.length_cons, List.length_nil]; omega
    · rw [hl1] at hdl'
      simp only [List.length_cons, List.length_nil] at hdl'
      omega
    · rw [hpl1] at hpl'
      simp only [List.length_cons, List.length_nil] at hpl'
      omega

set_option maxRecDepth 100000 in
/-- C9 (the code at the failing input): after `Init` and three `RegisterModel`
calls, on a driver that grants requests beyond the limits of a pool, three
descriptor sets have been requested from `desc_pool_` and none freed, while the pool
was created for at most `DescSetLayoutTypes::num_items = 2` sets. -/
theorem three_registrations_exceed_pool_max_sets :
    DescSetLayoutTypes.num_items = 2 ∧
    (Init (scenarioAmbient 1 scenarioConstsA 1) scenarioRenderer >>= fun r =>
      RegisterModels (scenarioAmbient 1 scenarioConstsA 1) [] r
        [scenarioModel, scenarioModel, scenarioModel]).map
        (fun r => (r.poolMaxSets, r.poolSets.length, r.poolSets)) =
      Except.ok ([2], 3, [(7, 5), (11, 9), (15, 13)]) :=
  ⟨rfl, rfl⟩

set_option maxRecDepth 100000 in
/-- The same three registrations on a driver that enforces the pool limits: the pool
was created for two sets, the first two requests are granted and the third one is
refused, which stops the third `RegisterModel` at `VK_CHECK_RESULT`. -/
theorem third_registration_refused_when_limits_enforced :
    (Init (scenarioAmbient 1 scenarioConstsA 1) scenarioRendererEnforcing >>= fun r =>
      RegisterModels (scenarioAmbient 1 scenarioConstsA 1) [] r
        [scenarioModel, scenarioModel]).map
        (fun r => (r.poolMaxSets, r.poolSets)) =
      Except.ok ([2], [(7, 5), (11, 9)]) ∧
    faultOf (Init (scenarioAmbient 1 scenarioConstsA 1) scenarioRendererEnforcing >>= fun r =>
      RegisterModels (scenarioAmbient 1 scenarioConstsA 1) [] r
        [scenarioModel, scenarioModel, scenarioModel]) = some Fault.check_result_failed :=
  ⟨rfl, rfl⟩

set_option maxRecDepth 100000 in
/-- C10 (the code at the failing input): after `Init` and two `RegisterModel`
calls, four descriptor-set layouts (handles 5, 6, 9, 10) and two pipeline layouts
(8, 12) are live and the set 7 of the first call is still allocated; nothing has
been destroyed or freed (no device event at all), and `desc_set_layouts_` and
`pipe_layouts_` reference only the objects of the second call. -/
theorem second_registration_leaves_first_layouts_live :
    (Init (scenarioAmbient 1 scenarioConstsA 1) scenarioRenderer >>= fun r =>
      RegisterModels (scenarioAmbient 1 scenarioConstsA 1) [] r
        [scenarioModel, scenarioModel]).map
        (fun r => (r.vulkan.desc_set_layouts.map (fun l => l.handle), r.desc_set_layouts_,
          r.vulkan.pipe_layouts.map (fun l => l.handle), r.pipe_layouts_,
          r.poolSets, r.desc_sets_, r.vulkan.events)) =
      Except.ok ([5, 6, 9, 10], [9, 10], [8, 12], [12], [(7, 5), (11, 9)], [11], []) ∧
    DescSetLayoutTypes.num_items = 2 ∧ PipeLayoutTypes.num_items = 1 :=
  ⟨rfl, rfl, rfl⟩

/-! ## One registration in closed form -/

/-- One `RegisterModel` on an initialised renderer whose packed buffer size fits 32
bits and whose descriptor-set request the driver grants returns, and the state it
leaves is `registeredState`. -/
theorem RegisterModel_eq {H : Headers} (A : Ambient H) (r : DeferredRenderer H) (model : Model)
    (g_store_vertex_setup : VertexSetup) (hI : Initialised A r) (hF : PackFits A r)
    (hG : PoolGrants A r) :
    RegisterModel A r model g_store_vertex_setup =
      Except.ok (registeredState A r model g_store_vertex_setup) := by
  obtain ⟨hcam, ⟨rp, hrp⟩, ⟨depth, hdepth⟩, ⟨view, hview⟩, ⟨accum, haccum⟩, ⟨a, b, c, hg⟩,
    hpool, hsets, hfb, hcmd⟩ := hI
  obtain ⟨r1, hr1⟩ : ∃ r1, r1 = { r with registered_models_ := r.registered_models_ ++ [model] } :=
    ⟨_, rfl⟩
  have e2 := SetupDescriptorSetAndPipeLayout_ok A r1 (by rw [hr1]; exact hpool)
    (by rw [hr1]; exact hsets) (by rw [hr1]; exact hG)
  obtain ⟨r2, hr2, e2⟩ : ∃ r2, r2 = _ ∧ SetupDescriptorSetAndPipeLayout A r1 = Except.ok r2 :=
    ⟨_, rfl, e2⟩
  have e3 := SetupUniformBuffers_ok A r2 (by rw [hr2, hr1]; exact hF.1) hF.2
  obtain ⟨r3, hr3, e3⟩ : ∃ r3, r3 = _ ∧ SetupUniformBuffers A r2 = Except.ok r3 := ⟨_, rfl, e3⟩
  have e4 := SetupMaterialPipelines_ok A r3 g_store_vertex_setup rp (r.vulkan.next_handle + 3)
    (by rw [hr3, hr2, hr1]; rfl) (by rw [hr3, hr2, hr1]; exact hrp)
    (by rw [hr3, hr2, hr1]; exact hcam)
  obtain ⟨r4, hr4, e4⟩ : ∃ r4, r4 = _ ∧
      SetupMaterialPipelines A r3 g_store_vertex_setup = Except.ok r4 := ⟨_, rfl, e4⟩
  have e5 := SetupDescriptorSets_ok A r4 (r.vulkan.next_handle + 2) depth accum a b c view
    (by rw [hr4, hr3, hr2, hr1]; rfl) (by rw [hr4, hr3, hr2, hr1]; exact hdepth)
    (by rw [hr4, hr3, hr2, hr1]; exact hview) (by rw [hr4, hr3, hr2, hr1]; exact haccum)
    (by rw [hr4, hr3, hr2, hr1]; exact hg)
  obtain ⟨r5, hr5, e5⟩ : ∃ r5, r5 = _ ∧ SetupDescriptorSets A r4 = Except.ok r5 := ⟨_, rfl, e5⟩
  have e6 := SetupCommandBuffers_ok A (SetupFullscreenQuad r5) rp _ _ _ _
    (r.vulkan.next_handle + 3)
    (by rw [hr5, hr4, hr3, hr2, hr1]; exact hcmd)
    (by rw [hr5, hr4, hr3, hr2, hr1]; exact hrp)
    (by rw [hr5, hr4, hr3, hr2, hr1]; exact hfb)
    (by rw [hr5, hr4, hr3, hr2, hr1]; exact hcam)
    (by rw [hr5, hr4]; rfl) (by rw [hr5, hr4]; rfl) (by rw [hr5, hr4]; rfl) rfl
    (by rw [hr5, hr4, hr3, hr2, hr1]; rfl) (by rw [hr5, hr4, hr3, hr2, hr1]; exact Nat.le_refl 1)
  obtain ⟨r6, hr6, e6⟩ : ∃ r6, r6 = _ ∧
      SetupCommandBuffers A (SetupFullscreenQuad r5) = Except.ok r6 := ⟨_, rfl, e6⟩
  have hi : index r2.desc_set_layouts_ DescSetLayoutTypes.HEAP =
      Except.ok (r.vulkan.next_handle + 1) := by
    rw [hr2, hr1]; rfl
  have hfin : r6 = registeredState A r model g_store_vertex_setup := by
    rw [hr6, hr5, hr4, hr3, hr2, hr1]
    rfl
  simp only [RegisterModel, ← hr1, e2, hi, e3, e4, e5, e6, bind, Except.bind, hfin]

/-! ## Acquiring the next image -/

theorem PreRender_withAcquireResult {H : Headers} (A : Ambient H) (r : DeferredRenderer H)
    (result : Nat → VkResult) :
    PreRender (A.withAcquireResult result) r = PreRender A r := rfl

theorem PreRender_ok {H : Headers} (A : Ambient H) (r : DeferredRenderer H)
    (b : VulkanBuffer) (hcam : r.cam_ = true) (hbuf : r.main_static_buff_ = some b)
    (hfit : mat4GroupSize + lightsArraySize H (A.TransformLights A.view_mat).length +
      matConstsArraySize H A.GetMaterialInstancesCount ≤ b.memory.length)
    (hsrc : matConstsArraySize H A.GetMaterialInstancesCount ≤ (data r.mat_consts_).length) :
    ∃ r', PreRender A r = Except.ok r' ∧
      r'.current_swapchain_img_ = (A.AcquireNextImage r.current_swapchain_img_).2 ∧
      r'.view_mat_ = A.view_mat := by
  obtain ⟨r1, hr1, e1⟩ : ∃ r1, r1 = _ ∧ UpdateBuffers A r = Except.ok r1 :=
    ⟨_, rfl, UpdateBuffers_ok A r b hcam hbuf hfit hsrc⟩
  refine ⟨{ r1 with current_swapchain_img_ :=
    (A.AcquireNextImage r1.current_swapchain_img_).2 }, ?_, ?_, ?_⟩
  · simp only [PreRender, e1, bind, Except.bind, pure, Except.pure]
  · rw [hr1]
  · rw [hr1]

set_option maxRecDepth 100000 in
/-- C11 (as stated, refuted): on a renderer with one registered model, `PreRender`
has the same outcome whether `AcquireNextImage` reports out-of-date, success or a
lost device, so its caller learns nothing of the result; and with a swapchain that
reports suboptimal and hands out the next image, `current_swapchain_img_` is 0
before `PreRender` and 1 after it. -/
theorem PreRender_hides_acquire_result_and_advances_counter :
    (scenarioRegistered (scenarioAmbient 1 scenarioConstsA 1) >>=
        PreRender (scenarioAcquire VkResult.VK_ERROR_OUT_OF_DATE_KHR (fun i => i))) =
      (scenarioRegistered (scenarioAmbient 1 scenarioConstsA 1) >>=
        PreRender (scenarioAcquire VkResult.VK_SUCCESS (fun i => i))) ∧
    (scenarioRegistered (scenarioAmbient 1 scenarioConstsA 1) >>=
        PreRender (scenarioAcquire VkResult.VK_ERROR_OUT_OF_DATE_KHR (fun i => i))) =
      (scenarioRegistered (scenarioAmbient 1 scenarioConstsA 1) >>=
        PreRender (scenarioAcquire VkResult.VK_ERROR_DEVICE_LOST (fun i => i))) ∧
    faultOf (scenarioRegistered (scenarioAmbient 1 scenarioConstsA 1) >>=
        PreRender (scenarioAcquire VkResult.VK_ERROR_OUT_OF_DATE_KHR (fun i => i))) = none ∧
    ((scenarioAcquire VkResult.VK_SUBOPTIMAL_KHR (fun i => (i + 1) % 2)).AcquireNextImage 0).1 =
      VkResult.VK_SUBOPTIMAL_KHR ∧
    (scenarioRegistered (scenarioAmbient 1 scenarioConstsA 1)).map
        (fun r => r.current_swapchain_img_) = Except.ok 0 ∧
    (scenarioRegistered (scenarioAmbient 1 scenarioConstsA 1) >>=
        PreRender (scenarioAcquire VkResult.VK_SUBOPTIMAL_KHR (fun i => (i + 1) % 2))).map
        (fun r => r.current_swapchain_img_) = Except.ok 1 :=
  ⟨rfl, rfl, rfl, rfl, rfl, rfl⟩

/-- C11 (amended): `PreRender` returns no value and does not look at the result
`AcquireNextImage` reports.  For every result the swapchain could report in place
of its own (success, suboptimal, out-of-date, device lost) the outcome of
`PreRender` is the same, so nothing is surfaced to the caller; and whenever the
buffer upload fits, `PreRender` completes and `current_swapchain_img_` afterwards
holds the value `AcquireNextImage` left in its by-reference index argument: the
same value as before exactly when `AcquireNextImage` left the argument as it
was. -/
theorem PreRender_ignores_acquire_result {H : Headers} (A : Ambient H)
    (r : DeferredRenderer H) (b : VulkanBuffer) (result : Nat → VkResult)
    (hcam : r.cam_ = true) (hbuf : r.main_static_buff_ = some b)
    (hfit : mat4GroupSize + lightsArraySize H (A.TransformLights A.view_mat).length +
      matConstsArraySize H A.GetMaterialInstancesCount ≤ b.memory.length)
    (hsrc : matConstsArraySize H A.GetMaterialInstancesCount ≤ (data r.mat_consts_).length) :
    ∃ r', PreRender A r = Except.ok r' ∧
      PreRender (A.withAcquireResult result) r = Except.ok r' ∧
      r'.current_swapchain_img_ = (A.AcquireNextImage r.current_swapchain_img_).2 ∧
      (r'.current_swapchain_img_ = r.current_swapchain_img_ ↔
        (A.AcquireNextImage r.current_swapchain_img_).2 = r.current_swapchain_img_) := by
  obtain ⟨r', h, hc, _⟩ := PreRender_ok A r b hcam hbuf hfit hsrc
  exact ⟨r', h, (PreRender_withAcquireResult A r result).trans h, hc, by rw [hc]⟩

/-- C11 (witness): the hypotheses of `PreRender_ignores_acquire_result` hold for a
renderer with a 304-byte buffer, one light and one material constant, with a
swapchain that reports out-of-date. -/
theorem PreRender_ignores_acquire_result_witness :
    ∃ r', PreRender (scenarioAcquire VkResult.VK_ERROR_OUT_OF_DATE_KHR (fun i => i))
        { scenarioRendererWithBuffer 304 with mat_consts_ := scenarioConstsA } = Except.ok r' ∧
      PreRender ((scenarioAcquire VkResult.VK_ERROR_OUT_OF_DATE_KHR (fun i => i)).withAcquireResult
          (fun _ => VkResult.VK_SUCCESS))
        { scenarioRendererWithBuffer 304 with mat_consts_ := scenarioConstsA } = Except.ok r' ∧
      r'.current_swapchain_img_ = 0 := by
  obtain ⟨r', h1, h2, h3, _⟩ := PreRender_ignores_acquire_result
    (scenarioAcquire VkResult.VK_ERROR_OUT_OF_DATE_KHR (fun i => i))
    { scenarioRendererWithBuffer 304 with mat_consts_ := scenarioConstsA }
    (VulkanBuffer.Init 304) (fun _ => VkResult.VK_SUCCESS) rfl rfl
    (by
      rw [show (VulkanBuffer.Init 304).memory.length = 304 from List.length_replicate _ _]
      decide)
    (by decide)
  exact ⟨r', h1, h2, h3⟩

/-! ## Draw order under registration -/

theorem recordModels_append (layout : Handle) (a b : List Model) :
    recordModels layout (a ++ b) = recordModels layout a ++ recordModels layout b := by
  induction a with
  | nil => rfl
  | cons m rest ih => simp [recordModels, ih]

theorem recordModels_length (layout : Handle) (models : List Model) :
    (recordModels layout models).length = 3 * models.length := by
  induction models with
  | nil => rfl
  | cons m rest ih =>
    simp only [recordModels, List.length_append, List.length_cons, List.length_nil, ih]
    omega

theorem drawnModels_recordModels (layout : Handle) (models : List Model) :
    drawnModels (recordModels layout models) = models := by
  induction models with
  | nil => rfl
  | cons m rest ih =>
    have h : drawnModels (recordModels layout (m :: rest)) =
        m :: drawnModels (recordModels layout rest) := rfl
    rw [h, ih]

theorem drawnModels_recordedTrace (i width height : Nat) (store shade tone : Material)
    (quad : Model) (layout : Handle) (sets : List Handle) (models : List Model) :
    drawnModels (recordedTrace i width height store shade tone quad layout sets models) =
      models := by
  unfold recordedTrace drawnModels
  rw [List.filterMap_append, List.filterMap_append]
  have h := drawnModels_recordModels layout models
  unfold drawnModels at h
  rw [h]
  simp

theorem registeredState_cmd_buffer {H : Headers} (A : Ambient H) (r : DeferredRenderer H)
    (model : Model) (g_store_vertex_setup : VertexSetup) (i : Nat)
    (hi : i < SCAST_U32 A.GetNumImages) :
    (registeredState A r model g_store_vertex_setup).vulkan.graphics_queue_cmd_buffers[i]? =
      some (recordedTrace i A.viewport_width A.viewport_height
        (storeMaterial A g_store_vertex_setup (r.vulkan.next_handle + 3))
        (shadeMaterial A (r.vulkan.next_handle + 3))
        (toneMaterial H (r.vulkan.next_handle + 3)) fullscreenQuad
        (r.vulkan.next_handle + 3) [r.vulkan.next_handle + 2]
        (r.registered_models_ ++ [model])) := by
  show (List.map _ (List.range (SCAST_U32 A.GetNumImages)) ++ _)[i]? = _
  rw [List.getElem?_append_left (by simpa using hi)]
  rw [List.getElem?_map, List.getElem?_range hi]
  rfl

/-- C12: for every list `L` of registered models and every model `m`,
`RegisterModel(m)` on an initialised renderer returns and leaves
`registered_models_ = L ++ [m]`; in each re-recorded command buffer the per-model
part, which follows the four opening commands and ends at the first `NextSubpass`,
is the sections of the models of `L` in the order of `L` followed by the section of
`m` (BindVertexBuffer, BindIndexBuffer, RenderMeshesByMaterial); the models drawn
are `L ++ [m]`, so against a previous recording that drew `L` the draws of `L` keep
their relative order and the draw of `m` follows them.  The hypothesis `PoolGrants` says that
the driver grants the descriptor set the call requests; a refused request stops the
call at `VK_CHECK_RESULT`. -/
theorem RegisterModel_appends_model_and_keeps_draw_order {H : Headers} (A : Ambient H)
    (r : DeferredRenderer H) (model : Model) (g_store_vertex_setup : VertexSetup)
    (hI : Initialised A r) (hF : PackFits A r)
    (hG : PoolGrants A r) :
    ∃ r', RegisterModel A r model g_store_vertex_setup = Except.ok r' ∧
      r'.registered_models_ = r.registered_models_ ++ [model] ∧
      ∀ i, i < SCAST_U32 A.GetNumImages →
        ∃ t layout, r'.vulkan.graphics_queue_cmd_buffers[i]? = some t ∧
          (t.drop 4).take (3 * (r.registered_models_.length + 1)) =
            recordModels layout r.registered_models_ ++
              [Cmd.BindVertexBuffer model, Cmd.BindIndexBuffer model,
               Cmd.RenderMeshesByMaterial model layout DescSetLayoutTypes.HEAP] ∧
          (t.drop (4 + 3 * (r.registered_models_.length + 1))).head? = some Cmd.NextSubpass ∧
          drawnModels t = r.registered_models_ ++ [model] ∧
          ∀ t_old, r.vulkan.graphics_queue_cmd_buffers[i]? = some t_old →
            drawnModels t_old = r.registered_models_ →
            (drawnModels t).take (drawnModels t_old).length = drawnModels t_old ∧
            drawnModels t = drawnModels t_old ++ [model] := by
  refine ⟨_, RegisterModel_eq A r model g_store_vertex_setup hI hF hG, rfl, ?_⟩
  intro i hi
  have hlen : (recordModels (r.vulkan.next_handle + 3) (r.registered_models_ ++ [model])).length
      = 3 * (r.registered_models_.length + 1) := by
    rw [recordModels_length]; simp
  refine ⟨_, r.vulkan.next_handle + 3,
    registeredState_cmd_buffer A r model g_store_vertex_setup i hi, ?_, ?_, ?_, ?_⟩
  · unfold recordedTrace
    rw [List.append_assoc, List.drop_append_of_le_length (by simp)]
    simp only [List.drop_succ_cons, List.drop_zero, List.nil_append]
    rw [← hlen, List.take_left, recordModels_append]
    rfl
  · unfold recordedTrace
    rw [List.append_assoc, List.drop_append_eq_append_drop]
    simp only [List.length_cons, List.length_nil]
    rw [List.drop_of_length_le (by simp)]
    rw [show 4 + 3 * (r.registered_models_.length + 1) - (0 + 1 + 1 + 1 + 1) =
      (recordModels (r.vulkan.next_handle + 3) (r.registered_models_ ++ [model])).length from by
        rw [hlen]; omega]
    rw [List.nil_append, List.drop_left]
    rfl
  · exact drawnModels_recordedTrace _ _ _ _ _ _ _ _ _ _
  · intro t_old _ hold
    rw [drawnModels_recordedTrace, hold]
    exact ⟨List.take_left _ _, rfl⟩

/-- C12 (witness): the hypotheses of
`RegisterModel_appends_model_and_keeps_draw_order` hold at a renderer with two
registered models: after `Init` and the registration of `scenarioModel` and
`scenarioModelB`, registering `scenarioModelC` leaves the three models in that
order, and each of the two command buffers, which drew the first two models before
the call, draws them in the same order followed by the third. -/
theorem RegisterModel_appends_model_and_keeps_draw_order_witness :
    ∃ r r',
      (Init (scenarioAmbient 1 scenarioConstsA 1) scenarioRenderer >>= fun r0 =>
        RegisterModels (scenarioAmbient 1 scenarioConstsA 1) [] r0
          [scenarioModel, scenarioModelB]) = Except.ok r ∧
      r.registered_models_ = [scenarioModel, scenarioModelB] ∧
      RegisterModel (scenarioAmbient 1 scenarioConstsA 1) r scenarioModelC [] = Except.ok r' ∧
      r'.registered_models_ = [scenarioModel, scenarioModelB, scenarioModelC] ∧
      ∀ i, i < 2 → ∃ t_old t,
        r.vulkan.graphics_queue_cmd_buffers[i]? = some t_old ∧
        r'.vulkan.graphics_queue_cmd_buffers[i]? = some t ∧
        drawnModels t_old = [scenarioModel, scenarioModelB] ∧
        drawnModels t = [scenarioModel, scenarioModelB, scenarioModelC] := by
  obtain ⟨r0, hr0, hI0, hE0, _, hm0, _⟩ :=
    Init_ok (scenarioAmbient 1 scenarioConstsA 1) 2 (by decide)
  obtain ⟨r1, h1, hI1, _, hm1, _, _, _, _, _, _, _, _, hE1, _⟩ :=
    RegisterModel_ok (scenarioAmbient 1 scenarioConstsA 1) r0 scenarioModel [] hI0
      (scenario_PackFits 1 1 1 r0 (by decide) (by decide))
      (PoolGrants_of_not_enforcing _ r0 hE0)
  obtain ⟨r2, h2, hI2, _, _, _, _, _, _, _, _, _, _, hE2, _⟩ :=
    RegisterModel_ok (scenarioAmbient 1 scenarioConstsA 1) r1 scenarioModelB [] hI1
      (scenario_PackFits 1 1 1 r1 (by decide) (by decide))
      (PoolGrants_of_not_enforcing _ r1 (hE1.trans hE0))
  -- the theorem at the renderer with one registered model: the recording before the call
  obtain ⟨r2', h2', hm2, ht2⟩ := RegisterModel_appends_model_and_keeps_draw_order
    (scenarioAmbient 1 scenarioConstsA 1) r1 scenarioModelB [] hI1
    (scenario_PackFits 1 1 1 r1 (by decide) (by decide))
    (PoolGrants_of_not_enforcing _ r1 (hE1.trans hE0))
  have he : r2' = r2 := by
    rw [h2] at h2'
    exact (Except.ok.inj h2').symm
  subst he
  -- the theorem at the renderer with two registered models
  obtain ⟨r3, h3, hm3, ht3⟩ := RegisterModel_appends_model_and_keeps_draw_order
    (scenarioAmbient 1 scenarioConstsA 1) r2' scenarioModelC [] hI2
    (scenario_PackFits 1 1 1 r2' (by decide) (by decide))
    (PoolGrants_of_not_enforcing _ r2' ((hE2.trans hE1).trans hE0))
  have hL : r2'.registered_models_ = [scenarioModel, scenarioModelB] := by
    rw [hm2, hm1, hm0]; rfl
  refine ⟨r2', r3, ?_, hL, h3, by rw [hm3, hL]; rfl, ?_⟩
  · have hr : Init (scenarioAmbient 1 scenarioConstsA 1) scenarioRenderer = Except.ok r0 := hr0
    simp only [hr, RegisterModels, h1, h2, bind, Except.bind]
  · intro i hi
    obtain ⟨t_old, _, hold, _, _, hd_old, _⟩ := ht2 i hi
    obtain ⟨t, _, hnew, _, _, hd, _⟩ := ht3 i hi
    refine ⟨t_old, t, hold, hnew, ?_, ?_⟩
    · rw [hd_old, hm1, hm0]; rfl
    · rw [hd, hL]; rfl

/-! ## Framebuffers and clear values -/

theorem set_triple {α : Type} (l : List α) (hl : l.length = 3) (a b c : α) :
    ((l.set 0 a).set 1 b).set 2 c = [a, b, c] := by
  match l, hl with
  | [_, _, _], _ => rfl

/-- The state `SetupFrameBuffers` leaves when the camera and the render pass are set
and `g_buffer_` has its three elements. -/
theorem SetupFrameBuffers_ok {H : Headers} (A : Ambient H) (r : DeferredRenderer H)
    (rp : Renderpass) (hcam : r.cam_ = true) (hrp : r.renderpass_ = some rp)
    (hg : r.g_buffer_.length = GBtypes.num_items) :
    SetupFrameBuffers A r = Except.ok
      { r with
        vulkan := { r.vulkan with next_handle := r.vulkan.next_handle + 1 }
        g_buffer_ :=
          [some ⟨"diffuse_albedo", kDiffuseAlbedoFormat, true, true, false⟩,
           some ⟨"specular_albedo", kSpecularAlbedoFormat, true, true, false⟩,
           some ⟨"normals", kNormalFormat, true, true, false⟩]
        accum_buffer_ := some ⟨"accumulation", kAccumulationFormat, true, true, false⟩
        depth_buffer_ := some ⟨"depth", A.depth_format, true, false, true⟩
        depth_buffer_depth_view_ := some r.vulkan.next_handle
        framebuffers_ := r.framebuffers_ ++
          (List.range (SCAST_U32 A.GetNumImages)).map (fun i =>
            ({ name := "from_swapchain_%d", name_index := i, width := A.viewport_width,
               height := A.viewport_height, layers := 1, renderpass := rp,
               attachments :=
                 [FramebufferImage.swapchain_image i,
                  FramebufferImage.texture ⟨"depth", A.depth_format, true, false, true⟩,
                  FramebufferImage.texture
                    ⟨"diffuse_albedo", kDiffuseAlbedoFormat, true, true, false⟩,
                  FramebufferImage.texture
                    ⟨"specular_albedo", kSpecularAlbedoFormat, true, true, false⟩,
                  FramebufferImage.texture ⟨"normals", kNormalFormat, true, true, false⟩,
                  FramebufferImage.texture
                    ⟨"accumulation", kAccumulationFormat, true, true, false⟩] } :
              Framebuffer)) } := by
  have hloop : ∀ (S : DeferredRenderer H) (depth accum a b c : VulkanTexture),
      S.cam_ = true → S.renderpass_ = some rp → S.depth_buffer_ = some depth →
      S.accum_buffer_ = some accum → S.g_buffer_ = [some a, some b, some c] →
      forEach (makeFramebuffer A S) (List.range (SCAST_U32 A.GetNumImages)) = Except.ok
        ((List.range (SCAST_U32 A.GetNumImages)).map (fun i =>
          ({ name := "from_swapchain_%d", name_index := i, width := A.viewport_width,
             height := A.viewport_height, layers := 1, renderpass := rp,
             attachments :=
               [FramebufferImage.swapchain_image i, FramebufferImage.texture depth,
                FramebufferImage.texture a, FramebufferImage.texture b,
                FramebufferImage.texture c, FramebufferImage.texture accum] } :
            Framebuffer))) := by
    intro S depth accum a b c h1 h2 h3 h4 h5
    exact forEach_ok _ _ _ (fun i _ => makeFramebuffer_ok A S i rp depth accum a b c h1 h2 h3 h4 h5)
  have hg3 : r.g_buffer_.length = 3 := hg
  simp only [SetupFrameBuffers, CreateFramebufferAttachment, useCamera, hcam, assign, bind,
    Except.bind, pure, Except.pure, if_true, List.length_set, hg3, GBtypes.DIFFUSE_ALBEDO,
    GBtypes.SPECULAR_ALBEDO, GBtypes.NORMAL, Nat.zero_lt_succ, Nat.lt_add_one, Nat.one_lt_ofNat,
    Nat.reduceLT, VulkanState.fresh, set_triple _ hg3]
  rw [hloop]
  any_goals rfl
  exact hrp

/-- C13: for every swapchain image count `N`, `SetupFrameBuffers` (with the camera
and the render pass set, as in `Init`) creates exactly `N` framebuffers, appended to
`framebuffers_`; framebuffer `i` has exactly 6 attachments, in this order: swapchain
image `i`, the depth buffer, the three G-buffer textures and the accumulation
buffer; and the five attachments after the first are, in every framebuffer, the
textures held by `depth_buffer_`, `g_buffer_` and `accum_buffer_`. -/
theorem SetupFrameBuffers_creates_one_framebuffer_per_image {H : Headers} (A : Ambient H)
    (r : DeferredRenderer H) (rp : Renderpass) (hcam : r.cam_ = true)
    (hrp : r.renderpass_ = some rp) (hg : r.g_buffer_.length = GBtypes.num_items) :
    ∃ r' depth a b c accum, SetupFrameBuffers A r = Except.ok r' ∧
      r'.depth_buffer_ = some depth ∧ r'.g_buffer_ = [some a, some b, some c] ∧
      r'.accum_buffer_ = some accum ∧
      r'.framebuffers_.length = r.framebuffers_.length + SCAST_U32 A.GetNumImages ∧
      r'.framebuffers_.take r.framebuffers_.length = r.framebuffers_ ∧
      ∀ i, i < SCAST_U32 A.GetNumImages →
        ∃ f, r'.framebuffers_[r.framebuffers_.length + i]? = some f ∧
          f.renderpass = rp ∧
          f.attachments.length = 6 ∧
          f.attachments =
            [FramebufferImage.swapchain_image i, FramebufferImage.texture depth,
             FramebufferImage.texture a, FramebufferImage.texture b,
             FramebufferImage.texture c, FramebufferImage.texture accum] ∧
          f.attachments.drop 1 =
            (r'.depth_buffer_.toList ++ r'.g_buffer_.reduceOption ++
              r'.accum_buffer_.toList).map FramebufferImage.texture := by
  refine ⟨_, _, _, _, _, _, SetupFrameBuffers_ok A r rp hcam hrp hg, rfl, rfl, rfl, ?_, ?_, ?_⟩
  · simp
  · simp
  · intro i hi
    refine ⟨{ name := "from_swapchain_%d", name_index := i, width := A.viewport_width,
              height := A.viewport_height, layers := 1, renderpass := rp,
              attachments :=
                [FramebufferImage.swapchain_image i,
                 FramebufferImage.texture ⟨"depth", A.depth_format, true, false, true⟩,
                 FramebufferImage.texture
                   ⟨"diffuse_albedo", kDiffuseAlbedoFormat, true, true, false⟩,
                 FramebufferImage.texture
                   ⟨"specular_albedo", kSpecularAlbedoFormat, true, true, false⟩,
                 FramebufferImage.texture ⟨"normals", kNormalFormat, true, true, false⟩,
                 FramebufferImage.texture
                   ⟨"accumulation", kAccumulationFormat, true, true, false⟩] }, ?_, ?_⟩
    · show (r.framebuffers_ ++ List.map _ (List.range (SCAST_U32 A.GetNumImages)))[
        r.framebuffers_.length + i]? = _
      rw [List.getElem?_append_right (Nat.le_add_right _ _), Nat.add_sub_cancel_left,
        List.getElem?_map, List.getElem?_range hi]
      rfl
    · exact ⟨rfl, rfl, rfl, rfl⟩

/-- C13 (witness): with a two-image swapchain and no registered model, the
hypotheses of `SetupFrameBuffers_creates_one_framebuffer_per_image` hold in the
state `Init` calls `SetupFrameBuffers` in, and exactly 2 framebuffers result. -/
theorem SetupFrameBuffers_creates_one_framebuffer_per_image_witness :
    ∃ r', SetupFrameBuffers (scenarioAmbient 0 [] 0)
        { scenarioRenderer with
          cam_ := true
          renderpass_ := some (SetupRenderPass kColourBufferFormat VK_FORMAT_D32_SFLOAT) } =
        Except.ok r' ∧
      r'.framebuffers_.length = 2 ∧ r'.registered_models_ = [] := by
  obtain ⟨r', _, _, _, _, _, h, _, _, _, hl, _⟩ :=
    SetupFrameBuffers_creates_one_framebuffer_per_image (scenarioAmbient 0 [] 0)
      { scenarioRenderer with
        cam_ := true
        renderpass_ := some (SetupRenderPass kColourBufferFormat VK_FORMAT_D32_SFLOAT) }
      (SetupRenderPass kColourBufferFormat VK_FORMAT_D32_SFLOAT) rfl rfl rfl
  refine ⟨r', h, hl, ?_⟩
  have h2 := SetupFrameBuffers_ok (scenarioAmbient 0 [] 0)
      { scenarioRenderer with
        cam_ := true
        renderpass_ := some (SetupRenderPass kColourBufferFormat VK_FORMAT_D32_SFLOAT) }
      (SetupRenderPass kColourBufferFormat VK_FORMAT_D32_SFLOAT) rfl rfl rfl
  rw [h2] at h
  cases h
  rfl

theorem SetupRenderPass_attachments (sf df : VkFormat) :
    (SetupRenderPass sf df).attachments.map (fun a => (a.format, a.final_layout)) =
      [(sf, VK_IMAGE_LAYOUT_PRESENT_SRC_KHR),
       (df, VK_IMAGE_LAYOUT_DEPTH_STENCIL_ATTACHMENT_OPTIMAL),
       (kDiffuseAlbedoFormat, VK_IMAGE_LAYOUT_SHADER_READ_ONLY_OPTIMAL),
       (kSpecularAlbedoFormat, VK_IMAGE_LAYOUT_SHADER_READ_ONLY_OPTIMAL),
       (kNormalFormat, VK_IMAGE_LAYOUT_SHADER_READ_ONLY_OPTIMAL),
       (kAccumulationFormat, VK_IMAGE_LAYOUT_SHADER_READ_ONLY_OPTIMAL)] := by
  rfl

theorem renderpassClearValues_recordModels (layout : Handle) (models : List Model) :
    renderpassClearValues (recordModels layout models) = [] := by
  induction models with
  | nil => rfl
  | cons m rest ih =>
    have h : renderpassClearValues (recordModels layout (m :: rest)) =
        renderpassClearValues (recordModels layout rest) := rfl
    rw [h, ih]

/-- C14: in every command buffer `SetupCommandBuffers` records there is one
`BeginRenderpass`, and its clear-value list has exactly 6 entries, one per
attachment of the render pass `SetupRenderPass` builds and in the order the
attachments are declared there: entry 0 is a colour clear (present-colour
attachment), entry 1 is the depth/stencil clear with depth 1 and stencil 0 (the
attachment of the depth format, whose final layout is the depth/stencil layout),
entries 2 to 5 are colour clears (diffuse, specular, normal, accumulation).  The
position of the depth/stencil entry is 1, which is the attachment id the store
subpass has as its depth reference, the id returned by the second `AddAttachment`
call. -/
theorem SetupCommandBuffers_clear_values_follow_attachment_order {H : Headers} (A : Ambient H)
    (r : DeferredRenderer H)
    (rp : Renderpass) (store shade tone : Material) (quad : Model) (layout : Handle)
    (hcmd : SCAST_U32 A.GetNumImages ≤ r.vulkan.graphics_queue_cmd_buffers.length)
    (hrp : r.renderpass_ = some rp)
    (hfb : SCAST_U32 A.GetNumImages ≤ r.framebuffers_.length)
    (hcam : r.cam_ = true)
    (hstore : r.g_store_material_ = some store) (hshade : r.g_shade_material_ = some shade)
    (htone : r.g_tonemap_material_ = some tone) (hquad : r.fullscreenquad_ = some quad)
    (hlayout : r.pipe_layouts_[PipeLayoutTypes.GPASS]? = some layout)
    (hsets : DescSetLayoutTypes.HEAP ≤ r.desc_sets_.length) :
    (∃ r', SetupCommandBuffers A r = Except.ok r' ∧
      ∀ i, i < SCAST_U32 A.GetNumImages →
        ∃ t, r'.vulkan.graphics_queue_cmd_buffers[i]? = some t ∧
          renderpassClearValues t =
            [[VkClearValue.color 0 0 0 0, VkClearValue.depthStencil 1 0,
              VkClearValue.color 0 0 0 0, VkClearValue.color 0 0 0 0,
              VkClearValue.color 0 0 0 0, VkClearValue.color 0 0 0 0]]) ∧
    ∀ sf df : VkFormat,
      (SetupRenderPass sf df).attachments.length = 6 ∧
      (SetupRenderPass sf df).attachments.map (fun a => (a.format, a.final_layout)) =
        [(sf, VK_IMAGE_LAYOUT_PRESENT_SRC_KHR),
         (df, VK_IMAGE_LAYOUT_DEPTH_STENCIL_ATTACHMENT_OPTIMAL),
         (kDiffuseAlbedoFormat, VK_IMAGE_LAYOUT_SHADER_READ_ONLY_OPTIMAL),
         (kSpecularAlbedoFormat, VK_IMAGE_LAYOUT_SHADER_READ_ONLY_OPTIMAL),
         (kNormalFormat, VK_IMAGE_LAYOUT_SHADER_READ_ONLY_OPTIMAL),
         (kAccumulationFormat, VK_IMAGE_LAYOUT_SHADER_READ_ONLY_OPTIMAL)] ∧
      [VkClearValue.color 0 0 0 0, VkClearValue.depthStencil 1 0,
        VkClearValue.color 0 0 0 0, VkClearValue.color 0 0 0 0,
        VkClearValue.color 0 0 0 0, VkClearValue.color 0 0 0 0].map VkClearValue.isDepthStencil =
        (SetupRenderPass sf df).attachments.map (fun a =>
          decide (a.final_layout = VK_IMAGE_LAYOUT_DEPTH_STENCIL_ATTACHMENT_OPTIMAL)) ∧
      (SetupRenderPass sf df).subpasses.map (fun s => s.depth_ref.map (fun d => d.attachment)) =
        [some 1, none, none] ∧
      (SetupRenderPass sf df).calls.take 2 =
        [RenderpassCall.AddAttachment 0, RenderpassCall.AddAttachment 1] ∧
      [VkClearValue.color 0 0 0 0, VkClearValue.depthStencil 1 0,
        VkClearValue.color 0 0 0 0, VkClearValue.color 0 0 0 0,
        VkClearValue.color 0 0 0 0, VkClearValue.color 0 0 0 0].findIdx
          VkClearValue.isDepthStencil = 1 := by
  constructor
  · refine ⟨_, SetupCommandBuffers_ok A r rp store shade tone quad layout hcmd hrp hfb hcam
      hstore hshade htone hquad hlayout hsets, ?_⟩
    intro i hi
    refine ⟨recordedTrace i A.viewport_width A.viewport_height store shade tone quad layout
      (r.desc_sets_.take DescSetLayoutTypes.HEAP) r.registered_models_, ?_, ?_⟩
    · show (List.map _ (List.range (SCAST_U32 A.GetNumImages)) ++ _)[i]? = _
      rw [List.getElem?_append_left (by simpa using hi)]
      rw [List.getElem?_map, List.getElem?_range hi]
      rfl
    · unfold renderpassClearValues recordedTrace
      rw [List.filterMap_append, List.filterMap_append]
      have h := renderpassClearValues_recordModels layout r.registered_models_
      unfold renderpassClearValues at h
      rw [h]
      rfl
  · intro sf df
    refine ⟨rfl, rfl, rfl, ?_, ?_, rfl⟩
    · rw [SetupRenderPass_subpasses]; rfl
    · rw [SetupRenderPass_calls]; rfl

/-- C14 (witness): the hypotheses of
`SetupCommandBuffers_clear_values_follow_attachment_order` hold in a renderer state
with two swapchain images. -/
theorem SetupCommandBuffers_clear_values_follow_attachment_order_witness :
    ∃ r', SetupCommandBuffers (scenarioAmbient 0 [] 0)
        (scenarioRecordingRenderer [scenarioModel]) = Except.ok r' ∧
      ∀ i, i < 2 →
        ∃ t, r'.vulkan.graphics_queue_cmd_buffers[i]? = some t ∧
          (renderpassClearValues t).map List.length = [6] := by
  obtain ⟨⟨r', h1, h2⟩, _⟩ := SetupCommandBuffers_clear_values_follow_attachment_order
    (scenarioAmbient 0 [] 0) (scenarioRecordingRenderer [scenarioModel]) _ _ _ _ _ 8
    (by decide) rfl (by decide) rfl rfl rfl rfl rfl rfl (by decide)
  refine ⟨r', h1, fun i hi => ?_⟩
  obtain ⟨t, ht, hc⟩ := h2 i hi
  exact ⟨t, ht, by rw [hc]; rfl⟩

/-! ## Shutdown -/

/-- What `Shutdown` does when `pipe_layouts_` and `desc_set_layouts_` hold the
elements its loops index: it returns, the device events are `shutdownEvents` in
that order, and the members are reset. -/
theorem Shutdown_ok {H : Headers} (r : DeferredRenderer H) (pipe_layout generic heap : Handle)
    (pl_rest dl_rest : List Handle)
    (hpl : r.pipe_layouts_ = pipe_layout :: pl_rest)
    (hdl : r.desc_set_layouts_ = generic :: heap :: dl_rest) :
    ∃ r', Shutdown r = Except.ok r' ∧
      r'.vulkan.events = r.vulkan.events ++
        shutdownEvents r.desc_pool_ r.aniso_sampler_ r.nearest_sampler_ pipe_layout generic heap ∧
      r'.renderpass_ = none ∧ r'.framebuffers_ = [] ∧
      r'.desc_pool_ = VK_NULL_HANDLE ∧ r'.aniso_sampler_ = VK_NULL_HANDLE ∧
      r'.nearest_sampler_ = VK_NULL_HANDLE ∧
      r'.pipe_layouts_ = [] ∧ r'.desc_set_layouts_ = [] ∧ r'.main_static_buff_ = none := by
  have hr1 : List.range PipeLayoutTypes.num_items = [0] := rfl
  have hr2 : List.range DescSetLayoutTypes.num_items = [0, 1] := rfl
  by_cases h1 : (r.desc_pool_ != VK_NULL_HANDLE) = true <;>
  by_cases h2 : (r.aniso_sampler_ != VK_NULL_HANDLE) = true <;>
  by_cases h3 : (r.nearest_sampler_ != VK_NULL_HANDLE) = true <;>
  simp only [Shutdown, hr1, hr2, destroyEach, index, hpl, hdl, List.getElem?_cons_zero,
    List.getElem?_cons_succ, bind, Except.bind, pure, Except.pure, shutdownEvents, h1, h2, h3,
    if_true, if_false, vkResetAndDestroyDescriptorPool, vkDestroySampler,
    vkDestroyPipelineLayout, vkDestroyDescriptorSetLayout, Bool.false_eq_true] <;>
  refine ⟨_, rfl, ?_, rfl, rfl, ?_, ?_, ?_, rfl, rfl, rfl⟩ <;>
  first
    | (simp only [List.append_assoc, List.cons_append, List.nil_append, List.append_nil]; done)
    | rfl
    | (simpa using h1)
    | (simpa using h2)
    | (simpa using h3)

/-- The render pass, attachments and framebuffers `Init` leaves on a freshly
constructed renderer: every framebuffer is built against the render pass held by
`renderpass_` and from the textures held by the attachment members. -/
theorem Init_framebuffers {H : Headers} (A : Ambient H) (v : VulkanState) :
    ∃ r, Init A (DeferredRenderer.create H v) = Except.ok r ∧
      r.renderpass_ = some (SetupRenderPass A.GetSurfaceFormat A.depth_format) ∧
      r.depth_buffer_ = some ⟨"depth", A.depth_format, true, false, true⟩ ∧
      r.g_buffer_ =
        [some ⟨"diffuse_albedo", kDiffuseAlbedoFormat, true, true, false⟩,
         some ⟨"specular_albedo", kSpecularAlbedoFormat, true, true, false⟩,
         some ⟨"normals", kNormalFormat, true, true, false⟩] ∧
      r.accum_buffer_ = some ⟨"accumulation", kAccumulationFormat, true, true, false⟩ ∧
      r.framebuffers_ =
        (List.range (SCAST_U32 A.GetNumImages)).map (fun i =>
          ({ name := "from_swapchain_%d", name_index := i, width := A.viewport_width,
             height := A.viewport_height, layers := 1,
             renderpass := SetupRenderPass A.GetSurfaceFormat A.depth_format,
             attachments :=
               [FramebufferImage.swapchain_image i,
                FramebufferImage.texture ⟨"depth", A.depth_format, true, false, true⟩,
                FramebufferImage.texture
                  ⟨"diffuse_albedo", kDiffuseAlbedoFormat, true, true, false⟩,
                FramebufferImage.texture
                  ⟨"specular_albedo", kSpecularAlbedoFormat, true, true, false⟩,
                FramebufferImage.texture ⟨"normals", kNormalFormat, true, true, false⟩,
                FramebufferImage.texture
                  ⟨"accumulation", kAccumulationFormat, true, true, false⟩] } :
            Framebuffer)) ∧
      r.pipe_layouts_ = [] ∧ r.desc_set_layouts_ = [] ∧
      r.vulkan.events = v.events := by
  simp only [Init]
  rw [UpdatePVMatrices_ok A _ rfl]
  simp only [bind, Except.bind]
  rw [SetupFrameBuffers_ok A _ (SetupRenderPass A.GetSurfaceFormat A.depth_format)]
  any_goals rfl
  exact ⟨_, rfl, rfl, rfl, rfl, rfl, rfl, rfl, rfl, rfl⟩

set_option maxRecDepth 100000 in
/-- The effects of `Shutdown` after `Init` and one `RegisterModel`, with the handles
of the scenario: samplers 1 and 2, pool 3, set layouts 5 and 6, pipeline layout 8.
The buffer `main_static_buff_` is shut down last. -/
theorem scenario_Shutdown_events :
    (scenarioRegistered (scenarioAmbient 1 scenarioConstsA 1) >>= fun r =>
      (Shutdown r).map (fun r' =>
        (r'.vulkan.events, r.main_static_buff_.isSome, r'.main_static_buff_.isSome))) =
    Except.ok
      ([DeviceEvent.DeviceWaitIdle, DeviceEvent.ReleaseRenderpass, DeviceEvent.ClearFramebuffers,
        DeviceEvent.ResetDescriptorPool 3, DeviceEvent.DestroyDescriptorPool 3,
        DeviceEvent.DestroySampler 1, DeviceEvent.DestroySampler 2,
        DeviceEvent.DestroyPipelineLayout 8,
        DeviceEvent.DestroyDescriptorSetLayout 5, DeviceEvent.DestroyDescriptorSetLayout 6,
        DeviceEvent.ShutdownBuffer],
       true, false) := by
  rfl

/-- The effects of `Shutdown` from a state in which `pipe_layouts_` and
`desc_set_layouts_` hold the elements its loops index (`PipeLayoutTypes::num_items
= 1` and `DescSetLayoutTypes::num_items = 2`, as after a `RegisterModel`): it
returns and its effects on the objects named are exactly, in this order and with no
other release of them in between: wait for device idle, release of the render pass,
then of the framebuffers, then of the descriptor pool (reset and destroy), then of
the two samplers, then of the pipeline layout, then of the two descriptor-set
layouts; the pool and each sampler are released when their handle is not null.  The
one effect that follows is the shutdown of `main_static_buff_`.  Afterwards
`desc_pool_`, `aniso_sampler_` and `nearest_sampler_` are null handles and
`framebuffers_`, `pipe_layouts_` and `desc_set_layouts_` are empty. -/
theorem Shutdown_effects_in_order {H : Headers} (r : DeferredRenderer H)
    (pipe_layout generic heap : Handle) (pl_rest dl_rest : List Handle)
    (hpl : r.pipe_layouts_ = pipe_layout :: pl_rest)
    (hdl : r.desc_set_layouts_ = generic :: heap :: dl_rest) :
    ∃ r', Shutdown r = Except.ok r' ∧
      r'.vulkan.events = r.vulkan.events ++
        shutdownEvents r.desc_pool_ r.aniso_sampler_ r.nearest_sampler_ pipe_layout generic heap ∧
      (r.desc_pool_ ≠ VK_NULL_HANDLE → r.aniso_sampler_ ≠ VK_NULL_HANDLE →
        r.nearest_sampler_ ≠ VK_NULL_HANDLE →
        r'.vulkan.events = r.vulkan.events ++
          [DeviceEvent.DeviceWaitIdle, DeviceEvent.ReleaseRenderpass,
           DeviceEvent.ClearFramebuffers,
           DeviceEvent.ResetDescriptorPool r.desc_pool_,
           DeviceEvent.DestroyDescriptorPool r.desc_pool_,
           DeviceEvent.DestroySampler r.aniso_sampler_,
           DeviceEvent.DestroySampler r.nearest_sampler_,
           DeviceEvent.DestroyPipelineLayout pipe_layout,
           DeviceEvent.DestroyDescriptorSetLayout generic,
           DeviceEvent.DestroyDescriptorSetLayout heap,
           DeviceEvent.ShutdownBuffer]) ∧
      r'.desc_pool_ = VK_NULL_HANDLE ∧ r'.aniso_sampler_ = VK_NULL_HANDLE ∧
      r'.nearest_sampler_ = VK_NULL_HANDLE ∧
      r'.framebuffers_ = [] ∧ r'.pipe_layouts_ = [] ∧ r'.desc_set_layouts_ = [] ∧
      r'.renderpass_ = none ∧ r'.main_static_buff_ = none := by
  obtain ⟨r', h, hev, hrp, hfb, hp, ha, hn, hpl', hdl', hb⟩ :=
    Shutdown_ok r pipe_layout generic heap pl_rest dl_rest hpl hdl
  refine ⟨r', h, hev, ?_, hp, ha, hn, hfb, hpl', hdl', hrp, hb⟩
  intro h1 h2 h3
  rw [hev]
  have e1 : (r.desc_pool_ != VK_NULL_HANDLE) = true := by simpa using h1
  have e2 : (r.aniso_sampler_ != VK_NULL_HANDLE) = true := by simpa using h2
  have e3 : (r.nearest_sampler_ != VK_NULL_HANDLE) = true := by simpa using h3
  simp only [shutdownEvents, e1, e2, e3, if_true, List.append_assoc, List.cons_append,
    List.nil_append]

/-- The hypotheses of `Shutdown_effects_in_order` hold after `Init` and one
`RegisterModel`. -/
theorem Shutdown_effects_in_order_witness :
    ∃ r0 r1 r2, Init (scenarioAmbient 1 scenarioConstsA 1) scenarioRenderer = Except.ok r0 ∧
      RegisterModel (scenarioAmbient 1 scenarioConstsA 1) r0 scenarioModel [] = Except.ok r1 ∧
      Shutdown r1 = Except.ok r2 ∧
      r2.desc_pool_ = VK_NULL_HANDLE ∧ r2.pipe_layouts_ = [] ∧ r2.desc_set_layouts_ = [] := by
  obtain ⟨r0, hr0, hI, hE, _⟩ := Init_ok (scenarioAmbient 1 scenarioConstsA 1) 2 (by decide)
  have h1 := RegisterModel_eq (scenarioAmbient 1 scenarioConstsA 1) r0 scenarioModel [] hI
    (scenario_PackFits 1 1 1 r0 (by decide) (by decide))
      (PoolGrants_of_not_enforcing _ r0 hE)
  obtain ⟨r2, h2, _, _, hp, _, _, _, hpl, hdl, _⟩ := Shutdown_effects_in_order
    (registeredState (scenarioAmbient 1 scenarioConstsA 1) r0 scenarioModel [])
    (r0.vulkan.next_handle + 3) r0.vulkan.next_handle (r0.vulkan.next_handle + 1) [] [] rfl rfl
  exact ⟨r0, _, r2, hr0, h1, h2, hp, hpl, hdl⟩

set_option maxRecDepth 100000 in
/-- C16 (as stated, refuted): after `Init` and one `RegisterModel` there are two
framebuffers, both created against the render pass held by `renderpass_`; in the
effects of `Shutdown` the release of that render pass is at position 1 and the
destruction of the framebuffers at position 2, after it. -/
theorem Shutdown_releases_render_pass_before_framebuffers :
    (scenarioRegistered (scenarioAmbient 1 scenarioConstsA 1) >>= fun r =>
      (Shutdown r).map (fun r' =>
        (r.framebuffers_.length,
         r.framebuffers_.all (fun f => decide (some f.renderpass = r.renderpass_)),
         eventIndex DeviceEvent.ReleaseRenderpass r'.vulkan.events,
         eventIndex DeviceEvent.ClearFramebuffers r'.vulkan.events))) =
    Except.ok (2, true, some 1, some 2) := by
  rfl

theorem makeFramebuffer_without_render_pass {H : Headers} (A : Ambient H)
    (S : DeferredRenderer H) (i : Nat) (h : S.renderpass_ = none) :
    makeFramebuffer A S i = Except.error Fault.null_dereference := by
  by_cases hcam : S.cam_ = true <;>
  simp [makeFramebuffer, useCamera, deref, hcam, h, bind, Except.bind]

/-- C16 (amended): in `Init` the framebuffers are created after the render pass and
their attachments exist: each framebuffer is built against the render pass held by
`renderpass_` and from the textures held by `depth_buffer_`, `g_buffer_` and
`accum_buffer_`, and building one while `renderpass_` is null is a null
dereference.  In `Shutdown`, called when `pipe_layouts_` and `desc_set_layouts_`
hold the elements its loops index (after at least one `RegisterModel`), the order
is the other way round: the render pass is released first and the framebuffers are
destroyed directly after it, each of the two exactly once, so every framebuffer
outlives the render pass it was created against. -/
theorem framebuffers_created_after_and_destroyed_after_render_pass {H : Headers}
    (A : Ambient H) (v : VulkanState) (r : DeferredRenderer H)
    (pipe_layout generic heap : Handle) (pl_rest dl_rest : List Handle)
    (hpl : r.pipe_layouts_ = pipe_layout :: pl_rest)
    (hdl : r.desc_set_layouts_ = generic :: heap :: dl_rest) :
    (∃ r0 rp, Init A (DeferredRenderer.create H v) = Except.ok r0 ∧
      r0.renderpass_ = some rp ∧
      r0.framebuffers_.length = SCAST_U32 A.GetNumImages ∧
      ∀ f ∈ r0.framebuffers_, f.renderpass = rp ∧
        f.attachments.drop 1 =
          (r0.depth_buffer_.toList ++ r0.g_buffer_.reduceOption ++
            r0.accum_buffer_.toList).map FramebufferImage.texture ∧
        f.attachments.length = 6) ∧
    (∀ (S : DeferredRenderer H) (i : Nat), S.renderpass_ = none →
      makeFramebuffer A S i = Except.error Fault.null_dereference) ∧
    (∃ r' rest, Shutdown r = Except.ok r' ∧
      r'.vulkan.events = r.vulkan.events ++
        [DeviceEvent.DeviceWaitIdle, DeviceEvent.ReleaseRenderpass,
         DeviceEvent.ClearFramebuffers] ++ rest ∧
      DeviceEvent.ReleaseRenderpass ∉ rest ∧ DeviceEvent.ClearFramebuffers ∉ rest ∧
      r'.renderpass_ = none ∧ r'.framebuffers_ = []) := by
  refine ⟨?_, fun S i h => makeFramebuffer_without_render_pass A S i h, ?_⟩
  · obtain ⟨r0, h0, hrp, hd, hg, ha, hf, _⟩ := Init_framebuffers A v
    refine ⟨r0, _, h0, hrp, ?_, ?_⟩
    · rw [hf]; simp
    · intro f hfm
      rw [hf] at hfm
      obtain ⟨i, _, rfl⟩ := List.mem_map.mp hfm
      rw [hd, hg, ha]
      exact ⟨rfl, rfl, rfl⟩
  · obtain ⟨r', h, hev, hrp, hfb, _⟩ :=
      Shutdown_ok r pipe_layout generic heap pl_rest dl_rest hpl hdl
    refine ⟨r', (shutdownEvents r.desc_pool_ r.aniso_sampler_ r.nearest_sampler_ pipe_layout
      generic heap).drop 3, h, ?_, ?_, ?_, hrp, hfb⟩
    · rw [hev, List.append_assoc]
      rfl
    · by_cases h1 : (r.desc_pool_ != VK_NULL_HANDLE) = true <;>
      by_cases h2 : (r.aniso_sampler_ != VK_NULL_HANDLE) = true <;>
      by_cases h3 : (r.nearest_sampler_ != VK_NULL_HANDLE) = true <;>
      simp [shutdownEvents, h1, h2, h3]
    · by_cases h1 : (r.desc_pool_ != VK_NULL_HANDLE) = true <;>
      by_cases h2 : (r.aniso_sampler_ != VK_NULL_HANDLE) = true <;>
      by_cases h3 : (r.nearest_sampler_ != VK_NULL_HANDLE) = true <;>
      simp [shutdownEvents, h1, h2, h3]

/-- C16 (witness): the hypotheses of
`framebuffers_created_after_and_destroyed_after_render_pass` hold after `Init` and
one `RegisterModel`. -/
theorem framebuffers_created_after_and_destroyed_after_render_pass_witness :
    ∃ r0 r1 r2, Init (scenarioAmbient 1 scenarioConstsA 1) scenarioRenderer = Except.ok r0 ∧
      RegisterModel (scenarioAmbient 1 scenarioConstsA 1) r0 scenarioModel [] = Except.ok r1 ∧
      Shutdown r1 = Except.ok r2 ∧ r2.renderpass_ = none ∧ r2.framebuffers_ = [] := by
  obtain ⟨r0, hr0, hI, hE, _⟩ := Init_ok (scenarioAmbient 1 scenarioConstsA 1) 2 (by decide)
  have h1 := RegisterModel_eq (scenarioAmbient 1 scenarioConstsA 1) r0 scenarioModel [] hI
    (scenario_PackFits 1 1 1 r0 (by decide) (by decide))
      (PoolGrants_of_not_enforcing _ r0 hE)
  obtain ⟨r2, _, h2, _, _, _, hrp, hfb⟩ :=
    (framebuffers_created_after_and_destroyed_after_render_pass
      (scenarioAmbient 1 scenarioConstsA 1) (VulkanState.boot 2)
      (registeredState (scenarioAmbient 1 scenarioConstsA 1) r0 scenarioModel [])
      (r0.vulkan.next_handle + 3) r0.vulkan.next_handle (r0.vulkan.next_handle + 1) [] []
      rfl rfl).2.2
  exact ⟨r0, _, r2, hr0, h1, h2, hrp, hfb⟩

/-! ## Material instance textures -/

theorem filterMap_getElem?_range {α : Type} (l : List α) (n : Nat) :
    (List.range n).filterMap (fun i => l[i]?) = l.take n := by
  induction n with
  | zero => rfl
  | succ n ih =>
    rw [List.range_succ, List.filterMap_append, ih, List.take_succ]
    cases h : l[n]? <;> simp [List.filterMap_cons, h]

theorem lastOfType_some (k : Nat) (l : List MaterialBuilderTexture) (t : MaterialBuilderTexture)
    (h : lastOfType k l = some t) : t ∈ l ∧ t.type = k := by
  induction l with
  | nil => cases h
  | cons u rest ih =>
    unfold lastOfType at h
    cases hr : lastOfType k rest with
    | some w =>
      rw [hr] at h
      cases h
      exact ⟨List.mem_cons_of_mem _ (ih hr).1, (ih hr).2⟩
    | none =>
      rw [hr] at h
      by_cases hu : u.type = k
      · simp only [hu, if_true] at h
        cases h
        exact ⟨List.mem_cons_self _ _, hu⟩
      · simp only [hu, if_false] at h
        cases h

theorem lastOfType_none (k : Nat) (l : List MaterialBuilderTexture)
    (h : ∀ t ∈ l, t.type ≠ k) : lastOfType k l = none := by
  induction l with
  | nil => rfl
  | cons u rest ih =>
    unfold lastOfType
    rw [ih (fun t ht => h t (List.mem_cons_of_mem _ ht))]
    simp only [h u (List.mem_cons_self _ _), if_false]

theorem lastOfType_append_singleton (pre : List MaterialBuilderTexture)
    (t : MaterialBuilderTexture) : lastOfType t.type (pre ++ [t]) = some t := by
  induction pre with
  | nil => simp [lastOfType]
  | cons u rest ih =>
    show lastOfType t.type (u :: (rest ++ [t])) = some t
    unfold lastOfType
    rw [ih]

theorem loadBuilderTexture_of_notLoaded {H : Headers} (T : TextureManager)
    (kBaseAssetsPath : String) (B : MaterialInstanceBuilder H) (t : MaterialBuilderTexture)
    (h : NotLoaded T B t) :
    loadBuilderTexture T kBaseAssetsPath B t = dummyForBuilderTexture T kBaseAssetsPath B := by
  unfold loadBuilderTexture dummyForBuilderTexture
  rcases h with h | h
  · simp [h]
  · by_cases hn : t.name = ""
    · simp [hn]
    · simp [hn, h]

theorem loadBuilderTexture_of_loaded {H : Headers} (T : TextureManager)
    (kBaseAssetsPath : String) (B : MaterialInstanceBuilder H) (t : MaterialBuilderTexture)
    (h : ¬ NotLoaded T B t) :
    loadBuilderTexture T kBaseAssetsPath B t =
      T.Load2DPNGTexture (B.mats_directory ++ t.name) VK_FORMAT_R8G8B8A8_UNORM
        B.aniso_sampler ∧
    (loadBuilderTexture T kBaseAssetsPath B t).isSome = true := by
  unfold NotLoaded at h
  have hn : t.name ≠ "" := fun e => h (Or.inl e)
  have hp : T.Load2DPNGTexture (B.mats_directory ++ t.name) VK_FORMAT_R8G8B8A8_UNORM
      B.aniso_sampler ≠ none := fun e => h (Or.inr e)
  obtain ⟨x, hx⟩ := Option.ne_none_iff_exists'.mp hp
  unfold loadBuilderTexture
  simp [hn, hx]

theorem loadBuilderTexture_isSome {H : Headers} (T : TextureManager)
    (kBaseAssetsPath : String) (B : MaterialInstanceBuilder H) (t : MaterialBuilderTexture)
    (d : VulkanTexture) (hd : dummyForBuilderTexture T kBaseAssetsPath B = some d) :
    ∃ x, loadBuilderTexture T kBaseAssetsPath B t = some x := by
  by_cases h : NotLoaded T B t
  · exact ⟨d, by rw [loadBuilderTexture_of_notLoaded T kBaseAssetsPath B t h, hd]⟩
  · exact Option.isSome_iff_exists.mp (loadBuilderTexture_of_loaded T kBaseAssetsPath B t h).2

/-- The first loop of `MaterialInstance::Init` over valid indices: it returns, the
number of elements is unchanged, and element `k` is what was loaded for the last
builder texture of type `k` among those visited, or what it was. -/
theorem assignBuilderTextures_ok {H : Headers} (T : TextureManager) (kBaseAssetsPath : String)
    (B : MaterialInstanceBuilder H) (is : List Nat) :
    ∀ ts : List (Option VulkanTexture),
    (∀ i ∈ is, ∃ t, B.textures[i]? = some t ∧ t.type < ts.length) →
    ∃ ts', assignBuilderTextures T kBaseAssetsPath B is ts = Except.ok ts' ∧
      ts'.length = ts.length ∧
      ∀ k, ts'[k]? =
        match lastOfType k (is.filterMap (fun i => B.textures[i]?)) with
        | some t => some (loadBuilderTexture T kBaseAssetsPath B t)
        | none => ts[k]? := by
  induction is with
  | nil =>
    intro ts _
    exact ⟨ts, rfl, rfl, fun k => rfl⟩
  | cons i rest ih =>
    intro ts hvalid
    obtain ⟨t, ht, hlt⟩ := hvalid i (List.mem_cons_self _ _)
    obtain ⟨ts', h', hlen, hk⟩ := ih (ts.set t.type (loadBuilderTexture T kBaseAssetsPath B t))
      (fun j hj => by
        obtain ⟨u, hu, hul⟩ := hvalid j (List.mem_cons_of_mem _ hj)
        exact ⟨u, hu, by rw [List.length_set]; exact hul⟩)
    refine ⟨ts', ?_, ?_, ?_⟩
    · simp only [assignBuilderTextures, index, ht, assign, hlt, if_true, bind, Except.bind]
      exact h'
    · rw [hlen, List.length_set]
    · intro k
      rw [hk k]
      have hfm : (i :: rest).filterMap (fun i => B.textures[i]?) =
          t :: rest.filterMap (fun i => B.textures[i]?) := by
        simp [List.filterMap_cons, ht]
      rw [hfm]
      show _ = match (match lastOfType k (rest.filterMap (fun i => B.textures[i]?)) with
                      | some u => some u
                      | none => if t.type = k then some t else none) with
                | some t => some (loadBuilderTexture T kBaseAssetsPath B t)
                | none => ts[k]?
      cases lastOfType k (rest.filterMap (fun i => B.textures[i]?)) with
      | some u => rfl
      | none =>
        by_cases htk : t.type = k
        · subst htk
          simp [List.getElem?_set, hlt]
        · simp [List.getElem?_set, htk]

/-- The second loop of `MaterialInstance::Init` over valid indices: it returns, the
number of elements is unchanged, and a visited element that was null holds what the
load of `dummy.ktx` left; every other element is what it was. -/
theorem fillUnassigned_ok {H : Headers} (T : TextureManager) (kBaseAssetsPath : String)
    (B : MaterialInstanceBuilder H) (is : List Nat) :
    ∀ ts : List (Option VulkanTexture),
    (∀ i ∈ is, i < ts.length) →
    ∃ ts', fillUnassigned T kBaseAssetsPath B is ts = Except.ok ts' ∧
      ts'.length = ts.length ∧
      ∀ k, ts'[k]? =
        if k ∈ is ∧ ts[k]? = some none then some (dummyForUnassigned T kBaseAssetsPath B)
        else ts[k]? := by
  induction is with
  | nil =>
    intro ts _
    exact ⟨ts, rfl, rfl, fun k => by simp⟩
  | cons i rest ih =>
    intro ts hvalid
    have hi : i < ts.length := hvalid i (List.mem_cons_self _ _)
    have hget : ts[i]? = some (ts[i]) := List.getElem?_eq_getElem hi
    cases hx : ts[i] with
    | none =>
      obtain ⟨ts', h', hlen, hk⟩ := ih (ts.set i (dummyForUnassigned T kBaseAssetsPath B))
        (fun j hj => by rw [List.length_set]; exact hvalid j (List.mem_cons_of_mem _ hj))
      refine ⟨ts', ?_, ?_, ?_⟩
      · simp only [fillUnassigned, index, hget, hx, Option.isNone_none, if_true, assign, hi,
          bind, Except.bind]
        exact h'
      · rw [hlen, List.length_set]
      · intro k
        rw [hk k]
        by_cases hki : i = k
        · subst hki
          simp [List.getElem?_set, hi, hget, hx]
        · have hki' : ¬ k = i := fun e => hki e.symm
          simp [List.getElem?_set, hki, hki']
    | some x =>
      obtain ⟨ts', h', hlen, hk⟩ := ih ts
        (fun j hj => hvalid j (List.mem_cons_of_mem _ hj))
      refine ⟨ts', ?_, hlen, ?_⟩
      · simp only [fillUnassigned, index, hget, hx, Option.isNone_some, Bool.false_eq_true,
          if_false, pure, Except.pure, bind, Except.bind]
        exact h'
      · intro k
        rw [hk k]
        by_cases hki : k = i
        · subst hki
          simp [hget, hx]
        · simp [hki]

/-- C17: `MaterialInstance::Init` substitutes the dummy texture instead of failing.
For every builder with at least one constants entry whose texture types index
elements of `textures_`, and every outcome of the PNG loads, if the loads of
`dummy.ktx` yield non-null handles then `Init` on a newly constructed instance
completes and every element of `textures_` is non-null afterwards.  A builder
texture whose name is empty or whose PNG load leaves the handle null is given the
dummy texture in the element of its type: at its turn in the first loop, and so at
the end of `Init` unless a later builder texture has the same type.  Every element
for which the builder lists no texture is given the dummy texture by the second
loop.  A builder texture whose PNG load succeeds keeps the loaded texture. -/
theorem MaterialInstance_Init_substitutes_the_dummy_texture {H : Headers} (T : TextureManager)
    (kBaseAssetsPath : String) (textures_size : Nat) (B : MaterialInstanceBuilder H)
    (dummy1 dummy2 : VulkanTexture)
    (hconsts : B.consts ≠ [])
    (hdummy1 : dummyForBuilderTexture T kBaseAssetsPath B = some dummy1)
    (hdummy2 : dummyForUnassigned T kBaseAssetsPath B = some dummy2)
    (htypes : ∀ t ∈ B.textures, t.type < textures_size)
    (hcount : B.textures.length < UINT32_RANGE) (hsize : textures_size < UINT32_RANGE) :
    ∃ m, MaterialInstance.Init T kBaseAssetsPath (MaterialInstance.create H textures_size) B =
        Except.ok m ∧
      m.textures_.length = textures_size ∧
      (∀ k, k < textures_size → ∃ x, m.textures_[k]? = some (some x)) ∧
      (∀ pre t post, B.textures = pre ++ t :: post → NotLoaded T B t →
        (assignBuilderTextures T kBaseAssetsPath B (List.range (pre.length + 1))
          (MaterialInstance.create H textures_size).textures_).map (fun ts => ts[t.type]?) =
          Except.ok (some (some dummy1))) ∧
      (∀ t ∈ B.textures, NotLoaded T B t → lastOfType t.type B.textures = some t →
        m.textures_[t.type]? = some (some dummy1)) ∧
      (∀ k, k < textures_size → (∀ t ∈ B.textures, t.type ≠ k) →
        m.textures_[k]? = some (some dummy2)) ∧
      (∀ t ∈ B.textures, ¬ NotLoaded T B t → lastOfType t.type B.textures = some t →
        m.textures_[t.type]? =
          some (T.Load2DPNGTexture (B.mats_directory ++ t.name) VK_FORMAT_R8G8B8A8_UNORM
            B.aniso_sampler)) ∧
      B.consts.head? = some m.consts_ ∧ m.name_ = B.inst_name := by
  have hinit : (MaterialInstance.create H textures_size).textures_ =
      List.replicate textures_size none := rfl
  have hinitlen : (MaterialInstance.create H textures_size).textures_.length = textures_size := by
    rw [hinit, List.length_replicate]
  -- the first loop on a prefix of the builder textures
  have hloop1 : ∀ n, n ≤ B.textures.length →
      ∃ ts', assignBuilderTextures T kBaseAssetsPath B (List.range n)
          (MaterialInstance.create H textures_size).textures_ = Except.ok ts' ∧
        ts'.length = textures_size ∧
        ∀ k, ts'[k]? =
          match lastOfType k (B.textures.take n) with
          | some t => some (loadBuilderTexture T kBaseAssetsPath B t)
          | none => (List.replicate textures_size (none : Option VulkanTexture))[k]? := by
    intro n hn
    obtain ⟨ts', h', hlen, hk⟩ := assignBuilderTextures_ok T kBaseAssetsPath B (List.range n)
      (MaterialInstance.create H textures_size).textures_
      (fun i hi => by
        have hi' : i < B.textures.length := lt_of_lt_of_le (List.mem_range.mp hi) hn
        refine ⟨B.textures[i], List.getElem?_eq_getElem hi', ?_⟩
        rw [hinitlen]
        exact htypes _ (List.getElem_mem _))
    refine ⟨ts', h', by rw [hlen, hinitlen], fun k => ?_⟩
    rw [hk k, filterMap_getElem?_range, hinit]
  obtain ⟨c, cs, hc⟩ : ∃ c cs, B.consts = c :: cs := by
    cases hb : B.consts with
    | nil => exact absurd hb hconsts
    | cons c cs => exact ⟨c, cs, rfl⟩
  have hS1 : SCAST_U32 B.textures.length = B.textures.length := Nat.mod_eq_of_lt hcount
  obtain ⟨ts1, h1, hlen1, hk1⟩ := hloop1 B.textures.length (Nat.le_refl _)
  rw [List.take_length] at hk1
  have hS2 : SCAST_U32 ts1.length = textures_size := by
    rw [hlen1]; exact Nat.mod_eq_of_lt hsize
  obtain ⟨ts2, h2, hlen2, hk2⟩ := fillUnassigned_ok T kBaseAssetsPath B (List.range textures_size)
    ts1 (fun i hi => by rw [hlen1]; exact List.mem_range.mp hi)
  -- the element `k` at the end of `Init`
  have hsome : ∀ k t, lastOfType k B.textures = some t →
      ts2[k]? = some (loadBuilderTexture T kBaseAssetsPath B t) := by
    intro k t ht
    obtain ⟨x, hx⟩ := loadBuilderTexture_isSome T kBaseAssetsPath B t dummy1 hdummy1
    have e1 : ts1[k]? = some (loadBuilderTexture T kBaseAssetsPath B t) := by
      rw [hk1 k, ht]
    rw [hk2 k, e1, hx]
    simp
  have hnone : ∀ k, k < textures_size → lastOfType k B.textures = none →
      ts2[k]? = some (some dummy2) := by
    intro k hk ht
    have e1 : ts1[k]? = some none := by
      rw [hk1 k, ht]
      simp [List.getElem?_replicate, hk]
    rw [hk2 k, e1, hdummy2]
    simp [hk]
  refine ⟨{ MaterialInstance.create H textures_size with
            consts_ := c, textures_ := ts2, name_ := B.inst_name }, ?_, ?_, ?_, ?_, ?_, ?_, ?_,
    ?_, rfl⟩
  · simp only [MaterialInstance.Init, index, hc, List.getElem?_cons_zero, hS1, h1, hS2, h2, bind,
      Except.bind, pure, Except.pure]
  · show ts2.length = _
    rw [hlen2, hlen1]
  · intro k hk
    show ∃ x, ts2[k]? = some (some x)
    cases ht : lastOfType k B.textures with
    | some t =>
      obtain ⟨x, hx⟩ := loadBuilderTexture_isSome T kBaseAssetsPath B t dummy1 hdummy1
      exact ⟨x, by rw [hsome k t ht, hx]⟩
    | none => exact ⟨dummy2, hnone k hk ht⟩
  · intro pre t post hB hN
    obtain ⟨ts', h', _, hk'⟩ := hloop1 (pre.length + 1) (by rw [hB]; simp)
    have htake : B.textures.take (pre.length + 1) = pre ++ [t] := by
      rw [hB]
      simp [List.take_append_eq_append_take]
    rw [h']
    show Except.ok (ts'[t.type]?) = _
    rw [hk' t.type, htake, lastOfType_append_singleton]
    show Except.ok (some (loadBuilderTexture T kBaseAssetsPath B t)) = _
    rw [loadBuilderTexture_of_notLoaded T kBaseAssetsPath B t hN, hdummy1]
  · intro t _ hN hlast
    show ts2[t.type]? = _
    rw [hsome _ t hlast, loadBuilderTexture_of_notLoaded T kBaseAssetsPath B t hN, hdummy1]
  · intro k hk hno
    exact hnone k hk (lastOfType_none k B.textures hno)
  · intro t _ hN hlast
    show ts2[t.type]? = _
    rw [hsome _ t hlast, (loadBuilderTexture_of_loaded T kBaseAssetsPath B t hN).1]
  · show B.consts.head? = some c
    rw [hc]; rfl

/-- C17 (witness): with a texture manager that finds only `mats/brick.png` and
`assets/dummy.ktx`, a builder with one constants entry and three textures and an
instance with five texture elements, the hypotheses of
`MaterialInstance_Init_substitutes_the_dummy_texture` hold and `Init` returns. -/
theorem MaterialInstance_Init_substitutes_the_dummy_texture_witness :
    ∃ m, MaterialInstance.Init scenarioTextureManager "assets/"
        (MaterialInstance.create scenarioHeaders 5) scenarioBuilder = Except.ok m ∧
      m.textures_.length = 5 ∧
      ∀ k, k < 5 → ∃ x, m.textures_[k]? = some (some x) := by
  obtain ⟨m, h, hl, hs, _⟩ := MaterialInstance_Init_substitutes_the_dummy_texture
    scenarioTextureManager "assets/" 5 scenarioBuilder
    { name := "assets/dummy.ktx", format := VK_FORMAT_BC2_UNORM_BLOCK, sampled := true,
      colour_attachment := false, depth_stencil_attachment := false }
    { name := "assets/dummy.ktx", format := VK_FORMAT_R8G8B8A8_UNORM, sampled := true,
      colour_attachment := false, depth_stencil_attachment := false }
    (by decide) (by decide) (by decide) (by decide) (by decide) (by decide)
  exact ⟨m, h, hl, hs⟩

/-! ## Layouts, ranges and counts of one registration -/

/-- C18: `SetupDescriptorSetAndPipeLayout` creates exactly one pipeline layout: the
device's pipeline layouts grow by one object, whose descriptor-set-layout list is
the frame-generic layout followed by the heap layout (the two layouts the same call
created, stored in `desc_set_layouts_[GPASS_GENERIC]` and `desc_set_layouts_[HEAP]`)
and which has exactly one push-constant range, of offset 0 and size 4 bytes, for the
vertex stage only; and `SetupMaterialPipelines`, run on the state so left, creates
the three pass pipelines `g_store`, `g_shade` and `g_tone` with that same pipeline
layout, as they also are after a whole `RegisterModel`.  The hypothesis `PoolGrants` says that
the driver grants the descriptor set the call requests; a refused request stops the
call at `VK_CHECK_RESULT`. -/
theorem one_pipeline_layout_shared_by_the_three_pipelines {H : Headers} (A : Ambient H)
    (r : DeferredRenderer H) (model : Model) (g_store_vertex_setup : VertexSetup)
    (hI : Initialised A r) (hF : PackFits A r)
    (hG : PoolGrants A r) :
    ∃ r1 r2 r' generic heap layout store shade tone,
      SetupDescriptorSetAndPipeLayout A r = Except.ok r1 ∧
      r1.vulkan.pipe_layouts = r.vulkan.pipe_layouts ++
        [{ handle := layout, setLayouts := [generic, heap],
           pushConstantRanges := [⟨VkShaderStageFlags.VK_SHADER_STAGE_VERTEX_BIT, 0, 4⟩] }] ∧
      r1.vulkan.desc_set_layouts = r.vulkan.desc_set_layouts ++
        [{ handle := generic,
           bindings := genericBindings (SCAST_U32 A.GetMaterialInstancesCount) },
         { handle := heap, bindings := heapBindings H }] ∧
      r1.desc_set_layouts_[DescSetLayoutTypes.GPASS_GENERIC]? = some generic ∧
      r1.desc_set_layouts_[DescSetLayoutTypes.HEAP]? = some heap ∧
      r1.pipe_layouts_ = [layout] ∧
      SetupMaterialPipelines A r1 g_store_vertex_setup = Except.ok r2 ∧
      r2.g_store_material_ = some store ∧ r2.g_shade_material_ = some shade ∧
      r2.g_tonemap_material_ = some tone ∧
      store.name = "g_store" ∧ shade.name = "g_shade" ∧ tone.name = "g_tone" ∧
      store.pipe_layout = layout ∧ shade.pipe_layout = layout ∧ tone.pipe_layout = layout ∧
      RegisterModel A r model g_store_vertex_setup = Except.ok r' ∧
      r'.pipe_layouts_ = [layout] ∧
      r'.g_store_material_ = some store ∧ r'.g_shade_material_ = some shade ∧
      r'.g_tonemap_material_ = some tone ∧
      r'.vulkan.pipe_layouts = r1.vulkan.pipe_layouts := by
  obtain ⟨rp, hrp⟩ := hI.renderpass
  have e1 := SetupDescriptorSetAndPipeLayout_ok A r hI.pool hI.desc_sets hG
  obtain ⟨r1, hr1, e1⟩ : ∃ r1, r1 = _ ∧ SetupDescriptorSetAndPipeLayout A r = Except.ok r1 :=
    ⟨_, rfl, e1⟩
  have e2 := SetupMaterialPipelines_ok A r1 g_store_vertex_setup rp (r.vulkan.next_handle + 3)
    (by rw [hr1]; rfl) (by rw [hr1]; exact hrp) (by rw [hr1]; exact hI.cam)
  obtain ⟨r2, hr2, e2⟩ : ∃ r2, r2 = _ ∧
      SetupMaterialPipelines A r1 g_store_vertex_setup = Except.ok r2 := ⟨_, rfl, e2⟩
  refine ⟨r1, r2, registeredState A r model g_store_vertex_setup, r.vulkan.next_handle,
    r.vulkan.next_handle + 1, r.vulkan.next_handle + 3,
    storeMaterial A g_store_vertex_setup (r.vulkan.next_handle + 3),
    shadeMaterial A (r.vulkan.next_handle + 3), toneMaterial H (r.vulkan.next_handle + 3),
    e1, ?_, ?_, ?_, ?_, ?_, e2, ?_, ?_, ?_, rfl, rfl, rfl, rfl, rfl, rfl,
    RegisterModel_eq A r model g_store_vertex_setup hI hF hG, rfl, rfl, rfl, rfl, ?_⟩
  all_goals (subst hr2; subst hr1; rfl)

/-- C18 (witness): the hypotheses of
`one_pipeline_layout_shared_by_the_three_pipelines` hold after `Init`; the pipeline
layout created is handle 8 over the set layouts 5 and 6. -/
theorem one_pipeline_layout_shared_by_the_three_pipelines_witness :
    ∃ r r1, Init (scenarioAmbient 1 scenarioConstsA 1) scenarioRenderer = Except.ok r ∧
      SetupDescriptorSetAndPipeLayout (scenarioAmbient 1 scenarioConstsA 1) r = Except.ok r1 ∧
      r1.vulkan.pipe_layouts.length = r.vulkan.pipe_layouts.length + 1 := by
  obtain ⟨r, hr, hI, hE, _⟩ := Init_ok (scenarioAmbient 1 scenarioConstsA 1) 2 (by decide)
  obtain ⟨r1, _, _, _, _, _, _, _, _, h1, h2, _⟩ :=
    one_pipeline_layout_shared_by_the_three_pipelines (scenarioAmbient 1 scenarioConstsA 1) r
      scenarioModel [] hI (scenario_PackFits 1 1 1 r (by decide) (by decide))
      (PoolGrants_of_not_enforcing _ r hE)
  exact ⟨r, r1, hr, h1, by rw [h2]; simp⟩

theorem bufferRanges_descriptorWrites {H : Headers} (A : Ambient H) (set : Handle) :
    bufferRanges (descriptorWrites A set) =
      [(0, mat4GroupSize), (mat4GroupSize, lightsArraySize H A.GetNumLights),
       (u32_add mat4GroupSize (lightsArraySize H A.GetNumLights),
        matConstsArraySize H A.GetMaterialInstancesCount)] := rfl

set_option maxRecDepth 100000 in
/-- C19 (as stated, refuted): with a light source that reports 2 lights through
`GetNumLights` while `TransformLights` returns 1 light, one `RegisterModel` packs
the regions (0, 256), (256, 32), (288, 16) into a 304-byte buffer but binds the
ranges (0, 256), (256, 64), (320, 16): the lights and material-constants ranges do
not coincide with the regions written, and the last one ends past the buffer.  And
with `GetNumLights() = 2^27` and a 32-byte `Light`, the lights range
`SetupDescriptorSets` binds has size 0, not `L * sizeof(Light)`. -/
theorem descriptor_ranges_differ_from_packed_regions :
    (scenarioRegistered (scenarioLights 2 1)).map (fun r =>
      (bufferRanges r.vulkan.descriptor_writes,
       r.main_static_buff_.map (fun b => (b.copies, b.size)))) =
      Except.ok ([(0, 256), (256, 64), (320, 16)],
        some ([(0, 256), (256, 32), (288, 16)], 304)) ∧
    (Init (scenarioLights 134217728 0) scenarioRenderer >>=
      SetupDescriptorSets (scenarioLights 134217728 0)).map (fun r =>
        bufferRanges r.vulkan.descriptor_writes) =
      Except.ok [(0, 256), (256, 0), (256, 16)] ∧
    134217728 * scenarioHeaders.sizeof_Light = 4294967296 :=
  ⟨rfl, rfl, rfl⟩

/-- C19 (amended): whenever `GetNumLights()` equals the number of lights
`TransformLights(view)` returns and the packed size fits 32 bits, the three buffer
ranges `SetupDescriptorSets` binds in a `RegisterModel` call are matrices at offset
0, lights at offset `4*sizeof(mat4)`, material constants at offset
`4*sizeof(mat4)` plus the lights size, with the 32-bit sizes `4*sizeof(mat4)`,
`L*sizeof(Light)` and `M*sizeof(MaterialConstants)` (the products themselves when
these are below `2^32`); each starts at the cumulative size of the prior ones, they
are contiguous and pairwise disjoint, and they coincide with the three regions
`SetupUniformBuffers` wrote in the same call, which fill the buffer exactly.  The hypothesis `PoolGrants` says that
the driver grants the descriptor set the call requests; a refused request stops the
call at `VK_CHECK_RESULT`. -/
theorem descriptor_ranges_coincide_with_packed_regions {H : Headers} (A : Ambient H)
    (r : DeferredRenderer H) (model : Model) (g_store_vertex_setup : VertexSetup)
    (hI : Initialised A r) (hF : PackFits A r)
    (hG : PoolGrants A r)
    (hL : A.GetNumLights = (A.TransformLights r.view_mat_).length) :
    ∃ r' b, RegisterModel A r model g_store_vertex_setup = Except.ok r' ∧
      r'.main_static_buff_ = some b ∧
      bufferRanges (r'.vulkan.descriptor_writes.drop r.vulkan.descriptor_writes.length) =
        [(0, mat4GroupSize),
         (mat4GroupSize, lightsArraySize H A.GetNumLights),
         (mat4GroupSize + lightsArraySize H A.GetNumLights,
          matConstsArraySize H A.GetMaterialInstancesCount)] ∧
      bufferRanges (r'.vulkan.descriptor_writes.drop r.vulkan.descriptor_writes.length) =
        b.copies ∧
      b.size = mat4GroupSize + lightsArraySize H A.GetNumLights +
        matConstsArraySize H A.GetMaterialInstancesCount ∧
      mat4GroupSize = 4 * sizeof_mat4 ∧
      (A.GetNumLights * H.sizeof_Light < UINT32_RANGE →
        lightsArraySize H A.GetNumLights = A.GetNumLights * H.sizeof_Light) ∧
      (A.GetMaterialInstancesCount * H.sizeof_MaterialConstants < UINT32_RANGE →
        matConstsArraySize H A.GetMaterialInstancesCount =
          A.GetMaterialInstancesCount * H.sizeof_MaterialConstants) ∧
      (bufferRanges (r'.vulkan.descriptor_writes.drop
        r.vulkan.descriptor_writes.length)).Chain' Contiguous ∧
      (bufferRanges (r'.vulkan.descriptor_writes.drop
        r.vulkan.descriptor_writes.length)).Pairwise Disjoint2 := by
  have hsum : mat4GroupSize + lightsArraySize H A.GetNumLights < UINT32_RANGE := by
    have := hF.1
    rw [← hL] at this
    omega
  have hadd : u32_add mat4GroupSize (lightsArraySize H A.GetNumLights) =
      mat4GroupSize + lightsArraySize H A.GetNumLights := by
    unfold u32_add
    exact Nat.mod_eq_of_lt hsum
  have hw : bufferRanges ((registeredState A r model g_store_vertex_setup).vulkan.descriptor_writes.drop
      r.vulkan.descriptor_writes.length) =
      [(0, mat4GroupSize),
       (mat4GroupSize, lightsArraySize H A.GetNumLights),
       (mat4GroupSize + lightsArraySize H A.GetNumLights,
        matConstsArraySize H A.GetMaterialInstancesCount)] := by
    show bufferRanges ((r.vulkan.descriptor_writes ++ descriptorWrites A _).drop _) = _
    rw [List.drop_left, bufferRanges_descriptorWrites, hadd]
  refine ⟨_, _, RegisterModel_eq A r model g_store_vertex_setup hI hF hG, rfl, hw, ?_, ?_,
    mat4GroupSize_eq, fun h => lightsArraySize_exact H _ h,
    fun h => matConstsArraySize_exact H _ h, ?_, ?_⟩
  · rw [hw, hL]
  · rw [hL]
  · rw [hw]
    simp [Contiguous]
  · rw [hw]
    simp [Disjoint2]

/-- C19 (witness): the hypotheses of `descriptor_ranges_coincide_with_packed_regions`
hold after `Init` with one light, reported and returned. -/
theorem descriptor_ranges_coincide_with_packed_regions_witness :
    ∃ r r' b, Init (scenarioAmbient 1 scenarioConstsA 1) scenarioRenderer = Except.ok r ∧
      RegisterModel (scenarioAmbient 1 scenarioConstsA 1) r scenarioModel [] = Except.ok r' ∧
      r'.main_static_buff_ = some b ∧
      bufferRanges (r'.vulkan.descriptor_writes.drop r.vulkan.descriptor_writes.length) =
        b.copies := by
  obtain ⟨r, hr, hI, hE, _⟩ := Init_ok (scenarioAmbient 1 scenarioConstsA 1) 2 (by decide)
  obtain ⟨r', b, h, hb, _, hc, _⟩ := descriptor_ranges_coincide_with_packed_regions
    (scenarioAmbient 1 scenarioConstsA 1) r scenarioModel [] hI
    (scenario_PackFits 1 1 1 r (by decide) (by decide))
      (PoolGrants_of_not_enforcing _ r hE)
    (List.length_replicate _ _).symm
  exact ⟨r, r', b, hr, h, hb, hc⟩

theorem heapBindings_counts (H : Headers) :
    ∀ b ∈ heapBindings H, b.descriptorCount = 1 := by
  intro b hb
  simp only [heapBindings, List.mem_append, List.mem_map, List.mem_cons, List.mem_singleton,
    List.not_mem_nil, or_false] at hb
  rcases hb with ((hb | ⟨i, _, hb⟩) | hb | hb | hb) <;> subst hb <;> rfl

/-- C20: after every `RegisterModel` call that returns, with `n` the
material-instance count at that call, `desc_set_layouts_` holds the two layouts the
call created; in the frame-generic one each of the five texture-array bindings
(diffuse 2, ambient 3, specular 4, normal 5, roughness 6) has descriptor count
exactly `n` and every other binding has count 1, and every binding of the heap
layout has count 1; the material-count specialisation constant of the shade
shaders (vertex and fragment) and of the store vertex shader is `n`, the store
fragment shader taking no specialisation constant at all; and the layout named by
`desc_set_layouts_` is never one built by an earlier call: every live layout with
the handle in `desc_set_layouts_[GPASS_GENERIC]` has the bindings built for `n`.
Handles given out stay below `next_handle`, so this holds call after call.  The hypothesis `PoolGrants` says that
the driver grants the descriptor set the call requests; a refused request stops the
call at `VK_CHECK_RESULT`. -/
theorem RegisterModel_builds_layouts_for_the_current_count {H : Headers} (A : Ambient H)
    (r : DeferredRenderer H) (model : Model) (g_store_vertex_setup : VertexSetup)
    (hI : Initialised A r) (hF : PackFits A r)
    (hG : PoolGrants A r) (hfresh : LayoutHandlesGiven r.vulkan) :
    ∃ r' generic heap store shade, RegisterModel A r model g_store_vertex_setup = Except.ok r' ∧
      r'.desc_set_layouts_ = [generic, heap] ∧
      (∃ l ∈ r'.vulkan.desc_set_layouts, l.handle = generic) ∧
      (∃ l ∈ r'.vulkan.desc_set_layouts, l.handle = heap) ∧
      (∀ l ∈ r'.vulkan.desc_set_layouts, l.handle = generic →
        l.bindings = genericBindings (SCAST_U32 A.GetMaterialInstancesCount)) ∧
      (∀ l ∈ r'.vulkan.desc_set_layouts, l.handle = heap → l.bindings = heapBindings H) ∧
      (genericBindings (SCAST_U32 A.GetMaterialInstancesCount)).map
          (fun b => (b.binding, b.descriptorCount)) =
        [(kMainStaticBuffBindingPos, 1), (kLightsArrayBindingPos, 1),
         (kMatConstsArrayBindingPos, 1), (kDepthBuffBindingPos, 1),
         (kDiffuseTexturesArrayBindingPos, SCAST_U32 A.GetMaterialInstancesCount),
         (kAmbientTexturesArrayBindingPos, SCAST_U32 A.GetMaterialInstancesCount),
         (kSpecularTexturesArrayBindingPos, SCAST_U32 A.GetMaterialInstancesCount),
         (kNormalTexturesArrayBindingPos, SCAST_U32 A.GetMaterialInstancesCount),
         (kRoughnessTexturesArrayBindingPos, SCAST_U32 A.GetMaterialInstancesCount),
         (kAccumulationBufferBindingPos, 1), (10, 1), (11, 1), (12, 1)] ∧
      (∀ b ∈ heapBindings H, b.descriptorCount = 1) ∧
      r'.g_shade_material_ = some shade ∧ r'.g_store_material_ = some store ∧
      shade.shaders.map (fun s => (s.file, s.specialisation.lookup kNumMaterialsSpecConstPos)) =
        [("g_shade.vert", some (SCAST_U32 A.GetMaterialInstancesCount)),
         ("g_shade.frag", some (SCAST_U32 A.GetMaterialInstancesCount))] ∧
      store.shaders.map (fun s => (s.file, s.specialisation.lookup kNumMaterialsSpecConstPos)) =
        [("g_store.vert", some (SCAST_U32 A.GetMaterialInstancesCount)),
         ("g_store.frag", none)] ∧
      LayoutHandlesGiven r'.vulkan := by
  have hmem : ∀ l ∈ (registeredState A r model g_store_vertex_setup).vulkan.desc_set_layouts,
      l ∈ r.vulkan.desc_set_layouts ∨
      l = ⟨r.vulkan.next_handle, genericBindings (SCAST_U32 A.GetMaterialInstancesCount)⟩ ∨
      l = ⟨r.vulkan.next_handle + 1, heapBindings H⟩ := by
    intro l hl
    have hl' : l ∈ r.vulkan.desc_set_layouts ++
        [⟨r.vulkan.next_handle, genericBindings (SCAST_U32 A.GetMaterialInstancesCount)⟩,
         ⟨r.vulkan.next_handle + 1, heapBindings H⟩] := hl
    simpa using hl'
  have hin1 : (⟨r.vulkan.next_handle, genericBindings (SCAST_U32 A.GetMaterialInstancesCount)⟩ :
      DescriptorSetLayoutObject) ∈
      (registeredState A r model g_store_vertex_setup).vulkan.desc_set_layouts := by
    show _ ∈ r.vulkan.desc_set_layouts ++ _
    simp
  have hin2 : (⟨r.vulkan.next_handle + 1, heapBindings H⟩ : DescriptorSetLayoutObject) ∈
      (registeredState A r model g_store_vertex_setup).vulkan.desc_set_layouts := by
    show _ ∈ r.vulkan.desc_set_layouts ++ _
    simp
  refine ⟨_, r.vulkan.next_handle, r.vulkan.next_handle + 1, _, _,
    RegisterModel_eq A r model g_store_vertex_setup hI hF hG, rfl, ⟨_, hin1, rfl⟩, ⟨_, hin2, rfl⟩,
    ?_, ?_, rfl, heapBindings_counts H, rfl, rfl, rfl, rfl, ?_⟩
  · intro l hl hh
    rcases hmem l hl with h | h | h
    · exact absurd hh (Nat.ne_of_lt (hfresh l h))
    · rw [h]
    · rw [h] at hh
      exact absurd hh (Nat.succ_ne_self _)
  · intro l hl hh
    rcases hmem l hl with h | h | h
    · exact absurd hh (Nat.ne_of_lt (Nat.lt_succ_of_lt (hfresh l h)))
    · rw [h] at hh
      exact absurd hh.symm (Nat.succ_ne_self _)
    · rw [h]
  · intro l hl
    show l.handle < r.vulkan.next_handle + 4
    rcases hmem l hl with h | h | h
    · exact Nat.lt_of_lt_of_le (hfresh l h) (Nat.le_add_right _ 4)
    · rw [h]; exact Nat.lt_add_of_pos_right (by decide)
    · rw [h]; exact Nat.add_lt_add_left (by decide) _

/-- C20 (witness): the hypotheses of
`RegisterModel_builds_layouts_for_the_current_count` hold after `Init`, when the
device has no descriptor-set layout yet, with 3 material instances. -/
theorem RegisterModel_builds_layouts_for_the_current_count_witness :
    ∃ r r', Init (scenarioAmbient 1 (scenarioConsts 3) 3) scenarioRenderer = Except.ok r ∧
      RegisterModel (scenarioAmbient 1 (scenarioConsts 3) 3) r scenarioModel [] = Except.ok r' ∧
      LayoutHandlesGiven r'.vulkan := by
  obtain ⟨r, hr, hI, hE, _, _, _, _, hd, _⟩ :=
    Init_ok (scenarioAmbient 1 (scenarioConsts 3) 3) 2 (by decide)
  obtain ⟨r', _, _, _, _, h, _, _, _, _, _, _, _, _, _, _, _, hg⟩ :=
    RegisterModel_builds_layouts_for_the_current_count
      (scenarioAmbient 1 (scenarioConsts 3) 3) r scenarioModel [] hI
      (scenario_PackFits 1 3 3 r (by decide) (by decide))
      (PoolGrants_of_not_enforcing _ r hE)
      (by intro l hl; rw [hd] at hl; cases hl)
  exact ⟨r, r', hr, h, hg⟩

/-! ## Shutdown and reload before any registration -/

/-- The first loop of `Shutdown` reads `pipe_layouts_[0]`: on an empty
`pipe_layouts_` that is an access out of range. -/
theorem Shutdown_out_of_range {H : Headers} (r : DeferredRenderer H)
    (h : r.pipe_layouts_ = []) : Shutdown r = Except.error Fault.out_of_bounds := by
  have hr1 : List.range PipeLayoutTypes.num_items = [0] := rfl
  by_cases h1 : (r.desc_pool_ != VK_NULL_HANDLE) = true <;>
  by_cases h2 : (r.aniso_sampler_ != VK_NULL_HANDLE) = true <;>
  by_cases h3 : (r.nearest_sampler_ != VK_NULL_HANDLE) = true <;>
  simp only [Shutdown, hr1, destroyEach, index, h, List.getElem?_nil, bind, Except.bind, h1, h2,
    h3, if_true, if_false, Bool.false_eq_true]

/-- For every collaborator state and device state, `Shutdown` directly after `Init`
accesses `pipe_layouts_` out of range. -/
theorem Shutdown_after_Init_out_of_range {H : Headers} (A : Ambient H) (v : VulkanState) :
    (Init A (DeferredRenderer.create H v) >>= Shutdown) = Except.error Fault.out_of_bounds := by
  obtain ⟨r, hr, _, _, _, _, _, hpl, _⟩ := Init_framebuffers A v
  rw [hr]
  exact Shutdown_out_of_range r hpl

/-- A second `Shutdown`, after one that returned, accesses `pipe_layouts_` out of
range. -/
theorem Shutdown_twice_out_of_range {H : Headers} (r : DeferredRenderer H)
    (pipe_layout generic heap : Handle) (pl_rest dl_rest : List Handle)
    (hpl : r.pipe_layouts_ = pipe_layout :: pl_rest)
    (hdl : r.desc_set_layouts_ = generic :: heap :: dl_rest) :
    (Shutdown r >>= Shutdown) = Except.error Fault.out_of_bounds := by
  obtain ⟨r', h, _, _, _, _, _, _, hpl', _⟩ :=
    Shutdown_ok r pipe_layout generic heap pl_rest dl_rest hpl hdl
  rw [h]
  exact Shutdown_out_of_range r' hpl'

set_option maxRecDepth 100000 in
/-- C15 (the code at the failing input): after `Init` alone the descriptor pool (3)
and the two samplers (1 and 2) exist and `pipe_layouts_` and `desc_set_layouts_`
are empty.  `Shutdown` called then does not run through the sequence of releases:
its loop over the pipeline layouts reads `pipe_layouts_[0]` on the empty vector, an
access out of range, so the call has no defined effect from there on and leaves no
state in which the vectors are empty and the handles null.  After `Init` and one
`RegisterModel` the same call returns, with all members reset. -/
theorem Shutdown_after_Init_alone_does_not_complete_the_releases :
    (Init (scenarioAmbient 1 scenarioConstsA 1) scenarioRenderer).map
        (fun r => (r.desc_pool_, r.aniso_sampler_, r.nearest_sampler_, r.vulkan.samplers,
          r.vulkan.desc_pools.map (fun p => p.handle), r.pipe_layouts_,
          r.desc_set_layouts_)) =
      Except.ok (3, 1, 2, [1, 2], [3], [], []) ∧
    (Init (scenarioAmbient 1 scenarioConstsA 1) scenarioRenderer >>= Shutdown).map
        (fun r => (r.vulkan.events, r.desc_pool_, r.aniso_sampler_, r.nearest_sampler_,
          r.framebuffers_.length, r.pipe_layouts_, r.desc_set_layouts_)) =
      Except.error Fault.out_of_bounds ∧
    faultOf (destroyEach [] vkDestroyPipelineLayout (List.range PipeLayoutTypes.num_items)
      (VulkanState.boot 2)) = some Fault.out_of_bounds ∧
    (scenarioRegistered (scenarioAmbient 1 scenarioConstsA 1) >>= Shutdown).map
        (fun r => (r.desc_pool_, r.aniso_sampler_, r.nearest_sampler_,
          r.framebuffers_.length, r.pipe_layouts_, r.desc_set_layouts_)) =
      Except.ok (VK_NULL_HANDLE, VK_NULL_HANDLE, VK_NULL_HANDLE, 0, [], []) :=
  ⟨rfl, rfl, rfl, rfl⟩

set_option maxRecDepth 100000 in
/-- C21 (the code at the failing input): after `Init` alone, with no registered
model, `pipe_layouts_` and `desc_set_layouts_` are empty, while the loops of
`Shutdown` run over `PipeLayoutTypes::num_items = 1` and
`DescSetLayoutTypes::num_items = 2` indices; `Shutdown` then reads `pipe_layouts_[0]`
out of range.  Likewise after a previous `Shutdown`: the first one, after a
registration, returns and leaves both vectors empty, and the second one reads out of
range. -/
theorem Shutdown_after_Init_alone_reads_out_of_range :
    (Init (scenarioAmbient 1 scenarioConstsA 1) scenarioRenderer).map
        (fun r => (r.pipe_layouts_, r.desc_set_layouts_, r.registered_models_)) =
      Except.ok ([], [], []) ∧
    PipeLayoutTypes.num_items = 1 ∧ DescSetLayoutTypes.num_items = 2 ∧
    faultOf (Init (scenarioAmbient 1 scenarioConstsA 1) scenarioRenderer >>= Shutdown) =
      some Fault.out_of_bounds ∧
    (scenarioRegistered (scenarioAmbient 1 scenarioConstsA 1) >>= Shutdown).map
        (fun r => (r.pipe_layouts_, r.desc_set_layouts_)) = Except.ok ([], []) ∧
    faultOf (scenarioRegistered (scenarioAmbient 1 scenarioConstsA 1) >>= Shutdown >>=
      Shutdown) = some Fault.out_of_bounds :=
  ⟨rfl, rfl, rfl, rfl, rfl, rfl⟩

/-- With at least one swapchain image, `SetupCommandBuffers` on a renderer that has
its camera, render pass, framebuffers and command buffers but no `g_store` material
dereferences a null pointer. -/
theorem SetupCommandBuffers_without_materials {H : Headers} (A : Ambient H)
    (r : DeferredRenderer H) (rp : Renderpass)
    (hN : 0 < SCAST_U32 A.GetNumImages)
    (hcmd : SCAST_U32 A.GetNumImages ≤ r.vulkan.graphics_queue_cmd_buffers.length)
    (hrp : r.renderpass_ = some rp)
    (hfb : SCAST_U32 A.GetNumImages ≤ r.framebuffers_.length)
    (hcam : r.cam_ = true) (hstore : r.g_store_material_ = none) :
    SetupCommandBuffers A r = Except.error Fault.null_dereference := by
  obtain ⟨n, hn⟩ : ∃ n, SCAST_U32 A.GetNumImages = n + 1 := ⟨_, (Nat.succ_pred_eq_of_pos hN).symm⟩
  have h0 : recordCommandBuffer A r 0 = Except.error Fault.null_dereference := by
    have h1 : r.vulkan.graphics_queue_cmd_buffers[0]? =
        some (r.vulkan.graphics_queue_cmd_buffers[0]) :=
      List.getElem?_eq_getElem (lt_of_lt_of_le hN hcmd)
    have h2 : r.framebuffers_[0]? = some (r.framebuffers_[0]) :=
      List.getElem?_eq_getElem (lt_of_lt_of_le hN hfb)
    simp [recordCommandBuffer, index, deref, useCamera, h1, h2, hrp, hcam, hstore, bind,
      Except.bind]
  have hrange : List.range (n + 1) = 0 :: (List.range n).map Nat.succ := by
    rw [List.range_succ_eq_map]
  simp only [SetupCommandBuffers, hn, hrange, forEach, h0, bind, Except.bind]

set_option maxRecDepth 100000 in
/-- C25 (the code at the failing input): after `Init` alone the three pass materials
and the fullscreen quad are null; `ReloadAllShaders` called then, before any
`RegisterModel`, runs `SetupCommandBuffers`, which dereferences the null
`g_store_material_`.  After one `RegisterModel` the same call returns. -/
theorem ReloadAllShaders_before_RegisterModel_dereferences_null :
    (Init (scenarioAmbient 1 scenarioConstsA 1) scenarioRenderer).map
        (fun r => (r.g_store_material_.isSome, r.g_shade_material_.isSome,
          r.g_tonemap_material_.isSome, r.fullscreenquad_.isSome)) =
      Except.ok (false, false, false, false) ∧
    faultOf (Init (scenarioAmbient 1 scenarioConstsA 1) scenarioRenderer >>=
      ReloadAllShaders (scenarioAmbient 1 scenarioConstsA 1)) = some Fault.null_dereference ∧
    faultOf (scenarioRegistered (scenarioAmbient 1 scenarioConstsA 1) >>=
      ReloadAllShaders (scenarioAmbient 1 scenarioConstsA 1)) = none :=
  ⟨rfl, rfl, rfl⟩

/-- The members `Init` leaves null on a freshly constructed renderer: the three pass
materials and the fullscreen quad are created by `RegisterModel` only. -/
theorem Init_leaves_materials_null {H : Headers} (A : Ambient H) (v : VulkanState) :
    ∃ r, Init A (DeferredRenderer.create H v) = Except.ok r ∧
      r.g_store_material_ = none ∧ r.g_shade_material_ = none ∧
      r.g_tonemap_material_ = none ∧ r.fullscreenquad_ = none ∧
      r.vulkan.graphics_queue_cmd_buffers = v.graphics_queue_cmd_buffers := by
  simp only [Init]
  rw [UpdatePVMatrices_ok A _ rfl]
  simp only [bind, Except.bind]
  rw [SetupFrameBuffers_ok A _ (SetupRenderPass A.GetSurfaceFormat A.depth_format)]
  any_goals rfl
  exact ⟨_, rfl, rfl, rfl, rfl, rfl, rfl⟩

/-- For every collaborator state with at least one swapchain image,
`ReloadAllShaders` directly after `Init` dereferences the null `g_store_material_`. -/
theorem ReloadAllShaders_after_Init_dereferences_null {H : Headers} (A : Ambient H) (n : Nat)
    (hN : 0 < SCAST_U32 A.GetNumImages) (hn : SCAST_U32 A.GetNumImages ≤ n) :
    (Init A (DeferredRenderer.create H (VulkanState.boot n)) >>= ReloadAllShaders A) =
      Except.error Fault.null_dereference := by
  obtain ⟨r, hr, hI, hE, _⟩ := Init_ok A n hn
  obtain ⟨r2, hr2, hstore, _⟩ := Init_leaves_materials_null A (VulkanState.boot n)
  have heq : r2 = r := by
    rw [hr] at hr2
    exact (Except.ok.inj hr2).symm
  subst heq
  obtain ⟨rp, hrp⟩ := hI.renderpass
  rw [hr]
  exact SetupCommandBuffers_without_materials A r2 rp hN hI.cmd_buffers hrp hI.framebuffers
    hI.cam hstore

/-! ## Consistency of bindings, attachments, subpasses and set indices -/

theorem declaredBindings_genericBindings (n : Nat) :
    declaredBindings (genericBindings n) =
      [(0, VkDescriptorType.VK_DESCRIPTOR_TYPE_STORAGE_BUFFER),
       (8, VkDescriptorType.VK_DESCRIPTOR_TYPE_STORAGE_BUFFER),
       (9, VkDescriptorType.VK_DESCRIPTOR_TYPE_STORAGE_BUFFER),
       (1, VkDescriptorType.VK_DESCRIPTOR_TYPE_COMBINED_IMAGE_SAMPLER),
       (2, VkDescriptorType.VK_DESCRIPTOR_TYPE_COMBINED_IMAGE_SAMPLER),
       (3, VkDescriptorType.VK_DESCRIPTOR_TYPE_COMBINED_IMAGE_SAMPLER),
       (4, VkDescriptorType.VK_DESCRIPTOR_TYPE_COMBINED_IMAGE_SAMPLER),
       (5, VkDescriptorType.VK_DESCRIPTOR_TYPE_COMBINED_IMAGE_SAMPLER),
       (6, VkDescriptorType.VK_DESCRIPTOR_TYPE_COMBINED_IMAGE_SAMPLER),
       (7, VkDescriptorType.VK_DESCRIPTOR_TYPE_COMBINED_IMAGE_SAMPLER),
       (10, VkDescriptorType.VK_DESCRIPTOR_TYPE_COMBINED_IMAGE_SAMPLER),
       (11, VkDescriptorType.VK_DESCRIPTOR_TYPE_COMBINED_IMAGE_SAMPLER),
       (12, VkDescriptorType.VK_DESCRIPTOR_TYPE_COMBINED_IMAGE_SAMPLER)] := rfl

theorem writtenBindings_descriptorWrites {H : Headers} (A : Ambient H) (set : Handle) :
    writtenBindings (descriptorWrites A set) =
      [(0, VkDescriptorType.VK_DESCRIPTOR_TYPE_STORAGE_BUFFER),
       (8, VkDescriptorType.VK_DESCRIPTOR_TYPE_STORAGE_BUFFER),
       (9, VkDescriptorType.VK_DESCRIPTOR_TYPE_STORAGE_BUFFER),
       (1, VkDescriptorType.VK_DESCRIPTOR_TYPE_COMBINED_IMAGE_SAMPLER),
       (2, VkDescriptorType.VK_DESCRIPTOR_TYPE_COMBINED_IMAGE_SAMPLER),
       (3, VkDescriptorType.VK_DESCRIPTOR_TYPE_COMBINED_IMAGE_SAMPLER),
       (4, VkDescriptorType.VK_DESCRIPTOR_TYPE_COMBINED_IMAGE_SAMPLER),
       (6, VkDescriptorType.VK_DESCRIPTOR_TYPE_COMBINED_IMAGE_SAMPLER),
       (5, VkDescriptorType.VK_DESCRIPTOR_TYPE_COMBINED_IMAGE_SAMPLER),
       (7, VkDescriptorType.VK_DESCRIPTOR_TYPE_COMBINED_IMAGE_SAMPLER),
       (10, VkDescriptorType.VK_DESCRIPTOR_TYPE_COMBINED_IMAGE_SAMPLER),
       (11, VkDescriptorType.VK_DESCRIPTOR_TYPE_COMBINED_IMAGE_SAMPLER),
       (12, VkDescriptorType.VK_DESCRIPTOR_TYPE_COMBINED_IMAGE_SAMPLER)] := rfl

theorem descriptorWrites_dstSet {H : Headers} (A : Ambient H) (set : Handle) :
    ∀ w ∈ descriptorWrites A set, w.dstSet = set := by
  intro w hw
  simp only [descriptorWrites, List.mem_cons, List.mem_singleton, List.not_mem_nil,
    or_false] at hw
  rcases hw with h | h | h | h | h | h | h | h | h | h | h | h | h <;> rw [h]

theorem registeredState_poolSets {H : Headers} (A : Ambient H) (r : DeferredRenderer H)
    (model : Model) (g_store_vertex_setup : VertexSetup)
    (hpool : r.vulkan.desc_pools.any (fun p => p.handle == r.desc_pool_) = true) :
    (r.vulkan.next_handle + 2, r.vulkan.next_handle) ∈
      (registeredState A r model g_store_vertex_setup).poolSets := by
  obtain ⟨p, hp, hh⟩ := List.any_eq_true.mp hpool
  show _ ∈ (((r.vulkan.desc_pools.map _).filter _).map _).flatten
  rw [List.mem_flatten]
  refine ⟨p.allocatedSets ++ [(r.vulkan.next_handle + 2, r.vulkan.next_handle)], ?_, by simp⟩
  rw [List.mem_map]
  refine ⟨{ p with allocatedSets := p.allocatedSets ++
    [(r.vulkan.next_handle + 2, r.vulkan.next_handle)] }, ?_, rfl⟩
  rw [List.mem_filter]
  refine ⟨?_, hh⟩
  rw [List.mem_map]
  exact ⟨p, hp, by simp only [hh, if_true]⟩

/-- C22: the binding numbers `SetupDescriptorSetAndPipeLayout` declares for the
frame-generic layout are pairwise distinct and are exactly 0 to 12, thirteen
bindings: storage buffers at 0, 8 and 9, combined image samplers at 1 to 7 and 10 to
12.  In the same `RegisterModel` call `SetupDescriptorSets` issues thirteen writes,
all to the descriptor set allocated with that layout, to pairwise distinct binding
numbers; the `(binding, descriptor type)` pairs written are a rearrangement of the
pairs declared (roughness, binding 6, is written before normal, binding 5), so each
declared binding is written exactly once with its declared type and no undeclared
binding is written.  The hypothesis `PoolGrants` says that
the driver grants the descriptor set the call requests; a refused request stops the
call at `VK_CHECK_RESULT`. -/
theorem frame_generic_bindings_declared_and_written_agree {H : Headers} (A : Ambient H)
    (r : DeferredRenderer H) (model : Model) (g_store_vertex_setup : VertexSetup)
    (hI : Initialised A r) (hF : PackFits A r)
    (hG : PoolGrants A r) :
    ∃ r' generic set, RegisterModel A r model g_store_vertex_setup = Except.ok r' ∧
      r'.desc_set_layouts_[DescSetLayoutTypes.GPASS_GENERIC]? = some generic ∧
      r'.desc_sets_[SetTypes.GPASS_GENERIC]? = some set ∧
      (⟨generic, genericBindings (SCAST_U32 A.GetMaterialInstancesCount)⟩ :
        DescriptorSetLayoutObject) ∈ r'.vulkan.desc_set_layouts ∧
      (set, generic) ∈ r'.poolSets ∧
      (genericBindings (SCAST_U32 A.GetMaterialInstancesCount)).length = 13 ∧
      ((genericBindings (SCAST_U32 A.GetMaterialInstancesCount)).map
        (fun b => b.binding)).Nodup ∧
      (∀ k, k ∈ (genericBindings (SCAST_U32 A.GetMaterialInstancesCount)).map
        (fun b => b.binding) ↔ k < 13) ∧
      (∀ b ∈ genericBindings (SCAST_U32 A.GetMaterialInstancesCount),
        b.descriptorType =
          if b.binding = 0 ∨ b.binding = 8 ∨ b.binding = 9 then
            VkDescriptorType.VK_DESCRIPTOR_TYPE_STORAGE_BUFFER
          else VkDescriptorType.VK_DESCRIPTOR_TYPE_COMBINED_IMAGE_SAMPLER) ∧
      (r'.vulkan.descriptor_writes.drop r.vulkan.descriptor_writes.length).length = 13 ∧
      (∀ w ∈ r'.vulkan.descriptor_writes.drop r.vulkan.descriptor_writes.length,
        w.dstSet = set) ∧
      ((r'.vulkan.descriptor_writes.drop r.vulkan.descriptor_writes.length).map
        (fun w => w.dstBinding)).Nodup ∧
      (writtenBindings
        (r'.vulkan.descriptor_writes.drop r.vulkan.descriptor_writes.length)).Perm
        (declaredBindings (genericBindings (SCAST_U32 A.GetMaterialInstancesCount))) := by
  have hw : (registeredState A r model g_store_vertex_setup).vulkan.descriptor_writes.drop
      r.vulkan.descriptor_writes.length = descriptorWrites A (r.vulkan.next_handle + 2) := by
    show (r.vulkan.descriptor_writes ++ descriptorWrites A _).drop _ = _
    rw [List.drop_left]
  have hb : (genericBindings (SCAST_U32 A.GetMaterialInstancesCount)).map (fun b => b.binding) =
      [0, 8, 9, 1, 2, 3, 4, 5, 6, 7, 10, 11, 12] := rfl
  have hd : (descriptorWrites A (r.vulkan.next_handle + 2)).map (fun w => w.dstBinding) =
      [0, 8, 9, 1, 2, 3, 4, 6, 5, 7, 10, 11, 12] := rfl
  refine ⟨_, r.vulkan.next_handle, r.vulkan.next_handle + 2,
    RegisterModel_eq A r model g_store_vertex_setup hI hF hG, rfl, rfl, ?_,
    registeredState_poolSets A r model g_store_vertex_setup hI.pool, rfl, ?_, ?_, ?_, ?_, ?_, ?_,
    ?_⟩
  · show _ ∈ r.vulkan.desc_set_layouts ++ _
    simp
  · rw [hb]; decide
  · intro k
    rw [hb]
    constructor
    · intro hk
      simp only [List.mem_cons, List.mem_singleton, List.not_mem_nil, or_false] at hk
      omega
    · intro hk
      simp only [List.mem_cons, List.mem_singleton, List.not_mem_nil, or_false]
      omega
  · intro b hbm
    have hmem := List.mem_map_of_mem (fun b => (b.binding, b.descriptorType)) hbm
    change (b.binding, b.descriptorType) ∈ declaredBindings _ at hmem
    rw [declaredBindings_genericBindings] at hmem
    simp only [List.mem_cons, List.mem_singleton, List.not_mem_nil, or_false,
      Prod.mk.injEq] at hmem
    rcases hmem with h | h | h | h | h | h | h | h | h | h | h | h | h <;>
      simp [h.1, h.2]
  · rw [hw]; rfl
  · rw [hw]; exact descriptorWrites_dstSet A _
  · rw [hw, hd]; decide
  · rw [hw, writtenBindings_descriptorWrites, declaredBindings_genericBindings]
    decide

/-- C22 (witness): the hypotheses of
`frame_generic_bindings_declared_and_written_agree` hold after `Init`. -/
theorem frame_generic_bindings_declared_and_written_agree_witness :
    ∃ r r', Init (scenarioAmbient 1 scenarioConstsA 1) scenarioRenderer = Except.ok r ∧
      RegisterModel (scenarioAmbient 1 scenarioConstsA 1) r scenarioModel [] = Except.ok r' ∧
      (r'.vulkan.descriptor_writes.drop r.vulkan.descriptor_writes.length).length = 13 := by
  obtain ⟨r, hr, hI, hE, _⟩ := Init_ok (scenarioAmbient 1 scenarioConstsA 1) 2 (by decide)
  obtain ⟨r', _, _, h, _, _, _, _, _, _, _, _, hl, _⟩ :=
    frame_generic_bindings_declared_and_written_agree
      (scenarioAmbient 1 scenarioConstsA 1) r scenarioModel [] hI
      (scenario_PackFits 1 1 1 r (by decide) (by decide))
      (PoolGrants_of_not_enforcing _ r hE)
  exact ⟨r, r', hr, h, hl⟩

/-- C23: framebuffer and render pass agree attachment by attachment.  After `Init`,
for every swapchain image `i`, framebuffer `i` is built against the render pass of
`SetupRenderPass` and has as many attachments as that render pass declares, six; its
attachment 0 is swapchain image `i` and its attachments 1 to 5 are the textures
created as `depth`, `diffuse_albedo`, `specular_albedo`, `normals` and
`accumulation`, in the order of the render-pass attachment ids 1 to 5 (depth
reference of the store subpass, its three colour references in `GBtypes` order, the
colour reference of the lighting subpass), attachment 0 being the one the
tonemapping subpass writes and the pass presents.  Each of the textures 1 to 5 was
created with the very format the render-pass attachment of the same id declares, and
attachment 0 is declared with the swapchain's surface format, which is the format
of the swapchain images. -/
theorem framebuffer_attachments_match_render_pass_attachments {H : Headers} (A : Ambient H)
    (v : VulkanState) (image_format : Nat → VkFormat)
    (himg : ∀ i, image_format i = A.GetSurfaceFormat) :
    ∃ r rp, Init A (DeferredRenderer.create H v) = Except.ok r ∧
      r.renderpass_ = some rp ∧
      rp = SetupRenderPass A.GetSurfaceFormat A.depth_format ∧
      rp.attachments.map (fun a => a.format) =
        [A.GetSurfaceFormat, A.depth_format, kDiffuseAlbedoFormat, kSpecularAlbedoFormat,
         kNormalFormat, kAccumulationFormat] ∧
      rp.attachments.map (fun a => a.final_layout) =
        [VK_IMAGE_LAYOUT_PRESENT_SRC_KHR, VK_IMAGE_LAYOUT_DEPTH_STENCIL_ATTACHMENT_OPTIMAL,
         VK_IMAGE_LAYOUT_SHADER_READ_ONLY_OPTIMAL, VK_IMAGE_LAYOUT_SHADER_READ_ONLY_OPTIMAL,
         VK_IMAGE_LAYOUT_SHADER_READ_ONLY_OPTIMAL, VK_IMAGE_LAYOUT_SHADER_READ_ONLY_OPTIMAL] ∧
      rp.subpasses.map (fun s => (s.name, s.colour_refs.map (fun c => c.attachment),
          s.depth_ref.map (fun d => d.attachment))) =
        [("g_store", [2, 3, 4], some 1), ("lighting", [5], none),
         ("tonemapping", [0], none)] ∧
      r.g_buffer_.map (fun t => t.map (fun x => x.name)) =
        [some "diffuse_albedo", some "specular_albedo", some "normals"] ∧
      r.framebuffers_.length = SCAST_U32 A.GetNumImages ∧
      ∀ i, i < SCAST_U32 A.GetNumImages →
        ∃ f, r.framebuffers_[i]? = some f ∧
          f.renderpass = rp ∧
          f.attachments.length = rp.attachments.length ∧
          f.attachments[0]? = some (FramebufferImage.swapchain_image i) ∧
          f.attachments.map FramebufferImage.role =
            ["swapchain", "depth", "diffuse_albedo", "specular_albedo", "normals",
             "accumulation"] ∧
          (∀ g : Nat → VkFormat, (f.attachments.drop 1).map (FramebufferImage.format g) =
            (rp.attachments.drop 1).map (fun a => a.format)) ∧
          f.attachments.map (FramebufferImage.format image_format) =
            rp.attachments.map (fun a => a.format) ∧
          (∀ k, k < 6 →
            (f.attachments[k]?).map (FramebufferImage.format image_format) =
              (rp.attachments[k]?).map (fun a => a.format)) := by
  obtain ⟨r, h0, hrp, hd, hg, ha, hf, _⟩ := Init_framebuffers A v
  have hfmt : (SetupRenderPass A.GetSurfaceFormat A.depth_format).attachments.map
      (fun a => a.format) =
      [A.GetSurfaceFormat, A.depth_format, kDiffuseAlbedoFormat, kSpecularAlbedoFormat,
       kNormalFormat, kAccumulationFormat] := rfl
  refine ⟨r, _, h0, hrp, rfl, hfmt, rfl, ?_, ?_, ?_, ?_⟩
  · rw [SetupRenderPass_subpasses]; rfl
  · rw [hg]; rfl
  · rw [hf]; simp
  · intro i hi
    refine ⟨{ name := "from_swapchain_%d", name_index := i, width := A.viewport_width,
              height := A.viewport_height, layers := 1,
              renderpass := SetupRenderPass A.GetSurfaceFormat A.depth_format,
              attachments :=
                [FramebufferImage.swapchain_image i,
                 FramebufferImage.texture ⟨"depth", A.depth_format, true, false, true⟩,
                 FramebufferImage.texture
                   ⟨"diffuse_albedo", kDiffuseAlbedoFormat, true, true, false⟩,
                 FramebufferImage.texture
                   ⟨"specular_albedo", kSpecularAlbedoFormat, true, true, false⟩,
                 FramebufferImage.texture ⟨"normals", kNormalFormat, true, true, false⟩,
                 FramebufferImage.texture
                   ⟨"accumulation", kAccumulationFormat, true, true, false⟩] }, ?_, rfl, rfl,
      rfl, rfl, fun _ => rfl, ?_, ?_⟩
    · rw [hf, List.getElem?_map, List.getElem?_range hi]
      rfl
    · rw [hfmt]
      show [image_format i, A.depth_format, kDiffuseAlbedoFormat, kSpecularAlbedoFormat,
        kNormalFormat, kAccumulationFormat] = _
      rw [himg i]
    · intro k hk
      have hall : ([FramebufferImage.swapchain_image i,
          FramebufferImage.texture ⟨"depth", A.depth_format, true, false, true⟩,
          FramebufferImage.texture ⟨"diffuse_albedo", kDiffuseAlbedoFormat, true, true, false⟩,
          FramebufferImage.texture
            ⟨"specular_albedo", kSpecularAlbedoFormat, true, true, false⟩,
          FramebufferImage.texture ⟨"normals", kNormalFormat, true, true, false⟩,
          FramebufferImage.texture
            ⟨"accumulation", kAccumulationFormat, true, true, false⟩].map
            (FramebufferImage.format image_format)) =
          (SetupRenderPass A.GetSurfaceFormat A.depth_format).attachments.map
            (fun a => a.format) := by
        rw [hfmt]
        show [image_format i, A.depth_format, kDiffuseAlbedoFormat, kSpecularAlbedoFormat,
        kNormalFormat, kAccumulationFormat] = _
        rw [himg i]
      have := congrArg (fun l => l[k]?) hall
      simpa only [List.getElem?_map] using this

/-- C23 (witness): with the swapchain of the scenarios, whose images have the
surface format `kColourBufferFormat`, the hypothesis of
`framebuffer_attachments_match_render_pass_attachments` holds and `Init` leaves two
framebuffers. -/
theorem framebuffer_attachments_match_render_pass_attachments_witness :
    ∃ r rp, Init (scenarioAmbient 0 [] 0) scenarioRenderer = Except.ok r ∧
      r.renderpass_ = some rp ∧ r.framebuffers_.length = 2 := by
  obtain ⟨r, rp, h, hrp, _, _, _, _, _, hl, _⟩ :=
    framebuffer_attachments_match_render_pass_attachments (scenarioAmbient 0 [] 0)
      (VulkanState.boot 2) (fun _ => kColourBufferFormat) (fun _ => rfl)
  exact ⟨r, rp, h, hrp, hl⟩

theorem pipelineBinds_recordModels (layout : Handle) (models : List Model) (rest : List Cmd)
    (n : Nat) :
    pipelineBinds (recordModels layout models ++ rest) n = pipelineBinds rest n := by
  induction models with
  | nil => rfl
  | cons m ms ih =>
    show pipelineBinds (Cmd.BindVertexBuffer m :: Cmd.BindIndexBuffer m ::
      Cmd.RenderMeshesByMaterial m layout DescSetLayoutTypes.HEAP ::
        (recordModels layout ms ++ rest)) n = _
    simp only [pipelineBinds, ih]

theorem pipelineBinds_recordedTrace (i width height : Nat) (store shade tone : Material)
    (quad : Model) (layout : Handle) (sets : List Handle) (models : List Model) :
    pipelineBinds (recordedTrace i width height store shade tone quad layout sets models) 0 =
      [(store, 0), (shade, 1), (tone, 2)] := by
  show pipelineBinds (Cmd.BeginCommandBuffer :: Cmd.BeginRenderpass i width height clearValues ::
    Cmd.BindPipeline store :: Cmd.BindDescriptorSets layout 0 sets ::
      (recordModels layout models ++
        [Cmd.NextSubpass, Cmd.BindPipeline shade,
         Cmd.BindVertexBuffer quad, Cmd.BindIndexBuffer quad, Cmd.DrawIndexed 6 1 0 0 0,
         Cmd.NextSubpass, Cmd.BindPipeline tone, Cmd.DrawIndexed 6 1 0 0 0,
         Cmd.EndRenderpass, Cmd.EndCommandBuffer])) 0 = _
  simp only [pipelineBinds, pipelineBinds_recordModels]

theorem boundSets_recordModels (layout : Handle) (models : List Model) :
    boundSets (recordModels layout models) = [] := by
  induction models with
  | nil => rfl
  | cons m rest ih =>
    have h : boundSets (recordModels layout (m :: rest)) =
        boundSets (recordModels layout rest) := rfl
    rw [h, ih]

theorem boundSets_recordedTrace (i width height : Nat) (store shade tone : Material)
    (quad : Model) (layout : Handle) (sets : List Handle) (models : List Model) :
    boundSets (recordedTrace i width height store shade tone quad layout sets models) =
      [(0, sets)] := by
  unfold recordedTrace boundSets
  rw [List.filterMap_append, List.filterMap_append]
  have h := boundSets_recordModels layout models
  unfold boundSets at h
  rw [h]
  rfl

theorem heapSetIndices_recordModels (layout : Handle) (models : List Model) :
    heapSetIndices (recordModels layout models) =
      models.map (fun _ => (layout, DescSetLayoutTypes.HEAP)) := by
  induction models with
  | nil => rfl
  | cons m rest ih =>
    have h : heapSetIndices (recordModels layout (m :: rest)) =
        (layout, DescSetLayoutTypes.HEAP) :: heapSetIndices (recordModels layout rest) := rfl
    rw [h, ih]
    rfl

theorem heapSetIndices_recordedTrace (i width height : Nat) (store shade tone : Material)
    (quad : Model) (layout : Handle) (sets : List Handle) (models : List Model) :
    heapSetIndices (recordedTrace i width height store shade tone quad layout sets models) =
      models.map (fun _ => (layout, DescSetLayoutTypes.HEAP)) := by
  unfold recordedTrace heapSetIndices
  rw [List.filterMap_append, List.filterMap_append]
  have h := heapSetIndices_recordModels layout models
  unfold heapSetIndices at h
  rw [h]
  simp

/-- C24: each pass pipeline matches the subpass it is used in.  After every
`RegisterModel` that returns, each recorded command buffer binds exactly three
pipelines, `g_store`, `g_shade` and `g_tone` in this order, with 0, 1 and 2
`NextSubpass` commands recorded before the bind; these are the subpass indices the
pipelines were built with in `SetupMaterialPipelines` (0, 1, 2).  The pipelines were
built with 3, 1 and 1 colour-blend attachments, and the subpasses 0, 1 and 2 of the
render pass `SetupRenderPass` declares have 3, 1 and 1 colour attachment
references.  The hypothesis `PoolGrants` says that
the driver grants the descriptor set the call requests; a refused request stops the
call at `VK_CHECK_RESULT`. -/
theorem pipelines_match_the_subpass_they_are_bound_in {H : Headers} (A : Ambient H)
    (r : DeferredRenderer H) (model : Model) (g_store_vertex_setup : VertexSetup)
    (hI : Initialised A r) (hF : PackFits A r)
    (hG : PoolGrants A r) :
    ∃ r' store shade tone, RegisterModel A r model g_store_vertex_setup = Except.ok r' ∧
      r'.g_store_material_ = some store ∧ r'.g_shade_material_ = some shade ∧
      r'.g_tonemap_material_ = some tone ∧
      store.name = "g_store" ∧ shade.name = "g_shade" ∧ tone.name = "g_tone" ∧
      store.subpass = 0 ∧ shade.subpass = 1 ∧ tone.subpass = 2 ∧
      store.colour_blend_attachments = 3 ∧ shade.colour_blend_attachments = 1 ∧
      tone.colour_blend_attachments = 1 ∧
      (∀ i, i < SCAST_U32 A.GetNumImages →
        ∃ t, r'.vulkan.graphics_queue_cmd_buffers[i]? = some t ∧
          pipelineBinds t 0 = [(store, 0), (shade, 1), (tone, 2)] ∧
          ∀ p ∈ pipelineBinds t 0, p.1.subpass = p.2) ∧
      ∀ sf df : VkFormat,
        (SetupRenderPass sf df).subpasses.map (fun s => (s.name, s.colour_refs.length)) =
          [("g_store", 3), ("lighting", 1), ("tonemapping", 1)] ∧
        ∀ p ∈ [store, shade, tone],
          ((SetupRenderPass sf df).subpasses[p.subpass]?).map (fun s => s.colour_refs.length) =
            some p.colour_blend_attachments := by
  refine ⟨_, storeMaterial A g_store_vertex_setup (r.vulkan.next_handle + 3),
    shadeMaterial A (r.vulkan.next_handle + 3), toneMaterial H (r.vulkan.next_handle + 3),
    RegisterModel_eq A r model g_store_vertex_setup hI hF hG, rfl, rfl, rfl, rfl, rfl, rfl, rfl, rfl,
    rfl, rfl, rfl, rfl, ?_, ?_⟩
  · intro i hi
    refine ⟨_, registeredState_cmd_buffer A r model g_store_vertex_setup i hi, ?_, ?_⟩
    · exact pipelineBinds_recordedTrace _ _ _ _ _ _ _ _ _ _
    · intro p hp
      rw [pipelineBinds_recordedTrace] at hp
      simp only [List.mem_cons, List.mem_singleton, List.not_mem_nil, or_false] at hp
      rcases hp with h | h | h <;> rw [h] <;> rfl
  · intro sf df
    refine ⟨by rw [SetupRenderPass_subpasses]; rfl, ?_⟩
    intro p hp
    simp only [List.mem_cons, List.mem_singleton, List.not_mem_nil, or_false] at hp
    rw [SetupRenderPass_subpasses]
    rcases hp with h | h | h <;> rw [h] <;> rfl

/-- C24 (witness): the hypotheses of `pipelines_match_the_subpass_they_are_bound_in`
hold after `Init`. -/
theorem pipelines_match_the_subpass_they_are_bound_in_witness :
    ∃ r r', Init (scenarioAmbient 1 scenarioConstsA 1) scenarioRenderer = Except.ok r ∧
      RegisterModel (scenarioAmbient 1 scenarioConstsA 1) r scenarioModel [] = Except.ok r' ∧
      r'.g_store_material_.isSome = true := by
  obtain ⟨r, hr, hI, hE, _⟩ := Init_ok (scenarioAmbient 1 scenarioConstsA 1) 2 (by decide)
  obtain ⟨r', _, _, _, h, hs, _⟩ := pipelines_match_the_subpass_they_are_bound_in
    (scenarioAmbient 1 scenarioConstsA 1) r scenarioModel [] hI
    (scenario_PackFits 1 1 1 r (by decide) (by decide))
      (PoolGrants_of_not_enforcing _ r hE)
  exact ⟨r, r', hr, h, by rw [hs]; rfl⟩

/-- C26: descriptor-set indexing is consistent and in bounds.  After every
`RegisterModel` that returns, each recorded command buffer has one descriptor-set
bind, from set 0, of `DescSetLayoutTypes::HEAP = 1` sets; that is the size
`SetTypes::num_items = 1` of `desc_sets_`, so the sets bound are the whole array and
no element past it, and it is the number of sets the call allocated into it: one,
with the frame-generic layout.  Every `RenderMeshesByMaterial` is given the
pipeline layout of the call and the heap set index 1, and in that pipeline layout's
list of set layouts, frame-generic then heap, position 1 holds the heap layout, the
one in `desc_set_layouts_[HEAP]`.  The hypothesis `PoolGrants` says that
the driver grants the descriptor set the call requests; a refused request stops the
call at `VK_CHECK_RESULT`. -/
theorem descriptor_set_indices_in_bounds {H : Headers} (A : Ambient H)
    (r : DeferredRenderer H) (model : Model) (g_store_vertex_setup : VertexSetup)
    (hI : Initialised A r) (hF : PackFits A r)
    (hG : PoolGrants A r) :
    ∃ r' set generic heap layout,
      RegisterModel A r model g_store_vertex_setup = Except.ok r' ∧
      DescSetLayoutTypes.HEAP = 1 ∧ SetTypes.num_items = 1 ∧
      r'.desc_sets_ = [set] ∧ r'.desc_sets_.length = SetTypes.num_items ∧
      r'.desc_sets_.take DescSetLayoutTypes.HEAP = r'.desc_sets_ ∧
      r'.vulkan.desc_pools = r.vulkan.desc_pools.map (fun p =>
        if p.handle == r.desc_pool_ then
          { p with allocatedSets := p.allocatedSets ++ [(set, generic)] }
        else p) ∧
      (set, generic) ∈ r'.poolSets ∧
      r'.desc_set_layouts_ = [generic, heap] ∧
      r'.desc_set_layouts_[DescSetLayoutTypes.HEAP]? = some heap ∧
      (⟨heap, heapBindings H⟩ : DescriptorSetLayoutObject) ∈ r'.vulkan.desc_set_layouts ∧
      r'.pipe_layouts_[PipeLayoutTypes.GPASS]? = some layout ∧
      (∃ p ∈ r'.vulkan.pipe_layouts, p.handle = layout ∧ p.setLayouts = [generic, heap] ∧
        p.setLayouts[DescSetLayoutTypes.HEAP]? = some heap ∧
        p.setLayouts[DescSetLayoutTypes.GPASS_GENERIC]? = some generic) ∧
      ∀ i, i < SCAST_U32 A.GetNumImages →
        ∃ t, r'.vulkan.graphics_queue_cmd_buffers[i]? = some t ∧
          boundSets t = [(0, r'.desc_sets_.take DescSetLayoutTypes.HEAP)] ∧
          boundSetCounts t = [(0, SetTypes.num_items)] ∧
          heapSetIndices t = r'.registered_models_.map (fun _ => (layout, 1)) := by
  refine ⟨_, r.vulkan.next_handle + 2, r.vulkan.next_handle, r.vulkan.next_handle + 1,
    r.vulkan.next_handle + 3, RegisterModel_eq A r model g_store_vertex_setup hI hF hG, rfl, rfl,
    rfl, rfl, rfl, rfl, registeredState_poolSets A r model g_store_vertex_setup hI.pool, rfl,
    rfl, ?_, rfl, ?_, ?_⟩
  · show _ ∈ r.vulkan.desc_set_layouts ++ _
    simp
  · refine ⟨⟨r.vulkan.next_handle + 3, [r.vulkan.next_handle, r.vulkan.next_handle + 1],
      [⟨VkShaderStageFlags.VK_SHADER_STAGE_VERTEX_BIT, 0, 4⟩]⟩, ?_, rfl, rfl, rfl, rfl⟩
    show _ ∈ r.vulkan.pipe_layouts ++ _
    simp
  · intro i hi
    refine ⟨_, registeredState_cmd_buffer A r model g_store_vertex_setup i hi, ?_, ?_, ?_⟩
    · exact boundSets_recordedTrace _ _ _ _ _ _ _ _ _ _
    · have h := boundSets_recordedTrace i A.viewport_width A.viewport_height
        (storeMaterial A g_store_vertex_setup (r.vulkan.next_handle + 3))
        (shadeMaterial A (r.vulkan.next_handle + 3))
        (toneMaterial H (r.vulkan.next_handle + 3)) fullscreenQuad
        (r.vulkan.next_handle + 3) [r.vulkan.next_handle + 2]
        (r.registered_models_ ++ [model])
      have hc : ∀ t : List Cmd, boundSetCounts t =
          (boundSets t).map (fun p => (p.1, p.2.length)) := by
        intro t
        induction t with
        | nil => rfl
        | cons c rest ih =>
          cases c <;> simp [boundSetCounts, boundSets, List.filterMap_cons] at ih ⊢ <;>
            exact ih
      rw [hc, h]
      rfl
    · exact heapSetIndices_recordedTrace _ _ _ _ _ _ _ _ _ _

/-- C26 (witness): the hypotheses of `descriptor_set_indices_in_bounds` hold after
`Init`. -/
theorem descriptor_set_indices_in_bounds_witness :
    ∃ r r', Init (scenarioAmbient 1 scenarioConstsA 1) scenarioRenderer = Except.ok r ∧
      RegisterModel (scenarioAmbient 1 scenarioConstsA 1) r scenarioModel [] = Except.ok r' ∧
      r'.desc_sets_.length = 1 := by
  obtain ⟨r, hr, hI, hE, _⟩ := Init_ok (scenarioAmbient 1 scenarioConstsA 1) 2 (by decide)
  obtain ⟨r', _, _, _, _, h, _, _, _, hl, _⟩ := descriptor_set_indices_in_bounds
    (scenarioAmbient 1 scenarioConstsA 1) r scenarioModel [] hI
    (scenario_PackFits 1 1 1 r (by decide) (by decide))
      (PoolGrants_of_not_enforcing _ r hE)
  exact ⟨r, r', hr, h, hl⟩

end vks
